import Mathlib

/-!
# SimAK65: a shallow embedding of the 6502 core

The C sources (`alu.c`, `exec.c`, `addrmode.c`) are embedded as Lean
functions over natural numbers.  A `u8` is a natural number below `256`, a
`u16` a natural number below `65536`; every C assignment that truncates is
written with an explicit `%`.  A function that updates `*flags` through a
pointer returns the pair `(result, flags)`.
-/

namespace SimAK65

/-! ## Flag bits (`flags.h`) -/

/-- Modelled from the spec: `flags.h` is not part of the sources; the spec's
flag table puts CARRY at bit 0. -/
def FLAG_CARRY : Nat := 0x01

/-- Modelled from the spec: `flags.h` is not part of the sources; the spec's
flag table puts ZERO at bit 1. -/
def FLAG_ZERO : Nat := 0x02

/-- Modelled from the spec: `flags.h` is not part of the sources; the spec's
flag table puts IRQD at bit 2. -/
def FLAG_IRQD : Nat := 0x04

/-- Modelled from the spec: `flags.h` is not part of the sources; the spec's
flag table puts BCD at bit 3. -/
def FLAG_BCD : Nat := 0x08

/-- Modelled from the spec: `flags.h` is not part of the sources; the spec's
flag table puts BRK at bit 4. -/
def FLAG_BRK : Nat := 0x10

/-- Modelled from the spec: `flags.h` is not part of the sources; the spec's
flag table puts ONE at bit 5. -/
def FLAG_ONE : Nat := 0x20

/-- Modelled from the spec: `flags.h` is not part of the sources; the spec's
flag table puts OVRF at bit 6. -/
def FLAG_OVRF : Nat := 0x40

/-- Modelled from the spec: `flags.h` is not part of the sources; the spec's
flag table puts SIGN at bit 7. -/
def FLAG_SIGN : Nat := 0x80

/-! ## The ALU (`alu.c`)

`*flags |= m` is `flags ||| m`.  `*flags &= ~m` is `flags &&& (0xff ^^^ m)`:
of the complement `~m` only the low eight bits meet the `u8`.  In the same way
`~b & 0xff` is `(0xff ^^^ b) &&& 0xff`. -/

/-- Embeds `alu_flags` (alu.c:5): update ZERO and SIGN from `result`, each only when
it is in `mask`. -/
def alu_flags (result flags mask : Nat) : Nat :=
  let flags :=
    if mask &&& FLAG_ZERO ≠ 0 then
      if result &&& 0xff = 0 then flags ||| FLAG_ZERO
      else flags &&& (0xff ^^^ FLAG_ZERO)
    else flags
  if mask &&& FLAG_SIGN ≠ 0 then
    if result &&& 0x80 ≠ 0 then flags ||| FLAG_SIGN
    else flags &&& (0xff ^^^ FLAG_SIGN)
  else flags

/-- Embeds `alu_add` (alu.c:22).  `carry_in` is `!!(*flags & FLAG_CARRY)`; `result`
is a `u16`, so each assignment to it is reduced modulo 65536. -/
def alu_add (a b flags : Nat) : Nat × Nat :=
  let carry_in := if flags &&& FLAG_CARRY ≠ 0 then 1 else 0
  let ai := a
  let bi := b
  let result := (ai + bi + carry_in) % 65536
  let result :=
    if flags &&& FLAG_BCD ≠ 0 then
      let result :=
        if (ai &&& 0xf) + (bi &&& 0xf) + carry_in > 9 then (result + 0x06) % 65536
        else result
      if (result >>> 4) > 9 then (result + 0x60) % 65536 else result
    else result
  let flags :=
    if result < ai ∨ result < bi ∨ (result &&& 0xff00) ≠ 0 then
      flags ||| FLAG_CARRY
    else flags &&& (0xff ^^^ FLAG_CARRY)
  let flags := alu_flags (result &&& 0xff) flags (FLAG_SIGN ||| FLAG_ZERO)
  let flags :=
    if ((ai ^^^ result) &&& (bi ^^^ result) &&& 0x80) ≠ 0 then
      flags ||| FLAG_OVRF
    else flags &&& (0xff ^^^ FLAG_OVRF)
  (result &&& 0xff, flags)

/-- Embeds `alu_sub` (alu.c:57).  `(0x99 - b) & 0xff` is the difference reduced
modulo 256. -/
def alu_sub (a b flags : Nat) : Nat × Nat :=
  let carry_in := if flags &&& FLAG_CARRY ≠ 0 then 1 else 0
  let ai := a
  let bi :=
    if flags &&& FLAG_BCD ≠ 0 then (0x99 + 0x100 - b) % 0x100
    else (0xff ^^^ b) &&& 0xff
  let result := (ai + bi + carry_in) % 65536
  let result :=
    if flags &&& FLAG_BCD ≠ 0 then
      let result :=
        if (ai &&& 0xf) + (bi &&& 0xf) + carry_in > 9 then (result + 0x06) % 65536
        else result
      if (result >>> 4) > 9 then (result + 0x60) % 65536 else result
    else result
  let flags :=
    if result < ai ∨ result < bi ∨ (result &&& 0xff00) ≠ 0 then
      flags ||| FLAG_CARRY
    else flags &&& (0xff ^^^ FLAG_CARRY)
  let flags := alu_flags (result &&& 0xff) flags (FLAG_SIGN ||| FLAG_ZERO)
  let flags :=
    if ((ai ^^^ result) &&& (bi ^^^ result) &&& 0x80) ≠ 0 then
      flags ||| FLAG_OVRF
    else flags &&& (0xff ^^^ FLAG_OVRF)
  (result &&& 0xff, flags)

/-- Embeds `alu_inc` (alu.c:96). -/
def alu_inc (a _b flags : Nat) : Nat × Nat :=
  let result := (a + 1) % 256
  let flags := alu_flags result flags (FLAG_SIGN ||| FLAG_ZERO)
  (result, flags)

/-- Embeds `alu_dec` (alu.c:109): `a - 1` on a `u8` is `a + 255` modulo 256. -/
def alu_dec (a _b flags : Nat) : Nat × Nat :=
  let result := (a + 255) % 256
  let flags := alu_flags result flags (FLAG_SIGN ||| FLAG_ZERO)
  (result, flags)

/-- Embeds `alu_and` (alu.c:122). -/
def alu_and (a b flags : Nat) : Nat × Nat :=
  let result := a &&& b
  let flags := alu_flags result flags (FLAG_SIGN ||| FLAG_ZERO)
  (result, flags)

/-- Embeds `alu_or` (alu.c:135). -/
def alu_or (a b flags : Nat) : Nat × Nat :=
  let result := a ||| b
  let flags := alu_flags result flags (FLAG_SIGN ||| FLAG_ZERO)
  (result, flags)

/-- Embeds `alu_eor` (alu.c:148). -/
def alu_eor (a b flags : Nat) : Nat × Nat :=
  let result := a ^^^ b
  let flags := alu_flags result flags (FLAG_SIGN ||| FLAG_ZERO)
  (result, flags)

/-- Embeds `alu_rol` (alu.c:161).  ZERO and SIGN are updated before CARRY, so the
test of the incoming CARRY reads the caller's flags. -/
def alu_rol (a _b flags : Nat) : Nat × Nat :=
  let result := (a <<< 1) % 256
  let result := if flags &&& FLAG_CARRY ≠ 0 then result ||| 1 else result
  let flags := alu_flags result flags (FLAG_SIGN ||| FLAG_ZERO)
  let flags :=
    if a &&& 0x80 ≠ 0 then flags ||| FLAG_CARRY
    else flags &&& (0xff ^^^ FLAG_CARRY)
  (result, flags)

/-- Embeds `alu_ror` (alu.c:182). -/
def alu_ror (a _b flags : Nat) : Nat × Nat :=
  let result := a >>> 1
  let result := if flags &&& FLAG_CARRY ≠ 0 then result ||| 0x80 else result
  let flags := alu_flags result flags (FLAG_SIGN ||| FLAG_ZERO)
  let flags :=
    if a &&& 0x01 ≠ 0 then flags ||| FLAG_CARRY
    else flags &&& (0xff ^^^ FLAG_CARRY)
  (result, flags)

/-- Embeds `alu_asl` (alu.c:203). -/
def alu_asl (a _b flags : Nat) : Nat × Nat :=
  let result := (a <<< 1) % 256
  let flags := alu_flags result flags (FLAG_SIGN ||| FLAG_ZERO)
  let flags :=
    if a &&& 0x80 ≠ 0 then flags ||| FLAG_CARRY
    else flags &&& (0xff ^^^ FLAG_CARRY)
  (result, flags)

/-- Embeds `alu_lsr` (alu.c:221). -/
def alu_lsr (a _b flags : Nat) : Nat × Nat :=
  let result := a >>> 1
  let flags := alu_flags result flags (FLAG_SIGN ||| FLAG_ZERO)
  let flags :=
    if a &&& 0x01 ≠ 0 then flags ||| FLAG_CARRY
    else flags &&& (0xff ^^^ FLAG_CARRY)
  (result, flags)

/-- Embeds `alu_bit` (alu.c:239). -/
def alu_bit (a b flags : Nat) : Nat × Nat :=
  let result := a &&& b
  let flags := alu_flags result flags FLAG_ZERO
  let flags :=
    if b &&& 0x40 ≠ 0 then flags ||| FLAG_OVRF
    else flags &&& (0xff ^^^ FLAG_OVRF)
  let flags :=
    if b &&& 0x80 ≠ 0 then flags ||| FLAG_SIGN
    else flags &&& (0xff ^^^ FLAG_SIGN)
  (result, flags)

/-- Embeds `alu_cmp` (alu.c:262): the `u16` sum is returned through a `u8`. -/
def alu_cmp (a b flags : Nat) : Nat × Nat :=
  let ai := a
  let bi := (0xff ^^^ b) &&& 0xff
  let result := (ai + bi + 1) % 65536
  let flags :=
    if result < ai ∨ result < bi ∨ (result &&& 0xff00) ≠ 0 then
      flags ||| FLAG_CARRY
    else flags &&& (0xff ^^^ FLAG_CARRY)
  let flags := alu_flags (result &&& 0xff) flags (FLAG_SIGN ||| FLAG_ZERO)
  (result % 256, flags)

/-- Embeds `alu_load` (alu.c:284). -/
def alu_load (a _b flags : Nat) : Nat × Nat :=
  let flags := alu_flags a flags (FLAG_ZERO ||| FLAG_SIGN)
  (a, flags)

/-! ## CPU state and bus (`simak65.h`, `addrmode.h`, `bus.h`) -/

/-- Embeds `struct simak65_cpustate` (simak65.h): `pc` is a `u16`, the other fields
are `u8`. -/
structure simak65_cpustate where
  pc : Nat
  a : Nat
  x : Nat
  y : Nat
  sp : Nat
  flags : Nat
deriving DecidableEq

/-- Embeds `enum argtype` (addrmode.h). -/
inductive argtype where
  | arg_none
  | arg_byte
  | arg_addr
deriving DecidableEq

/-- Modelled from the spec: `bus.h` and the host's bus callbacks are not part
of the sources.  The bus is the spec's byte-addressable 16-bit address space,
held as a function from addresses to bytes. -/
abbrev Memory := Nat → Nat

/-- Modelled from the spec: `bus.read(address)` "returns the byte at `addr`";
the argument is a `uint16_t` and the value a `uint8_t`. -/
def bus_read (mem : Memory) (address : Nat) : Nat :=
  mem (address % 65536) % 256

/-- Modelled from the spec: `bus.write(address, byte)` "stores `value` at
`addr`", so that a later read of that address returns it. -/
def bus_write (mem : Memory) (address byte : Nat) : Memory :=
  fun p => if p = address % 65536 then byte % 256 else mem p

/-- What an executor entry point works on: the CPU state lent by the caller,
the memory behind the bus, and the caller's cycle counter (`*cycles`, an
`unsigned int` of 32 bits). -/
structure Machine where
  cpu : simak65_cpustate
  mem : Memory
  cycles : Nat

/-- Embeds `IRQ_VECTOR` (exec.c:12). -/
def IRQ_VECTOR : Nat := 0xfffe

/-- Embeds `RST_VECTOR` (exec.c:13). -/
def RST_VECTOR : Nat := 0xfffc

/-- Embeds `NMI_VECTOR` (exec.c:14). -/
def NMI_VECTOR : Nat := 0xfffa

/-! ## The executor (`exec.c`)

A handler takes the machine, the operand form `argtype` and the two operand
bytes `args[0]`, `args[1]` (as the pair `args`), and returns the machine it
leaves behind. -/

/-- Embeds `exec_cmp` (exec.c:359): the byte `alu_cmp` returns is dropped. -/
def exec_cmp (s : Machine) (argtype : argtype) (args : Nat × Nat) : Machine :=
  if argtype = .arg_addr then
    let addr := ((args.2 <<< 8) ||| args.1) % 65536
    let arg := bus_read s.mem addr
    let cycles := (s.cycles + 2) % 4294967296
    let r := alu_cmp s.cpu.a arg s.cpu.flags
    { s with cpu := { s.cpu with flags := r.2 }, cycles := cycles }
  else
    let arg := args.1
    let cycles := (s.cycles + 1) % 4294967296
    let r := alu_cmp s.cpu.a arg s.cpu.flags
    { s with cpu := { s.cpu with flags := r.2 }, cycles := cycles }

/-- Embeds `exec_cpx` (exec.c:379). -/
def exec_cpx (s : Machine) (argtype : argtype) (args : Nat × Nat) : Machine :=
  if argtype = .arg_addr then
    let addr := ((args.2 <<< 8) ||| args.1) % 65536
    let arg := bus_read s.mem addr
    let cycles := (s.cycles + 2) % 4294967296
    let r := alu_cmp s.cpu.x arg s.cpu.flags
    { s with cpu := { s.cpu with flags := r.2 }, cycles := cycles }
  else
    let arg := args.1
    let cycles := (s.cycles + 1) % 4294967296
    let r := alu_cmp s.cpu.x arg s.cpu.flags
    { s with cpu := { s.cpu with flags := r.2 }, cycles := cycles }

/-- Embeds `exec_cpy` (exec.c:399). -/
def exec_cpy (s : Machine) (argtype : argtype) (args : Nat × Nat) : Machine :=
  if argtype = .arg_addr then
    let addr := ((args.2 <<< 8) ||| args.1) % 65536
    let arg := bus_read s.mem addr
    let cycles := (s.cycles + 2) % 4294967296
    let r := alu_cmp s.cpu.y arg s.cpu.flags
    { s with cpu := { s.cpu with flags := r.2 }, cycles := cycles }
  else
    let arg := args.1
    let cycles := (s.cycles + 1) % 4294967296
    let r := alu_cmp s.cpu.y arg s.cpu.flags
    { s with cpu := { s.cpu with flags := r.2 }, cycles := cycles }

/-- Embeds `exec_rst` (exec.c:1023): the two reads of the reset vector are its only
bus traffic. -/
def exec_rst (s : Machine) : Machine :=
  let cpu := { s.cpu with a := 0 }
  let cpu := { cpu with x := 0 }
  let cpu := { cpu with y := 0 }
  let cpu := { cpu with flags := FLAG_ONE }
  let cpu := { cpu with sp := 0xff }
  let cpu := { cpu with pc := bus_read s.mem RST_VECTOR }
  let cpu := { cpu with pc := (cpu.pc ||| (bus_read s.mem (RST_VECTOR + 1) <<< 8)) % 65536 }
  { s with cpu := cpu, cycles := (s.cycles + 4) % 4294967296 }

/-- Embeds the `FATAL` macro (error.h) at the default `LOG_LEVEL` of 3: after
its message the process exits, so the handler leaves no machine behind. -/
def FATAL : Option Machine := none

/-- Embeds `exec_push` (exec.c:16): the address is formed before `sp` is
decremented, and `--cpu->sp` wraps in a `u8`. -/
def exec_push (s : Machine) (data : Nat) : Machine :=
  let addr := (0x0100 ||| s.cpu.sp) % 65536
  let sp := (s.cpu.sp + 255) % 256
  { s with cpu := { s.cpu with sp := sp }, mem := bus_write s.mem addr data }

/-- Embeds `exec_pop` (exec.c:31): `++cpu->sp` wraps in a `u8`, then the byte at
`0x0100 | sp` is read; the machine left behind is paired with that byte. -/
def exec_pop (s : Machine) : Machine × Nat :=
  let sp := (s.cpu.sp + 1) % 256
  let addr := (0x0100 ||| sp) % 65536
  let data := bus_read s.mem addr
  ({ s with cpu := { s.cpu with sp := sp } }, data)

/-- Embeds `exec_bcc` (exec.c:118): taken when CARRY is clear.  The tight-loop test
`addr == cpu->pc - 2` is made in `int`, where `pc - 2` does not wrap, and is
compiled only without `NDEBUG`. -/
def exec_bcc (ndebug : Bool) (s : Machine) (_argtype : argtype) (args : Nat × Nat) :
    Option Machine :=
  let addr := ((args.2 <<< 8) ||| args.1) % 65536
  if ¬ (s.cpu.flags &&& FLAG_CARRY ≠ 0) then
    if ndebug = false ∧ (addr : Int) = (s.cpu.pc : Int) - 2 then FATAL
    else
      some { s with cpu := { s.cpu with pc := addr }, cycles := (s.cycles + 1) % 4294967296 }
  else some s

/-- Embeds `exec_bcs` (exec.c:138): taken when CARRY is set.  The tight-loop test
`addr == cpu->pc - 2` is made in `int`, where `pc - 2` does not wrap, and is
compiled only without `NDEBUG`. -/
def exec_bcs (ndebug : Bool) (s : Machine) (_argtype : argtype) (args : Nat × Nat) :
    Option Machine :=
  let addr := ((args.2 <<< 8) ||| args.1) % 65536
  if s.cpu.flags &&& FLAG_CARRY ≠ 0 then
    if ndebug = false ∧ (addr : Int) = (s.cpu.pc : Int) - 2 then FATAL
    else
      some { s with cpu := { s.cpu with pc := addr }, cycles := (s.cycles + 1) % 4294967296 }
  else some s

/-- Embeds `exec_beq` (exec.c:158): taken when ZERO is set.  The tight-loop test
`addr == cpu->pc - 2` is made in `int`, where `pc - 2` does not wrap, and is
compiled only without `NDEBUG`. -/
def exec_beq (ndebug : Bool) (s : Machine) (_argtype : argtype) (args : Nat × Nat) :
    Option Machine :=
  let addr := ((args.2 <<< 8) ||| args.1) % 65536
  if s.cpu.flags &&& FLAG_ZERO ≠ 0 then
    if ndebug = false ∧ (addr : Int) = (s.cpu.pc : Int) - 2 then FATAL
    else
      some { s with cpu := { s.cpu with pc := addr }, cycles := (s.cycles + 1) % 4294967296 }
  else some s

/-- Embeds `exec_bit` (exec.c:178): the byte `alu_bit` returns is dropped. -/
def exec_bit (s : Machine) (argtype : argtype) (args : Nat × Nat) : Machine :=
  if argtype = .arg_addr then
    let addr := ((args.2 <<< 8) ||| args.1) % 65536
    let arg := bus_read s.mem addr
    let cycles := (s.cycles + 2) % 4294967296
    let r := alu_bit s.cpu.a arg s.cpu.flags
    { s with cpu := { s.cpu with flags := r.2 }, cycles := cycles }
  else
    let arg := args.1
    let cycles := (s.cycles + 1) % 4294967296
    let r := alu_bit s.cpu.a arg s.cpu.flags
    { s with cpu := { s.cpu with flags := r.2 }, cycles := cycles }

/-- Embeds `exec_bmi` (exec.c:198): taken when SIGN is set.  The tight-loop test
`addr == cpu->pc - 2` is made in `int`, where `pc - 2` does not wrap, and is
compiled only without `NDEBUG`. -/
def exec_bmi (ndebug : Bool) (s : Machine) (_argtype : argtype) (args : Nat × Nat) :
    Option Machine :=
  let addr := ((args.2 <<< 8) ||| args.1) % 65536
  if s.cpu.flags &&& FLAG_SIGN ≠ 0 then
    if ndebug = false ∧ (addr : Int) = (s.cpu.pc : Int) - 2 then FATAL
    else
      some { s with cpu := { s.cpu with pc := addr }, cycles := (s.cycles + 1) % 4294967296 }
  else some s

/-- Embeds `exec_bne` (exec.c:218): taken when ZERO is clear.  The tight-loop test
`addr == cpu->pc - 2` is made in `int`, where `pc - 2` does not wrap, and is
compiled only without `NDEBUG`. -/
def exec_bne (ndebug : Bool) (s : Machine) (_argtype : argtype) (args : Nat × Nat) :
    Option Machine :=
  let addr := ((args.2 <<< 8) ||| args.1) % 65536
  if ¬ (s.cpu.flags &&& FLAG_ZERO ≠ 0) then
    if ndebug = false ∧ (addr : Int) = (s.cpu.pc : Int) - 2 then FATAL
    else
      some { s with cpu := { s.cpu with pc := addr }, cycles := (s.cycles + 1) % 4294967296 }
  else some s

/-- Embeds `exec_bpl` (exec.c:238): taken when SIGN is clear.  The tight-loop test
`addr == cpu->pc - 2` is made in `int`, where `pc - 2` does not wrap, and is
compiled only without `NDEBUG`. -/
def exec_bpl (ndebug : Bool) (s : Machine) (_argtype : argtype) (args : Nat × Nat) :
    Option Machine :=
  let addr := ((args.2 <<< 8) ||| args.1) % 65536
  if ¬ (s.cpu.flags &&& FLAG_SIGN ≠ 0) then
    if ndebug = false ∧ (addr : Int) = (s.cpu.pc : Int) - 2 then FATAL
    else
      some { s with cpu := { s.cpu with pc := addr }, cycles := (s.cycles + 1) % 4294967296 }
  else some s

/-- Embeds `exec_brk` (exec.c:258): `cpu->pc += 1` wraps in a `u16`; the pushed
copy of the flags has ONE and BRK set, the live flags only gain IRQD. -/
def exec_brk (s : Machine) (_argtype : argtype) (_args : Nat × Nat) : Machine :=
  let s := { s with cpu := { s.cpu with pc := (s.cpu.pc + 1) % 65536 } }
  let s := exec_push s ((s.cpu.pc >>> 8) &&& 0xff)
  let s := exec_push s (s.cpu.pc &&& 0xff)
  let flags := s.cpu.flags
  let flags := flags ||| (FLAG_ONE ||| FLAG_BRK)
  let s := exec_push s flags
  let s := { s with cpu := { s.cpu with flags := s.cpu.flags ||| FLAG_IRQD } }
  let addr := bus_read s.mem IRQ_VECTOR
  let addr := (addr ||| (bus_read s.mem (IRQ_VECTOR + 1) <<< 8)) % 65536
  let s := { s with cpu := { s.cpu with pc := addr } }
  { s with cycles := (s.cycles + 4) % 4294967296 }

/-- Embeds `exec_bvc` (exec.c:283): taken when OVRF is clear.  The tight-loop test
`addr == cpu->pc - 2` is made in `int`, where `pc - 2` does not wrap, and is
compiled only without `NDEBUG`. -/
def exec_bvc (ndebug : Bool) (s : Machine) (_argtype : argtype) (args : Nat × Nat) :
    Option Machine :=
  let addr := ((args.2 <<< 8) ||| args.1) % 65536
  if ¬ (s.cpu.flags &&& FLAG_OVRF ≠ 0) then
    if ndebug = false ∧ (addr : Int) = (s.cpu.pc : Int) - 2 then FATAL
    else
      some { s with cpu := { s.cpu with pc := addr }, cycles := (s.cycles + 1) % 4294967296 }
  else some s

/-- Embeds `exec_bvs` (exec.c:303): taken when OVRF is set.  The tight-loop test
`addr == cpu->pc - 2` is made in `int`, where `pc - 2` does not wrap, and is
compiled only without `NDEBUG`. -/
def exec_bvs (ndebug : Bool) (s : Machine) (_argtype : argtype) (args : Nat × Nat) :
    Option Machine :=
  let addr := ((args.2 <<< 8) ||| args.1) % 65536
  if s.cpu.flags &&& FLAG_OVRF ≠ 0 then
    if ndebug = false ∧ (addr : Int) = (s.cpu.pc : Int) - 2 then FATAL
    else
      some { s with cpu := { s.cpu with pc := addr }, cycles := (s.cycles + 1) % 4294967296 }
  else some s

/-- Embeds `exec_jsr` (exec.c:546): `cpu->pc - 1` is stored in a `u16`, so it
wraps modulo 65536. -/
def exec_jsr (s : Machine) (_argtype : argtype) (args : Nat × Nat) : Machine :=
  let addr := (s.cpu.pc + 65535) % 65536
  let s := exec_push s ((addr >>> 8) &&& 0xff)
  let s := exec_push s (addr &&& 0xff)
  let addr := ((args.2 <<< 8) ||| args.1) % 65536
  let s := { s with cpu := { s.cpu with pc := addr } }
  { s with cycles := (s.cycles + 2) % 4294967296 }

/-- Embeds `exec_plp` (exec.c:710). -/
def exec_plp (s : Machine) (_argtype : argtype) (_args : Nat × Nat) : Machine :=
  let r := exec_pop s
  let s := { r.1 with cpu := { r.1.cpu with flags := r.2 } }
  let s := { s with cpu := { s.cpu with flags := s.cpu.flags &&&
    (FLAG_CARRY ||| FLAG_ZERO ||| FLAG_IRQD ||| FLAG_BCD ||| FLAG_OVRF ||| FLAG_SIGN) } }
  { s with cycles := (s.cycles + 2) % 4294967296 }

/-- Embeds `exec_rti` (exec.c:778).  Its last statement is `cycles += 3;`, which
advances the handler's own copy of the pointer `cycles`; the counter `*cycles`
is not written. -/
def exec_rti (s : Machine) (_argtype : argtype) (_args : Nat × Nat) : Machine :=
  let r := exec_pop s
  let s := { r.1 with cpu := { r.1.cpu with flags := r.2 } }
  let s := { s with cpu := { s.cpu with flags := s.cpu.flags &&&
    (FLAG_CARRY ||| FLAG_ZERO ||| FLAG_IRQD ||| FLAG_BCD ||| FLAG_OVRF ||| FLAG_SIGN) } }
  let r := exec_pop s
  let s := r.1
  let addr := r.2
  let r := exec_pop s
  let s := r.1
  let addr := (addr ||| (r.2 <<< 8)) % 65536
  { s with cpu := { s.cpu with pc := addr } }

/-- Embeds `exec_rts` (exec.c:795).  Its last statement is `cycles += 2;`, which
advances the handler's own copy of the pointer `cycles`; the counter `*cycles`
is not written. -/
def exec_rts (s : Machine) (_argtype : argtype) (_args : Nat × Nat) : Machine :=
  let r := exec_pop s
  let s := r.1
  let addr := r.2
  let r := exec_pop s
  let s := r.1
  let addr := (addr ||| (r.2 <<< 8)) % 65536
  let addr := (addr + 1) % 65536
  { s with cpu := { s.cpu with pc := addr } }

/-- Embeds `exec_irq` (exec.c:979): the pushed copy of the flags has ONE set and
BRK clear. -/
def exec_irq (s : Machine) : Machine :=
  let s := exec_push s ((s.cpu.pc >>> 8) &&& 0xff)
  let s := exec_push s (s.cpu.pc &&& 0xff)
  let flags := s.cpu.flags
  let flags := flags ||| FLAG_ONE
  let flags := flags &&& (0xff ^^^ FLAG_BRK)
  let s := exec_push s flags
  let s := { s with cpu := { s.cpu with pc := bus_read s.mem IRQ_VECTOR } }
  let s := { s with cpu := { s.cpu with
    pc := (s.cpu.pc ||| (bus_read s.mem (IRQ_VECTOR + 1) <<< 8)) % 65536 } }
  let s := { s with cpu := { s.cpu with flags := s.cpu.flags ||| FLAG_IRQD } }
  { s with cycles := (s.cycles + 7) % 4294967296 }

/-- Embeds `exec_nmi` (exec.c:1001). -/
def exec_nmi (s : Machine) : Machine :=
  let s := exec_push s ((s.cpu.pc >>> 8) &&& 0xff)
  let s := exec_push s (s.cpu.pc &&& 0xff)
  let flags := s.cpu.flags
  let flags := flags ||| FLAG_ONE
  let flags := flags &&& (0xff ^^^ FLAG_BRK)
  let s := exec_push s flags
  let s := { s with cpu := { s.cpu with pc := bus_read s.mem NMI_VECTOR } }
  let s := { s with cpu := { s.cpu with
    pc := (s.cpu.pc ||| (bus_read s.mem (NMI_VECTOR + 1) <<< 8)) % 65536 } }
  let s := { s with cpu := { s.cpu with flags := s.cpu.flags ||| FLAG_IRQD } }
  { s with cycles := (s.cycles + 7) % 4294967296 }

/-- Embeds `exec_adc` (exec.c:49). -/
def exec_adc (s : Machine) (argtype : argtype) (args : Nat × Nat) : Machine :=
  if argtype = .arg_addr then
    let addr := ((args.2 <<< 8) ||| args.1) % 65536
    let arg := bus_read s.mem addr
    let cycles := (s.cycles + 2) % 4294967296
    let r := alu_add s.cpu.a arg s.cpu.flags
    { s with cpu := { s.cpu with a := r.1, flags := r.2 }, cycles := cycles }
  else
    let arg := args.1
    let cycles := (s.cycles + 1) % 4294967296
    let r := alu_add s.cpu.a arg s.cpu.flags
    { s with cpu := { s.cpu with a := r.1, flags := r.2 }, cycles := cycles }

/-- Embeds `exec_and` (exec.c:69). -/
def exec_and (s : Machine) (argtype : argtype) (args : Nat × Nat) : Machine :=
  if argtype = .arg_addr then
    let addr := ((args.2 <<< 8) ||| args.1) % 65536
    let arg := bus_read s.mem addr
    let cycles := (s.cycles + 2) % 4294967296
    let r := alu_and s.cpu.a arg s.cpu.flags
    { s with cpu := { s.cpu with a := r.1, flags := r.2 }, cycles := cycles }
  else
    let arg := args.1
    let cycles := (s.cycles + 1) % 4294967296
    let r := alu_and s.cpu.a arg s.cpu.flags
    { s with cpu := { s.cpu with a := r.1, flags := r.2 }, cycles := cycles }

/-- Embeds `exec_asl` (exec.c:89): the operand form is tested twice, before the
ALU call to fetch the operand and after it to store the result; both tests are
the same, so each branch here holds its fetch and its store. -/
def exec_asl (s : Machine) (argtype : argtype) (args : Nat × Nat) : Machine :=
  if argtype = .arg_addr then
    let addr := ((args.2 <<< 8) ||| args.1) % 65536
    let arg := bus_read s.mem addr
    let cycles := (s.cycles + 2) % 4294967296
    let r := alu_asl arg 0 s.cpu.flags
    let result := r.1
    { s with cpu := { s.cpu with flags := r.2 }, mem := bus_write s.mem addr result,
             cycles := (cycles + 1) % 4294967296 }
  else
    let arg := args.1
    let cycles := (s.cycles + 1) % 4294967296
    let r := alu_asl arg 0 s.cpu.flags
    let result := r.1
    { s with cpu := { s.cpu with a := result, flags := r.2 }, cycles := cycles }

/-- Embeds `exec_clc` (exec.c:323). -/
def exec_clc (s : Machine) (_argtype : argtype) (_args : Nat × Nat) : Machine :=
  { s with cpu := { s.cpu with flags := s.cpu.flags &&& (0xff ^^^ FLAG_CARRY) }, cycles := (s.cycles + 1) % 4294967296 }

/-- Embeds `exec_cld` (exec.c:332). -/
def exec_cld (s : Machine) (_argtype : argtype) (_args : Nat × Nat) : Machine :=
  { s with cpu := { s.cpu with flags := s.cpu.flags &&& (0xff ^^^ FLAG_BCD) }, cycles := (s.cycles + 1) % 4294967296 }

/-- Embeds `exec_cli` (exec.c:341). -/
def exec_cli (s : Machine) (_argtype : argtype) (_args : Nat × Nat) : Machine :=
  { s with cpu := { s.cpu with flags := s.cpu.flags &&& (0xff ^^^ FLAG_IRQD) }, cycles := (s.cycles + 1) % 4294967296 }

/-- Embeds `exec_clv` (exec.c:350). -/
def exec_clv (s : Machine) (_argtype : argtype) (_args : Nat × Nat) : Machine :=
  { s with cpu := { s.cpu with flags := s.cpu.flags &&& (0xff ^^^ FLAG_OVRF) }, cycles := (s.cycles + 1) % 4294967296 }

/-- Embeds `exec_dec` (exec.c:419): the operand form is tested twice, before the
ALU call to fetch the operand and after it to store the result; both tests are
the same, so each branch here holds its fetch and its store. -/
def exec_dec (s : Machine) (argtype : argtype) (args : Nat × Nat) : Machine :=
  if argtype = .arg_addr then
    let addr := ((args.2 <<< 8) ||| args.1) % 65536
    let arg := bus_read s.mem addr
    let cycles := (s.cycles + 2) % 4294967296
    let r := alu_dec arg 0 s.cpu.flags
    let result := r.1
    { s with cpu := { s.cpu with flags := r.2 }, mem := bus_write s.mem addr result,
             cycles := (cycles + 1) % 4294967296 }
  else
    let arg := args.1
    let cycles := (s.cycles + 1) % 4294967296
    let r := alu_dec arg 0 s.cpu.flags
    let result := r.1
    { s with cpu := { s.cpu with a := result, flags := r.2 }, cycles := cycles }

/-- Embeds `exec_dex` (exec.c:448). -/
def exec_dex (s : Machine) (_argtype : argtype) (_args : Nat × Nat) : Machine :=
  let r := alu_dec s.cpu.x 0 s.cpu.flags
  { s with cpu := { s.cpu with x := r.1, flags := r.2 }, cycles := (s.cycles + 1) % 4294967296 }

/-- Embeds `exec_dey` (exec.c:457). -/
def exec_dey (s : Machine) (_argtype : argtype) (_args : Nat × Nat) : Machine :=
  let r := alu_dec s.cpu.y 0 s.cpu.flags
  { s with cpu := { s.cpu with y := r.1, flags := r.2 }, cycles := (s.cycles + 1) % 4294967296 }

/-- Embeds `exec_eor` (exec.c:466). -/
def exec_eor (s : Machine) (argtype : argtype) (args : Nat × Nat) : Machine :=
  if argtype = .arg_addr then
    let addr := ((args.2 <<< 8) ||| args.1) % 65536
    let arg := bus_read s.mem addr
    let cycles := (s.cycles + 2) % 4294967296
    let r := alu_eor s.cpu.a arg s.cpu.flags
    { s with cpu := { s.cpu with a := r.1, flags := r.2 }, cycles := cycles }
  else
    let arg := args.1
    let cycles := (s.cycles + 1) % 4294967296
    let r := alu_eor s.cpu.a arg s.cpu.flags
    { s with cpu := { s.cpu with a := r.1, flags := r.2 }, cycles := cycles }

/-- Embeds `exec_inc` (exec.c:486): the operand form is tested twice, before the
ALU call to fetch the operand and after it to store the result; both tests are
the same, so each branch here holds its fetch and its store. -/
def exec_inc (s : Machine) (argtype : argtype) (args : Nat × Nat) : Machine :=
  if argtype = .arg_addr then
    let addr := ((args.2 <<< 8) ||| args.1) % 65536
    let arg := bus_read s.mem addr
    let cycles := (s.cycles + 2) % 4294967296
    let r := alu_inc arg 0 s.cpu.flags
    let result := r.1
    { s with cpu := { s.cpu with flags := r.2 }, mem := bus_write s.mem addr result,
             cycles := (cycles + 1) % 4294967296 }
  else
    let arg := args.1
    let cycles := (s.cycles + 1) % 4294967296
    let r := alu_inc arg 0 s.cpu.flags
    let result := r.1
    { s with cpu := { s.cpu with a := result, flags := r.2 }, cycles := cycles }

/-- Embeds `exec_inx` (exec.c:515). -/
def exec_inx (s : Machine) (_argtype : argtype) (_args : Nat × Nat) : Machine :=
  let r := alu_inc s.cpu.x 0 s.cpu.flags
  { s with cpu := { s.cpu with x := r.1, flags := r.2 }, cycles := (s.cycles + 1) % 4294967296 }

/-- Embeds `exec_iny` (exec.c:524). -/
def exec_iny (s : Machine) (_argtype : argtype) (_args : Nat × Nat) : Machine :=
  let r := alu_inc s.cpu.y 0 s.cpu.flags
  { s with cpu := { s.cpu with y := r.1, flags := r.2 }, cycles := (s.cycles + 1) % 4294967296 }

/-- Embeds `exec_jmp` (exec.c:533). -/
def exec_jmp (s : Machine) (_argtype : argtype) (args : Nat × Nat) : Machine :=
  let addr := ((args.2 <<< 8) ||| args.1) % 65536
  { s with cpu := { s.cpu with pc := addr }, cycles := (s.cycles + 1) % 4294967296 }

/-- Embeds `exec_lda` (exec.c:564). -/
def exec_lda (s : Machine) (argtype : argtype) (args : Nat × Nat) : Machine :=
  if argtype = .arg_addr then
    let addr := ((args.2 <<< 8) ||| args.1) % 65536
    let arg := bus_read s.mem addr
    let cycles := (s.cycles + 2) % 4294967296
    let r := alu_load arg 0 s.cpu.flags
    { s with cpu := { s.cpu with a := r.1, flags := r.2 }, cycles := cycles }
  else
    let arg := args.1
    let cycles := (s.cycles + 1) % 4294967296
    let r := alu_load arg 0 s.cpu.flags
    { s with cpu := { s.cpu with a := r.1, flags := r.2 }, cycles := cycles }

/-- Embeds `exec_ldx` (exec.c:584). -/
def exec_ldx (s : Machine) (argtype : argtype) (args : Nat × Nat) : Machine :=
  if argtype = .arg_addr then
    let addr := ((args.2 <<< 8) ||| args.1) % 65536
    let arg := bus_read s.mem addr
    let cycles := (s.cycles + 2) % 4294967296
    let r := alu_load arg 0 s.cpu.flags
    { s with cpu := { s.cpu with x := r.1, flags := r.2 }, cycles := cycles }
  else
    let arg := args.1
    let cycles := (s.cycles + 1) % 4294967296
    let r := alu_load arg 0 s.cpu.flags
    { s with cpu := { s.cpu with x := r.1, flags := r.2 }, cycles := cycles }

/-- Embeds `exec_ldy` (exec.c:604). -/
def exec_ldy (s : Machine) (argtype : argtype) (args : Nat × Nat) : Machine :=
  if argtype = .arg_addr then
    let addr := ((args.2 <<< 8) ||| args.1) % 65536
    let arg := bus_read s.mem addr
    let cycles := (s.cycles + 2) % 4294967296
    let r := alu_load arg 0 s.cpu.flags
    { s with cpu := { s.cpu with y := r.1, flags := r.2 }, cycles := cycles }
  else
    let arg := args.1
    let cycles := (s.cycles + 1) % 4294967296
    let r := alu_load arg 0 s.cpu.flags
    { s with cpu := { s.cpu with y := r.1, flags := r.2 }, cycles := cycles }

/-- Embeds `exec_lsr` (exec.c:624): the operand form is tested twice, before the
ALU call to fetch the operand and after it to store the result; both tests are
the same, so each branch here holds its fetch and its store. -/
def exec_lsr (s : Machine) (argtype : argtype) (args : Nat × Nat) : Machine :=
  if argtype = .arg_addr then
    let addr := ((args.2 <<< 8) ||| args.1) % 65536
    let arg := bus_read s.mem addr
    let cycles := (s.cycles + 2) % 4294967296
    let r := alu_lsr arg 0 s.cpu.flags
    let result := r.1
    { s with cpu := { s.cpu with flags := r.2 }, mem := bus_write s.mem addr result,
             cycles := (cycles + 1) % 4294967296 }
  else
    let arg := args.1
    let cycles := (s.cycles + 1) % 4294967296
    let r := alu_lsr arg 0 s.cpu.flags
    let result := r.1
    { s with cpu := { s.cpu with a := result, flags := r.2 }, cycles := cycles }

/-- Embeds `exec_nop` (exec.c:653). -/
def exec_nop (s : Machine) (_argtype : argtype) (_args : Nat × Nat) : Machine :=
  { s with cycles := (s.cycles + 1) % 4294967296 }

/-- Embeds `exec_ora` (exec.c:658). -/
def exec_ora (s : Machine) (argtype : argtype) (args : Nat × Nat) : Machine :=
  if argtype = .arg_addr then
    let addr := ((args.2 <<< 8) ||| args.1) % 65536
    let arg := bus_read s.mem addr
    let cycles := (s.cycles + 2) % 4294967296
    let r := alu_or s.cpu.a arg s.cpu.flags
    { s with cpu := { s.cpu with a := r.1, flags := r.2 }, cycles := cycles }
  else
    let arg := args.1
    let cycles := (s.cycles + 1) % 4294967296
    let r := alu_or s.cpu.a arg s.cpu.flags
    { s with cpu := { s.cpu with a := r.1, flags := r.2 }, cycles := cycles }

/-- Embeds `exec_pha` (exec.c:678). -/
def exec_pha (s : Machine) (_argtype : argtype) (_args : Nat × Nat) : Machine :=
  let s := exec_push s s.cpu.a
  { s with cycles := (s.cycles + 2) % 4294967296 }

/-- Embeds `exec_php` (exec.c:687): the pushed copy of the flags has ONE and BRK
set. -/
def exec_php (s : Machine) (_argtype : argtype) (_args : Nat × Nat) : Machine :=
  let flags := s.cpu.flags
  let flags := flags ||| (FLAG_ONE ||| FLAG_BRK)
  let s := exec_push s flags
  { s with cycles := (s.cycles + 2) % 4294967296 }

/-- Embeds `exec_pla` (exec.c:701). -/
def exec_pla (s : Machine) (_argtype : argtype) (_args : Nat × Nat) : Machine :=
  let p := exec_pop s
  let s := p.1
  let r := alu_load p.2 0 s.cpu.flags
  { s with cpu := { s.cpu with a := r.1, flags := r.2 }, cycles := (s.cycles + 2) % 4294967296 }

/-- Embeds `exec_rol` (exec.c:720): the operand form is tested twice, before the
ALU call to fetch the operand and after it to store the result; both tests are
the same, so each branch here holds its fetch and its store. -/
def exec_rol (s : Machine) (argtype : argtype) (args : Nat × Nat) : Machine :=
  if argtype = .arg_addr then
    let addr := ((args.2 <<< 8) ||| args.1) % 65536
    let arg := bus_read s.mem addr
    let cycles := (s.cycles + 2) % 4294967296
    let r := alu_rol arg 0 s.cpu.flags
    let result := r.1
    { s with cpu := { s.cpu with flags := r.2 }, mem := bus_write s.mem addr result,
             cycles := (cycles + 1) % 4294967296 }
  else
    let arg := args.1
    let cycles := (s.cycles + 1) % 4294967296
    let r := alu_rol arg 0 s.cpu.flags
    let result := r.1
    { s with cpu := { s.cpu with a := result, flags := r.2 }, cycles := cycles }

/-- Embeds `exec_ror` (exec.c:749): the operand form is tested twice, before the
ALU call to fetch the operand and after it to store the result; both tests are
the same, so each branch here holds its fetch and its store. -/
def exec_ror (s : Machine) (argtype : argtype) (args : Nat × Nat) : Machine :=
  if argtype = .arg_addr then
    let addr := ((args.2 <<< 8) ||| args.1) % 65536
    let arg := bus_read s.mem addr
    let cycles := (s.cycles + 2) % 4294967296
    let r := alu_ror arg 0 s.cpu.flags
    let result := r.1
    { s with cpu := { s.cpu with flags := r.2 }, mem := bus_write s.mem addr result,
             cycles := (cycles + 1) % 4294967296 }
  else
    let arg := args.1
    let cycles := (s.cycles + 1) % 4294967296
    let r := alu_ror arg 0 s.cpu.flags
    let result := r.1
    { s with cpu := { s.cpu with a := result, flags := r.2 }, cycles := cycles }

/-- Embeds `exec_sbc` (exec.c:810). -/
def exec_sbc (s : Machine) (argtype : argtype) (args : Nat × Nat) : Machine :=
  if argtype = .arg_addr then
    let addr := ((args.2 <<< 8) ||| args.1) % 65536
    let arg := bus_read s.mem addr
    let cycles := (s.cycles + 2) % 4294967296
    let r := alu_sub s.cpu.a arg s.cpu.flags
    { s with cpu := { s.cpu with a := r.1, flags := r.2 }, cycles := cycles }
  else
    let arg := args.1
    let cycles := (s.cycles + 1) % 4294967296
    let r := alu_sub s.cpu.a arg s.cpu.flags
    { s with cpu := { s.cpu with a := r.1, flags := r.2 }, cycles := cycles }

/-- Embeds `exec_sec` (exec.c:830). -/
def exec_sec (s : Machine) (_argtype : argtype) (_args : Nat × Nat) : Machine :=
  { s with cpu := { s.cpu with flags := s.cpu.flags ||| FLAG_CARRY }, cycles := (s.cycles + 1) % 4294967296 }

/-- Embeds `exec_sed` (exec.c:839). -/
def exec_sed (s : Machine) (_argtype : argtype) (_args : Nat × Nat) : Machine :=
  { s with cpu := { s.cpu with flags := s.cpu.flags ||| FLAG_BCD }, cycles := (s.cycles + 1) % 4294967296 }

/-- Embeds `exec_sei` (exec.c:848). -/
def exec_sei (s : Machine) (_argtype : argtype) (_args : Nat × Nat) : Machine :=
  { s with cpu := { s.cpu with flags := s.cpu.flags ||| FLAG_IRQD }, cycles := (s.cycles + 1) % 4294967296 }

/-- Embeds `exec_sta` (exec.c:857): `FATAL` ends the process before the write. -/
def exec_sta (s : Machine) (argtype : argtype) (args : Nat × Nat) : Option Machine :=
  if argtype ≠ .arg_addr then FATAL
  else
    let addr := ((args.2 <<< 8) ||| args.1) % 65536
    some { s with mem := bus_write s.mem addr s.cpu.a, cycles := (s.cycles + 2) % 4294967296 }

/-- Embeds `exec_stx` (exec.c:873): `FATAL` ends the process before the write. -/
def exec_stx (s : Machine) (argtype : argtype) (args : Nat × Nat) : Option Machine :=
  if argtype ≠ .arg_addr then FATAL
  else
    let addr := ((args.2 <<< 8) ||| args.1) % 65536
    some { s with mem := bus_write s.mem addr s.cpu.x, cycles := (s.cycles + 2) % 4294967296 }

/-- Embeds `exec_sty` (exec.c:889): `FATAL` ends the process before the write. -/
def exec_sty (s : Machine) (argtype : argtype) (args : Nat × Nat) : Option Machine :=
  if argtype ≠ .arg_addr then FATAL
  else
    let addr := ((args.2 <<< 8) ||| args.1) % 65536
    some { s with mem := bus_write s.mem addr s.cpu.y, cycles := (s.cycles + 2) % 4294967296 }

/-- Embeds `exec_tax` (exec.c:905). -/
def exec_tax (s : Machine) (_argtype : argtype) (_args : Nat × Nat) : Machine :=
  let r := alu_load s.cpu.a 0 s.cpu.flags
  { s with cpu := { s.cpu with x := r.1, flags := r.2 }, cycles := (s.cycles + 1) % 4294967296 }

/-- Embeds `exec_tay` (exec.c:914). -/
def exec_tay (s : Machine) (_argtype : argtype) (_args : Nat × Nat) : Machine :=
  let r := alu_load s.cpu.a 0 s.cpu.flags
  { s with cpu := { s.cpu with y := r.1, flags := r.2 }, cycles := (s.cycles + 1) % 4294967296 }

/-- Embeds `exec_tsx` (exec.c:923). -/
def exec_tsx (s : Machine) (_argtype : argtype) (_args : Nat × Nat) : Machine :=
  let r := alu_load s.cpu.sp 0 s.cpu.flags
  { s with cpu := { s.cpu with x := r.1, flags := r.2 }, cycles := (s.cycles + 1) % 4294967296 }

/-- Embeds `exec_txa` (exec.c:932). -/
def exec_txa (s : Machine) (_argtype : argtype) (_args : Nat × Nat) : Machine :=
  let r := alu_load s.cpu.x 0 s.cpu.flags
  { s with cpu := { s.cpu with a := r.1, flags := r.2 }, cycles := (s.cycles + 1) % 4294967296 }

/-- Embeds `exec_txs` (exec.c:941). -/
def exec_txs (s : Machine) (_argtype : argtype) (_args : Nat × Nat) : Machine :=
  { s with cpu := { s.cpu with sp := s.cpu.x }, cycles := (s.cycles + 1) % 4294967296 }

/-- Embeds `exec_tya` (exec.c:950). -/
def exec_tya (s : Machine) (_argtype : argtype) (_args : Nat × Nat) : Machine :=
  let r := alu_load s.cpu.y 0 s.cpu.flags
  { s with cpu := { s.cpu with a := r.1, flags := r.2 }, cycles := (s.cycles + 1) % 4294967296 }

/-- Embeds `exec_func_t` (exec.c:959), the type of a handler.  A handler that has
no `FATAL` always leaves a machine. -/
abbrev exec_func_t := Machine → argtype → Nat × Nat → Option Machine

/-- Embeds `exec_instr` (exec.c:960), the table of the 56 handlers in the order
of the source. -/
def exec_instr (ndebug : Bool) : List exec_func_t :=
  [
    fun s t a => some (exec_adc s t a), fun s t a => some (exec_and s t a),
    fun s t a => some (exec_asl s t a), exec_bcc ndebug,
    exec_bcs ndebug, exec_beq ndebug,
    fun s t a => some (exec_bit s t a), exec_bmi ndebug,
    exec_bne ndebug, exec_bpl ndebug,
    fun s t a => some (exec_brk s t a), exec_bvc ndebug,
    exec_bvs ndebug, fun s t a => some (exec_clc s t a),
    fun s t a => some (exec_cld s t a), fun s t a => some (exec_cli s t a),
    fun s t a => some (exec_clv s t a), fun s t a => some (exec_cmp s t a),
    fun s t a => some (exec_cpx s t a), fun s t a => some (exec_cpy s t a),
    fun s t a => some (exec_dec s t a), fun s t a => some (exec_dex s t a),
    fun s t a => some (exec_dey s t a), fun s t a => some (exec_eor s t a),
    fun s t a => some (exec_inc s t a), fun s t a => some (exec_inx s t a),
    fun s t a => some (exec_iny s t a), fun s t a => some (exec_jmp s t a),
    fun s t a => some (exec_jsr s t a), fun s t a => some (exec_lda s t a),
    fun s t a => some (exec_ldx s t a), fun s t a => some (exec_ldy s t a),
    fun s t a => some (exec_lsr s t a), fun s t a => some (exec_nop s t a),
    fun s t a => some (exec_ora s t a), fun s t a => some (exec_pha s t a),
    fun s t a => some (exec_php s t a), fun s t a => some (exec_pla s t a),
    fun s t a => some (exec_plp s t a), fun s t a => some (exec_rol s t a),
    fun s t a => some (exec_ror s t a), fun s t a => some (exec_rti s t a),
    fun s t a => some (exec_rts s t a), fun s t a => some (exec_sbc s t a),
    fun s t a => some (exec_sec s t a), fun s t a => some (exec_sed s t a),
    fun s t a => some (exec_sei s t a), exec_sta,
    exec_stx, exec_sty,
    fun s t a => some (exec_tax s t a), fun s t a => some (exec_tay s t a),
    fun s t a => some (exec_tsx s t a), fun s t a => some (exec_txa s t a),
    fun s t a => some (exec_txs s t a), fun s t a => some (exec_tya s t a)
  ]

/-- What a call of `exec_execute` comes to: its own `FATAL`, the call of a
handler of the table (with what the handler leaves), or a read of `exec_instr`
past its last entry, which C leaves undefined. -/
inductive Dispatched where
  | fatal
  | ran (result : Option Machine)
  | outside

/-- Embeds `exec_execute` (exec.c:970): `instruction` is the value of the
`enum opcode`, and `sizeof(exec_instr) / sizeof(exec_instr[0])` is the length of
the table. -/
def exec_execute (ndebug : Bool) (s : Machine) (instruction : Nat) (argtype : argtype)
    (args : Nat × Nat) : Dispatched :=
  if instruction > (exec_instr ndebug).length then .fatal
  else
    match (exec_instr ndebug)[instruction]? with
    | some handler => .ran (handler s argtype args)
    | none => .outside

/-! ## The addressing-mode unit (`addrmode.c`)

A mode function takes the machine and the operand bytes `args` it is to fill,
and returns the operand form together with `args` and the machine as it leaves
them. -/

/-- Modelled from the spec: `enum addrmode` is declared in `decoder.h`, which is
not part of the sources; its thirteen tags are the spec's thirteen modes, under
the names of the `case` labels of `addrmode_getArgs`. -/
inductive addrmode where
  | mode_acc
  | mode_abs
  | mode_abx
  | mode_aby
  | mode_imm
  | mode_imp
  | mode_ind
  | mode_inx
  | mode_iny
  | mode_rel
  | mode_zp
  | mode_zpx
  | mode_zpy
deriving DecidableEq

/-- Embeds `addrmode_nextpc` (addrmode.c:205): read the byte at `pc`, then
`++cpu->pc` in a `u16`; the machine left behind is paired with the byte. -/
def addrmode_nextpc (s : Machine) : Machine × Nat :=
  let data := bus_read s.mem s.cpu.pc
  ({ s with cpu := { s.cpu with pc := (s.cpu.pc + 1) % 65536 } }, data)

/-- Embeds `modeAcc` (addrmode.c:12). -/
def modeAcc (s : Machine) (args : Nat × Nat) : argtype × (Nat × Nat) × Machine :=
  (.arg_byte, (s.cpu.a, args.2), s)

/-- Embeds `modeAbsolute` (addrmode.c:23). -/
def modeAbsolute (s : Machine) (_args : Nat × Nat) : argtype × (Nat × Nat) × Machine :=
  let r0 := addrmode_nextpc s
  let r1 := addrmode_nextpc r0.1
  let s := r1.1
  (.arg_addr, (r0.2, r1.2), { s with cycles := (s.cycles + 3) % 4294967296 })

/-- Embeds `modeAbsoluteX` (addrmode.c:35): `addr += cpu->x` wraps in a `u16`. -/
def modeAbsoluteX (s : Machine) (_args : Nat × Nat) : argtype × (Nat × Nat) × Machine :=
  let r0 := addrmode_nextpc s
  let addr := r0.2
  let r1 := addrmode_nextpc r0.1
  let addr := (addr ||| (r1.2 <<< 8)) % 65536
  let s := r1.1
  let addr := (addr + s.cpu.x) % 65536
  (.arg_addr, (addr &&& 0xff, (addr >>> 8) &&& 0xff),
    { s with cycles := (s.cycles + 3) % 4294967296 })

/-- Embeds `modeAbsoluteY` (addrmode.c:53): `addr += cpu->y` wraps in a `u16`. -/
def modeAbsoluteY (s : Machine) (_args : Nat × Nat) : argtype × (Nat × Nat) × Machine :=
  let r0 := addrmode_nextpc s
  let addr := r0.2
  let r1 := addrmode_nextpc r0.1
  let addr := (addr ||| (r1.2 <<< 8)) % 65536
  let s := r1.1
  let addr := (addr + s.cpu.y) % 65536
  (.arg_addr, (addr &&& 0xff, (addr >>> 8) &&& 0xff),
    { s with cycles := (s.cycles + 3) % 4294967296 })

/-- Embeds `modeImmediate` (addrmode.c:71). -/
def modeImmediate (s : Machine) (args : Nat × Nat) : argtype × (Nat × Nat) × Machine :=
  let r0 := addrmode_nextpc s
  let s := r0.1
  (.arg_byte, (r0.2, args.2), { s with cycles := (s.cycles + 1) % 4294967296 })

/-- Embeds `modeImplicant` (addrmode.c:82). -/
def modeImplicant (s : Machine) (args : Nat × Nat) : argtype × (Nat × Nat) × Machine :=
  (.arg_none, args, s)

/-- Embeds `modeIndirect` (addrmode.c:93): `addr++` wraps in a `u16`. -/
def modeIndirect (s : Machine) (_args : Nat × Nat) : argtype × (Nat × Nat) × Machine :=
  let r0 := addrmode_nextpc s
  let addr := r0.2
  let r1 := addrmode_nextpc r0.1
  let addr := (addr ||| (r1.2 <<< 8)) % 65536
  let s := r1.1
  let args0 := bus_read s.mem addr
  let addr := (addr + 1) % 65536
  let args1 := bus_read s.mem addr
  (.arg_addr, (args0, args1), { s with cycles := (s.cycles + 7) % 4294967296 })

/-- Embeds `modeIndirectX` (addrmode.c:110): after `addr &= 0xff` the second read
is at `addr + 1`, computed in a `u16`. -/
def modeIndirectX (s : Machine) (_args : Nat × Nat) : argtype × (Nat × Nat) × Machine :=
  let r0 := addrmode_nextpc s
  let addr := r0.2
  let s := r0.1
  let addr := (addr + s.cpu.x) % 65536
  let addr := addr &&& 0xff
  let args0 := bus_read s.mem addr
  let addr := (addr + 1) % 65536
  let args1 := bus_read s.mem addr
  (.arg_addr, (args0, args1), { s with cycles := (s.cycles + 5) % 4294967296 })

/-- Embeds `modeIndirectY` (addrmode.c:128): `zpAddr++` and `addr += cpu->y` are
computed in a `u16`. -/
def modeIndirectY (s : Machine) (_args : Nat × Nat) : argtype × (Nat × Nat) × Machine :=
  let r0 := addrmode_nextpc s
  let zpAddr := r0.2
  let s := r0.1
  let addr := bus_read s.mem zpAddr
  let zpAddr := (zpAddr + 1) % 65536
  let addr := (addr ||| (bus_read s.mem zpAddr <<< 8)) % 65536
  let addr := (addr + s.cpu.y) % 65536
  (.arg_addr, (addr &&& 0xff, (addr >>> 8) &&& 0xff),
    { s with cycles := (s.cycles + 5) % 4294967296 })

/-- Embeds `modeRelative` (addrmode.c:150): the fetched byte is stored in the
`s8` `rel`, so a byte of 128 or more stands for itself minus 256; `addr += rel`
wraps in a `u16`. -/
def modeRelative (s : Machine) (_args : Nat × Nat) : argtype × (Nat × Nat) × Machine :=
  let r0 := addrmode_nextpc s
  let rel : Int := if r0.2 < 128 then (r0.2 : Int) else (r0.2 : Int) - 256
  let s := r0.1
  let addr := s.cpu.pc
  let addr := (((addr : Int) + rel) % 65536).toNat
  (.arg_addr, (addr &&& 0xff, (addr >>> 8) &&& 0xff),
    { s with cycles := (s.cycles + 1) % 4294967296 })

/-- Embeds `modeZeropage` (addrmode.c:169). -/
def modeZeropage (s : Machine) (_args : Nat × Nat) : argtype × (Nat × Nat) × Machine :=
  let r0 := addrmode_nextpc s
  let s := r0.1
  (.arg_addr, (r0.2, 0), { s with cycles := (s.cycles + 2) % 4294967296 })

/-- Embeds `modeZeropageX` (addrmode.c:181): the sum is stored in the `u8`
`args[0]`. -/
def modeZeropageX (s : Machine) (_args : Nat × Nat) : argtype × (Nat × Nat) × Machine :=
  let r0 := addrmode_nextpc s
  let s := r0.1
  ((.arg_addr, ((r0.2 + s.cpu.x) % 256, 0), { s with cycles := (s.cycles + 2) % 4294967296 }))

/-- Embeds `modeZeropageY` (addrmode.c:193): the sum is stored in the `u8`
`args[0]`. -/
def modeZeropageY (s : Machine) (_args : Nat × Nat) : argtype × (Nat × Nat) × Machine :=
  let r0 := addrmode_nextpc s
  let s := r0.1
  ((.arg_addr, ((r0.2 + s.cpu.y) % 256, 0), { s with cycles := (s.cycles + 2) % 4294967296 }))

/-- Embeds `addrmode_getArgs` (addrmode.c:221).  Its `default` branch is for a
value outside the enumeration; every tag of `addrmode` has a `case`. -/
def addrmode_getArgs (s : Machine) (args : Nat × Nat) (mode : addrmode) :
    argtype × (Nat × Nat) × Machine :=
  match mode with
  | .mode_acc => modeAcc s args
  | .mode_abs => modeAbsolute s args
  | .mode_abx => modeAbsoluteX s args
  | .mode_aby => modeAbsoluteY s args
  | .mode_imm => modeImmediate s args
  | .mode_imp => modeImplicant s args
  | .mode_ind => modeIndirect s args
  | .mode_inx => modeIndirectX s args
  | .mode_iny => modeIndirectY s args
  | .mode_rel => modeRelative s args
  | .mode_zp => modeZeropage s args
  | .mode_zpx => modeZeropageX s args
  | .mode_zpy => modeZeropageY s args

/-! ## Vocabulary of the proofs

These definitions name pieces of the functions above, so that lemmas about a
piece can be stated once; each is proved equal to the piece it names. -/

/-- One flag write: `*flags |= m` when `c` holds, `*flags &= ~m` otherwise. -/
def upd (c : Bool) (m f : Nat) : Nat :=
  if c then f ||| m else f &&& (0xff ^^^ m)

/-- The decimal correction of `alu_add` and `alu_sub` (alu.c:32-38 and
alu.c:71-77) on the `u16` sum `result`. -/
def adjust (ai bi carry_in result flags : Nat) : Nat :=
  if flags &&& FLAG_BCD ≠ 0 then
    let result :=
      if (ai &&& 0xf) + (bi &&& 0xf) + carry_in > 9 then (result + 0x06) % 65536
      else result
    if (result >>> 4) > 9 then (result + 0x60) % 65536 else result
  else result

/-- The flags that `alu_add` and `alu_sub` leave (alu.c:40-50 and alu.c:79-89)
once the `u16` value `result` is known. -/
def finish (ai bi result flags : Nat) : Nat :=
  upd (decide (((ai ^^^ result) &&& (bi ^^^ result) &&& 0x80) ≠ 0)) FLAG_OVRF
    (upd (decide (result &&& 0xff &&& 0x80 ≠ 0)) FLAG_SIGN
      (upd (decide (result &&& 0xff &&& 0xff = 0)) FLAG_ZERO
        (upd (decide (result < ai ∨ result < bi ∨ (result &&& 0xff00) ≠ 0)) FLAG_CARRY
          flags)))

/-- The number a packed-BCD byte stands for, in the claims' words `dec(a)`:
ten times the high nibble plus the low nibble. -/
def bcd_dec (a : Nat) : Nat := 10 * (a / 16) + a % 16

/-- The packed-BCD encoding of a number below 100, in the claims' words: the
tens digit in the high nibble and the units digit in the low nibble. -/
def bcd_enc (n : Nat) : Nat := 16 * (n / 10) + n % 10

/-- A valid packed-BCD byte, in the claims' words: both nibbles are at most 9. -/
def bcd_valid (a : Nat) : Prop := a % 16 ≤ 9 ∧ a / 16 ≤ 9

instance (a : Nat) : Decidable (bcd_valid a) := by
  unfold bcd_valid; infer_instance

/-- The bytes a mode takes from the instruction stream, in the claims' words:
0 for accumulator and implied; 1 for immediate, (indirect,X), (indirect),Y,
relative, zero page, zero page,X, zero page,Y; 2 for absolute, absolute,X,
absolute,Y, indirect. -/
def mode_bytes : addrmode → Nat
  | .mode_acc => 0
  | .mode_imp => 0
  | .mode_imm => 1
  | .mode_inx => 1
  | .mode_iny => 1
  | .mode_rel => 1
  | .mode_zp => 1
  | .mode_zpx => 1
  | .mode_zpy => 1
  | .mode_abs => 2
  | .mode_abx => 2
  | .mode_aby => 2
  | .mode_ind => 2

/-- The cycles a mode adds, in the claims' words: 0, 3, 3, 3, 1, 0, 7, 5, 5, 1,
2, 2, 2 for acc, abs, abx, aby, imm, imp, ind, inx, iny, rel, zp, zpx, zpy. -/
def mode_cycles : addrmode → Nat
  | .mode_acc => 0
  | .mode_abs => 3
  | .mode_abx => 3
  | .mode_aby => 3
  | .mode_imm => 1
  | .mode_imp => 0
  | .mode_ind => 7
  | .mode_inx => 5
  | .mode_iny => 5
  | .mode_rel => 1
  | .mode_zp => 2
  | .mode_zpx => 2
  | .mode_zpy => 2

/-- The operand form of a mode, in the claims' words: 'byte' for accumulator
and immediate, 'none' for implied, 'address' for all others. -/
def mode_form : addrmode → argtype
  | .mode_acc => .arg_byte
  | .mode_imm => .arg_byte
  | .mode_imp => .arg_none
  | _ => .arg_addr

/-- The address a handler reads out of the operand bytes:
`(args[1] << 8) | args[0]`. -/
def effective (args : Nat × Nat) : Nat := (args.2 <<< 8) ||| args.1

/-- The value of an offset byte, in the claims' words: `0x00..0x7F` stand for
0..127 and `0x80..0xFF` for -128..-1. -/
def sign_extend (o : Nat) : Int := if o < 128 then (o : Int) else (o : Int) - 256

/-- The two's-complement value of a byte, in the claims' words `signed`. -/
def signed (a : Nat) : Int := if a < 128 then (a : Int) else (a : Int) - 256

/-! ## Bit arithmetic used by the proofs -/

theorem and_ff (x : Nat) : x &&& 0xff = x % 256 :=
  Nat.and_pow_two_sub_one_eq_mod x 8

theorem and_0f (x : Nat) : x &&& 0xf = x % 16 :=
  Nat.and_pow_two_sub_one_eq_mod x 4

theorem shr4 (x : Nat) : x >>> 4 = x / 16 :=
  Nat.shiftRight_eq_div_pow x 4

set_option maxRecDepth 100000 in
theorem and_ff00 : ∀ r < 1024, (r &&& 0xff00 ≠ 0 ↔ 256 ≤ r) := by decide!

set_option maxRecDepth 100000 in
theorem and_80 : ∀ x < 256, (x &&& 0x80 ≠ 0 ↔ 128 ≤ x) := by decide!

set_option maxRecDepth 100000 in
theorem testBit7 : ∀ x < 256, (x.testBit 7 = true ↔ 128 ≤ x) := by decide!

set_option maxRecDepth 100000 in
theorem xor_ff : ∀ b < 256, (0xff ^^^ b) &&& 0xff = 255 - b := by decide!

theorem upd_and (c : Bool) (m f k : Nat) (h1 : m &&& k = 0)
    (h2 : (0xff ^^^ m) &&& k = k) : upd c m f &&& k = f &&& k := by
  cases c
  · simp [upd, Nat.and_assoc, h2]
  · simp [upd, Nat.and_distrib_right, h1]

theorem upd_same (c : Bool) (m f : Nat) (h1 : (0xff ^^^ m) &&& m = 0)
    (h2 : m ≠ 0) : upd c m f &&& m ≠ 0 ↔ c = true := by
  cases c
  · simp [upd, Nat.and_assoc, h1]
  · simp only [upd, if_true, Nat.and_distrib_right, Nat.and_self, iff_true]
    intro h
    have h3 := Nat.le_of_testBit (n := m) (m := f &&& m ||| m) (by
      intro i hi
      simp [hi])
    omega

theorem upd_lt (c : Bool) (m f : Nat) (hm : m < 256) (hf : f < 256) :
    upd c m f < 256 := by
  cases c
  · exact Nat.lt_of_le_of_lt Nat.and_le_left hf
  · exact Nat.or_lt_two_pow (n := 8) hf hm

/-! ## The shape of the ALU functions -/

theorem upd_decide (P : Prop) [Decidable P] (m f : Nat) :
    upd (decide P) m f = if P then f ||| m else f &&& (0xff ^^^ m) := by
  simp [upd]

theorem alu_flags_zs (r f : Nat) :
    alu_flags r f (FLAG_SIGN ||| FLAG_ZERO) =
      upd (decide (r &&& 0x80 ≠ 0)) FLAG_SIGN (upd (decide (r &&& 0xff = 0)) FLAG_ZERO f) := by
  have h1 : (FLAG_SIGN ||| FLAG_ZERO) &&& FLAG_ZERO ≠ 0 := by decide
  have h2 : (FLAG_SIGN ||| FLAG_ZERO) &&& FLAG_SIGN ≠ 0 := by decide
  simp only [alu_flags, if_pos h1, if_pos h2, upd_decide]

theorem alu_add_eq (a b f : Nat) :
    alu_add a b f =
      ((adjust a b (f &&& FLAG_CARRY) ((a + b + (f &&& FLAG_CARRY)) % 65536) f) &&& 0xff,
        finish a b (adjust a b (f &&& FLAG_CARRY) ((a + b + (f &&& FLAG_CARRY)) % 65536) f) f) := by
  have hc : (if f &&& FLAG_CARRY ≠ 0 then 1 else 0) = f &&& FLAG_CARRY := by
    have := Nat.and_one_is_mod f
    simp only [FLAG_CARRY]
    split_ifs <;> omega
  simp only [alu_add, hc, alu_flags_zs, finish, adjust, upd_decide]

theorem alu_sub_eq (a b f bi : Nat)
    (hbi : bi = if f &&& FLAG_BCD ≠ 0 then (0x99 + 0x100 - b) % 0x100
      else (0xff ^^^ b) &&& 0xff) :
    alu_sub a b f =
      ((adjust a bi (f &&& FLAG_CARRY) ((a + bi + (f &&& FLAG_CARRY)) % 65536) f) &&& 0xff,
        finish a bi (adjust a bi (f &&& FLAG_CARRY) ((a + bi + (f &&& FLAG_CARRY)) % 65536) f) f) := by
  have hc : (if f &&& FLAG_CARRY ≠ 0 then 1 else 0) = f &&& FLAG_CARRY := by
    have := Nat.and_one_is_mod f
    simp only [FLAG_CARRY]
    split_ifs <;> omega
  subst hbi
  simp only [alu_sub, hc, alu_flags_zs, finish, adjust, upd_decide]

theorem carry_le_one (f : Nat) : f &&& FLAG_CARRY ≤ 1 := by
  have := Nat.and_one_is_mod f
  simp only [FLAG_CARRY]
  omega

theorem adjust_binary (ai bi c r f : Nat) (h : f &&& FLAG_BCD = 0) :
    adjust ai bi c r f = r := by
  simp [adjust, h]

/-! ## What `finish` leaves in each flag -/

theorem finish_carry (ai bi r f : Nat) :
    finish ai bi r f &&& FLAG_CARRY ≠ 0 ↔ (r < ai ∨ r < bi ∨ (r &&& 0xff00) ≠ 0) := by
  unfold finish
  rw [upd_and _ _ _ _ (by decide) (by decide), upd_and _ _ _ _ (by decide) (by decide),
    upd_and _ _ _ _ (by decide) (by decide), upd_same _ _ _ (by decide) (by decide)]
  simp

theorem finish_zero (ai bi r f : Nat) :
    finish ai bi r f &&& FLAG_ZERO ≠ 0 ↔ r &&& 0xff = 0 := by
  unfold finish
  rw [upd_and _ _ _ _ (by decide) (by decide), upd_and _ _ _ _ (by decide) (by decide),
    upd_same _ _ _ (by decide) (by decide)]
  simp [and_ff]

theorem finish_sign (ai bi r f : Nat) :
    finish ai bi r f &&& FLAG_SIGN ≠ 0 ↔ 128 ≤ r &&& 0xff := by
  unfold finish
  rw [upd_and _ _ _ _ (by decide) (by decide), upd_same _ _ _ (by decide) (by decide)]
  have h := and_80 (r &&& 0xff) (by rw [and_ff]; omega)
  simpa using h

theorem finish_ovrf (ai bi r f : Nat) :
    finish ai bi r f &&& FLAG_OVRF ≠ 0 ↔ ((ai ^^^ r) &&& (bi ^^^ r) &&& 0x80) ≠ 0 := by
  unfold finish
  rw [upd_same _ _ _ (by decide) (by decide)]
  simp

theorem finish_frame (ai bi r f : Nat) :
    finish ai bi r f &&& (0xff ^^^ (FLAG_CARRY ||| FLAG_ZERO ||| FLAG_OVRF ||| FLAG_SIGN)) =
      f &&& (0xff ^^^ (FLAG_CARRY ||| FLAG_ZERO ||| FLAG_OVRF ||| FLAG_SIGN)) := by
  unfold finish
  rw [upd_and _ _ _ _ (by decide) (by decide), upd_and _ _ _ _ (by decide) (by decide),
    upd_and _ _ _ _ (by decide) (by decide), upd_and _ _ _ _ (by decide) (by decide)]

theorem finish_bcd (ai bi r f : Nat) :
    finish ai bi r f &&& FLAG_BCD = f &&& FLAG_BCD := by
  unfold finish
  rw [upd_and _ _ _ _ (by decide) (by decide), upd_and _ _ _ _ (by decide) (by decide),
    upd_and _ _ _ _ (by decide) (by decide), upd_and _ _ _ _ (by decide) (by decide)]

/-! ## Reset -/

theorem bus_read_lt (mem : Memory) (address : Nat) : bus_read mem address < 256 :=
  Nat.mod_lt _ (by decide)

theorem word_lt (lo hi : Nat) (hlo : lo < 256) (hhi : hi < 256) :
    lo ||| (hi <<< 8) < 65536 := by
  apply Nat.or_lt_two_pow (n := 16)
  · omega
  · rw [Nat.shiftLeft_eq]; omega

/-- C1: for every prior CPU state and every memory, `exec_rst` leaves `a = 0`,
`x = 0`, `y = 0`, `sp = 0xFF`, `flags = 0x20` (ONE only) and
`pc = mem[0xFFFC] | (mem[0xFFFD] << 8)`, adds 4 to the cycle counter (in the
arithmetic of the 32-bit `unsigned int`, so exactly 4 whenever the counter does
not wrap) and leaves the memory as it was. -/
theorem exec_rst_post (s : Machine) :
    (exec_rst s).cpu.a = 0 ∧ (exec_rst s).cpu.x = 0 ∧ (exec_rst s).cpu.y = 0 ∧
    (exec_rst s).cpu.sp = 0xFF ∧ (exec_rst s).cpu.flags = 0x20 ∧
    (exec_rst s).cpu.pc = bus_read s.mem 0xFFFC ||| (bus_read s.mem 0xFFFD <<< 8) ∧
    (exec_rst s).cycles = (s.cycles + 4) % 4294967296 ∧
    (s.cycles + 4 < 4294967296 → (exec_rst s).cycles = s.cycles + 4) ∧
    (exec_rst s).mem = s.mem := by
  refine ⟨rfl, rfl, rfl, rfl, rfl, ?_, rfl, ?_, rfl⟩
  · exact Nat.mod_eq_of_lt (word_lt _ _ (bus_read_lt _ _) (bus_read_lt _ _))
  · intro h
    exact Nat.mod_eq_of_lt h

/-- Witness of C1 on a machine whose reset vector holds `0x34, 0x12` and whose
registers hold other values: the counter goes from 10 to 14. -/
theorem exec_rst_post_witness :
    (exec_rst ⟨⟨0x8000, 1, 2, 3, 4, 0xC3⟩,
        fun p => if p = 0xFFFC then 0x34 else if p = 0xFFFD then 0x12 else 0xEA, 10⟩).cycles
      = 10 + 4 :=
  (exec_rst_post ⟨⟨0x8000, 1, 2, 3, 4, 0xC3⟩,
      fun p => if p = 0xFFFC then 0x34 else if p = 0xFFFD then 0x12 else 0xEA, 10⟩).2.2.2.2.2.2.2.1
    (by decide)

/-! ## Binary addition -/

/-- C2: for bytes `a`, `b` and flags with BCD clear, `alu_add` returns
`(a + b + c) mod 256`, where `c = flags & FLAG_CARRY` is the incoming CARRY bit
(0 or 1); it sets CARRY iff `a + b + c >= 256`, ZERO iff the returned byte is 0
and SIGN iff bit 7 of the returned byte is 1.  Scenario S1: `0x50 + 0x50` from
flags 0 gives `0xA0` with exactly OVRF and SIGN set. -/
theorem alu_add_binary (a b flags : Nat) (ha : a < 256) (hb : b < 256)
    (hbcd : flags &&& FLAG_BCD = 0) :
    (alu_add a b flags).1 = (a + b + (flags &&& FLAG_CARRY)) % 256 ∧
    ((alu_add a b flags).2 &&& FLAG_CARRY ≠ 0 ↔ 256 ≤ a + b + (flags &&& FLAG_CARRY)) ∧
    ((alu_add a b flags).2 &&& FLAG_ZERO ≠ 0 ↔ (alu_add a b flags).1 = 0) ∧
    ((alu_add a b flags).2 &&& FLAG_SIGN ≠ 0 ↔ (alu_add a b flags).1.testBit 7 = true) ∧
    alu_add 0x50 0x50 0 = (0xA0, FLAG_OVRF ||| FLAG_SIGN) := by
  have hc := carry_le_one flags
  rw [alu_add_eq, adjust_binary _ _ _ _ _ hbcd]
  generalize flags &&& FLAG_CARRY = c at hc ⊢
  have hr : (a + b + c) % 65536 = a + b + c := Nat.mod_eq_of_lt (by omega)
  simp only [hr, finish_carry, finish_zero, finish_sign, and_ff]
  have h00 := and_ff00 (a + b + c) (by omega)
  have h7 := testBit7 ((a + b + c) % 256) (Nat.mod_lt _ (by decide))
  refine ⟨trivial, ?_, ?_, ?_, by decide⟩
  · rw [h00]
    constructor
    · rintro (h | h | h) <;> omega
    · intro h; exact Or.inr (Or.inr h)
  · trivial
  · rw [h7]

/-- Witness of C2: scenario S1, `0x50 + 0x50` with flags 0. -/
theorem alu_add_binary_witness :
    (alu_add 0x50 0x50 0).1 = (0x50 + 0x50 + (0 &&& FLAG_CARRY)) % 256 ∧
    ((alu_add 0x50 0x50 0).2 &&& FLAG_CARRY ≠ 0 ↔ 256 ≤ 0x50 + 0x50 + (0 &&& FLAG_CARRY)) ∧
    ((alu_add 0x50 0x50 0).2 &&& FLAG_ZERO ≠ 0 ↔ (alu_add 0x50 0x50 0).1 = 0) ∧
    ((alu_add 0x50 0x50 0).2 &&& FLAG_SIGN ≠ 0 ↔ (alu_add 0x50 0x50 0).1.testBit 7 = true) ∧
    alu_add 0x50 0x50 0 = (0xA0, FLAG_OVRF ||| FLAG_SIGN) :=
  alu_add_binary 0x50 0x50 0 (by decide) (by decide) (by decide)

/-! ## Decimal addition -/

theorem adjust_bcd (ai bi c f : Nat) (h : f &&& FLAG_BCD ≠ 0) (hs : ai + bi + c < 1024) :
    adjust ai bi c ((ai + bi + c) % 65536) f =
      (if 9 < (ai + bi + c + if 9 < ai % 16 + bi % 16 + c then 6 else 0) / 16 then 0x60 else 0)
        + (ai + bi + c + if 9 < ai % 16 + bi % 16 + c then 6 else 0) := by
  simp only [adjust, if_pos h, and_0f, shr4]
  split_ifs <;> omega

theorem bcd_sum (a b c : Nat) (ha : bcd_valid a) (hb : bcd_valid b) (hc : c ≤ 1) :
    ((if 9 < (a + b + c + if 9 < a % 16 + b % 16 + c then 6 else 0) / 16 then 0x60 else 0)
        + (a + b + c + if 9 < a % 16 + b % 16 + c then 6 else 0)) % 256
      = bcd_enc ((bcd_dec a + bcd_dec b + c) % 100) ∧
    (256 ≤ (if 9 < (a + b + c + if 9 < a % 16 + b % 16 + c then 6 else 0) / 16 then 0x60 else 0)
        + (a + b + c + if 9 < a % 16 + b % 16 + c then 6 else 0)
      ↔ 100 ≤ bcd_dec a + bcd_dec b + c) := by
  obtain ⟨ha1, ha2⟩ := ha
  obtain ⟨hb1, hb2⟩ := hb
  unfold bcd_enc bcd_dec
  have ea := Nat.div_add_mod a 16
  have eb := Nat.div_add_mod b 16
  generalize a / 16 = ah at *
  generalize a % 16 = al at *
  generalize b / 16 = bh at *
  generalize b % 16 = bl at *
  subst ea eb
  by_cases h1 : 9 < al + bl + c
  · have e1 : (16 * ah + al + (16 * bh + bl) + c + 6) / 16 = ah + bh + 1 := by omega
    by_cases h2 : 9 < ah + bh + 1
    · have e2 : (10 * ah + al + (10 * bh + bl) + c) % 100
          = 10 * (ah + bh + 1 - 10) + (al + bl + c - 10) := by omega
      simp only [if_pos h1, e1, if_pos h2, e2]
      omega
    · have e2 : (10 * ah + al + (10 * bh + bl) + c) % 100
          = 10 * (ah + bh + 1) + (al + bl + c - 10) := by omega
      simp only [if_pos h1, e1, if_neg h2, e2]
      omega
  · have e1 : (16 * ah + al + (16 * bh + bl) + c + 0) / 16 = ah + bh := by omega
    by_cases h2 : 9 < ah + bh
    · have e2 : (10 * ah + al + (10 * bh + bl) + c) % 100
          = 10 * (ah + bh - 10) + (al + bl + c) := by omega
      simp only [if_neg h1, e1, if_pos h2, e2]
      omega
    · have e2 : (10 * ah + al + (10 * bh + bl) + c) % 100
          = 10 * (ah + bh) + (al + bl + c) := by omega
      simp only [if_neg h1, e1, if_neg h2, e2]
      omega

theorem carry_cond (ai bi r : Nat) (h1 : ai ≤ r) (h2 : bi ≤ r) (h3 : r < 1024) :
    (r < ai ∨ r < bi ∨ (r &&& 0xff00) ≠ 0) ↔ 256 ≤ r := by
  rw [and_ff00 r h3]
  constructor
  · rintro (h | h | h) <;> omega
  · intro h; exact Or.inr (Or.inr h)

theorem bcd_valid_le (a : Nat) (ha : bcd_valid a) : a ≤ 0x99 := by
  obtain ⟨h1, h2⟩ := ha
  omega

/-- C3: for valid packed-BCD bytes `a`, `b` and flags with BCD set, `alu_add`
returns the packed-BCD encoding of `(dec(a) + dec(b) + c) mod 100`, where
`c = flags & FLAG_CARRY` is the incoming CARRY bit, and sets CARRY iff
`dec(a) + dec(b) + c >= 100`.  Scenario S2: `0x15 + 0x27` with only BCD set
gives `0x42` and leaves CARRY, ZERO and SIGN clear. -/
theorem alu_add_bcd (a b flags : Nat) (ha : bcd_valid a) (hb : bcd_valid b)
    (hbcd : flags &&& FLAG_BCD ≠ 0) :
    (alu_add a b flags).1
      = bcd_enc ((bcd_dec a + bcd_dec b + (flags &&& FLAG_CARRY)) % 100) ∧
    ((alu_add a b flags).2 &&& FLAG_CARRY ≠ 0
      ↔ 100 ≤ bcd_dec a + bcd_dec b + (flags &&& FLAG_CARRY)) ∧
    alu_add 0x15 0x27 FLAG_BCD = (0x42, FLAG_BCD) := by
  have hc := carry_le_one flags
  have ha9 := bcd_valid_le a ha
  have hb9 := bcd_valid_le b hb
  rw [alu_add_eq]
  generalize flags &&& FLAG_CARRY = c at hc ⊢
  rw [adjust_bcd _ _ _ _ hbcd (by omega)]
  obtain ⟨e1, e2⟩ := bcd_sum a b c ha hb hc
  simp only [finish_carry, and_ff]
  refine ⟨e1, ?_, by decide⟩
  rw [carry_cond _ _ _ (by split_ifs <;> omega) (by split_ifs <;> omega)
    (by split_ifs <;> omega)]
  exact e2

/-- Witness of C3: scenario S2, `0x15 + 0x27` with only BCD set. -/
theorem alu_add_bcd_witness :
    (alu_add 0x15 0x27 FLAG_BCD).1
      = bcd_enc ((bcd_dec 0x15 + bcd_dec 0x27 + (FLAG_BCD &&& FLAG_CARRY)) % 100) ∧
    ((alu_add 0x15 0x27 FLAG_BCD).2 &&& FLAG_CARRY ≠ 0
      ↔ 100 ≤ bcd_dec 0x15 + bcd_dec 0x27 + (FLAG_BCD &&& FLAG_CARRY)) ∧
    alu_add 0x15 0x27 FLAG_BCD = (0x42, FLAG_BCD) :=
  alu_add_bcd 0x15 0x27 FLAG_BCD (by decide) (by decide) (by decide)

/-! ## Binary subtraction -/

theorem sub_binary_shape (a b f : Nat) (hb : b < 256) (hbcd : f &&& FLAG_BCD = 0) :
    alu_sub a b f =
      (((a + (255 - b) + (f &&& FLAG_CARRY)) % 65536) &&& 0xff,
        finish a (255 - b) ((a + (255 - b) + (f &&& FLAG_CARRY)) % 65536) f) := by
  rw [alu_sub_eq a b f (255 - b) (by simp [hbcd, xor_ff b hb]),
    adjust_binary _ _ _ _ _ hbcd]

/-- C4: for bytes `a`, `b` and flags with BCD clear, `alu_sub` returns
`(a - b - (1 - c)) mod 256`, where `c = flags & FLAG_CARRY` is the incoming
CARRY bit, and sets CARRY iff no borrow occurred, that is iff
`a >= b + (1 - c)`; ZERO is set iff the returned byte is 0 and SIGN iff its
bit 7 is 1. -/
theorem alu_sub_binary (a b flags : Nat) (ha : a < 256) (hb : b < 256)
    (hbcd : flags &&& FLAG_BCD = 0) :
    ((alu_sub a b flags).1 : Int)
      = ((a : Int) - (b : Int) - (1 - ((flags &&& FLAG_CARRY : Nat) : Int))) % 256 ∧
    ((alu_sub a b flags).2 &&& FLAG_CARRY ≠ 0 ↔ b + (1 - (flags &&& FLAG_CARRY)) ≤ a) ∧
    ((alu_sub a b flags).2 &&& FLAG_ZERO ≠ 0 ↔ (alu_sub a b flags).1 = 0) ∧
    ((alu_sub a b flags).2 &&& FLAG_SIGN ≠ 0 ↔ (alu_sub a b flags).1.testBit 7 = true) := by
  have hc := carry_le_one flags
  rw [sub_binary_shape a b flags hb hbcd]
  generalize flags &&& FLAG_CARRY = c at hc ⊢
  have hr : (a + (255 - b) + c) % 65536 = a + (255 - b) + c := Nat.mod_eq_of_lt (by omega)
  simp only [hr, finish_carry, finish_zero, finish_sign, and_ff]
  have h7 := testBit7 ((a + (255 - b) + c) % 256) (Nat.mod_lt _ (by decide))
  refine ⟨by omega, ?_, trivial, ?_⟩
  · rw [carry_cond _ _ _ (by omega) (by omega) (by omega)]
    omega
  · rw [h7]

/-- Witness of C4: `0x50 - 0x30` with CARRY set (no borrow in). -/
theorem alu_sub_binary_witness :
    ((alu_sub 0x50 0x30 FLAG_CARRY).1 : Int)
      = (((0x50 : Nat) : Int) - ((0x30 : Nat) : Int)
          - (1 - ((FLAG_CARRY &&& FLAG_CARRY : Nat) : Int))) % 256 ∧
    ((alu_sub 0x50 0x30 FLAG_CARRY).2 &&& FLAG_CARRY ≠ 0
      ↔ 0x30 + (1 - (FLAG_CARRY &&& FLAG_CARRY)) ≤ 0x50) ∧
    ((alu_sub 0x50 0x30 FLAG_CARRY).2 &&& FLAG_ZERO ≠ 0
      ↔ (alu_sub 0x50 0x30 FLAG_CARRY).1 = 0) ∧
    ((alu_sub 0x50 0x30 FLAG_CARRY).2 &&& FLAG_SIGN ≠ 0
      ↔ (alu_sub 0x50 0x30 FLAG_CARRY).1.testBit 7 = true) :=
  alu_sub_binary 0x50 0x30 FLAG_CARRY (by decide) (by decide) (by decide)

/-! ## Decimal subtraction -/

theorem nines_complement (b : Nat) (hb : bcd_valid b) :
    bcd_valid (0x99 - b) ∧ bcd_dec (0x99 - b) = 99 - bcd_dec b ∧ bcd_dec b ≤ 99 := by
  obtain ⟨h1, h2⟩ := hb
  unfold bcd_valid bcd_dec
  have eb := Nat.div_add_mod b 16
  generalize b / 16 = bh at *
  generalize b % 16 = bl at *
  subst eb
  have e1 : (0x99 - (16 * bh + bl)) / 16 = 9 - bh := by omega
  have e2 : (0x99 - (16 * bh + bl)) % 16 = 9 - bl := by omega
  rw [e1, e2]
  omega

/-- C5: for valid packed-BCD bytes `a`, `b` and flags with BCD set, `alu_sub`
returns the packed-BCD encoding of `(dec(a) - dec(b) - (1 - c)) mod 100`, where
`c = flags & FLAG_CARRY` is the incoming CARRY bit, and sets CARRY iff there is
no decimal borrow, that is iff `dec(a) >= dec(b) + (1 - c)`. -/
theorem alu_sub_bcd (a b flags : Nat) (ha : bcd_valid a) (hb : bcd_valid b)
    (hbcd : flags &&& FLAG_BCD ≠ 0) :
    (alu_sub a b flags).1
      = bcd_enc (((bcd_dec a : Int) - (bcd_dec b : Int)
          - (1 - ((flags &&& FLAG_CARRY : Nat) : Int))) % 100).toNat ∧
    ((alu_sub a b flags).2 &&& FLAG_CARRY ≠ 0
      ↔ bcd_dec b + (1 - (flags &&& FLAG_CARRY)) ≤ bcd_dec a) := by
  have hc := carry_le_one flags
  have ha9 := bcd_valid_le a ha
  have hb9 := bcd_valid_le b hb
  obtain ⟨hv, hd, hd9⟩ := nines_complement b hb
  have hv9 := bcd_valid_le _ hv
  rw [alu_sub_eq a b flags (0x99 - b) (by rw [if_pos hbcd]; omega)]
  generalize flags &&& FLAG_CARRY = c at hc ⊢
  rw [adjust_bcd _ _ _ _ hbcd (by omega)]
  obtain ⟨e1, e2⟩ := bcd_sum a (0x99 - b) c ha hv hc
  simp only [finish_carry, and_ff]
  rw [carry_cond _ _ _ (by split_ifs <;> omega) (by split_ifs <;> omega)
    (by split_ifs <;> omega), e1, e2, hd]
  have hda : bcd_dec a ≤ 99 := by
    obtain ⟨h1, h2⟩ := ha
    unfold bcd_dec
    omega
  refine ⟨?_, by omega⟩
  congr 1
  omega

/-- Witness of C5: `0x42 - 0x27` in decimal mode with CARRY set gives `0x15`. -/
theorem alu_sub_bcd_witness :
    (alu_sub 0x42 0x27 (FLAG_BCD ||| FLAG_CARRY)).1
      = bcd_enc (((bcd_dec 0x42 : Int) - (bcd_dec 0x27 : Int)
          - (1 - (((FLAG_BCD ||| FLAG_CARRY) &&& FLAG_CARRY : Nat) : Int))) % 100).toNat ∧
    ((alu_sub 0x42 0x27 (FLAG_BCD ||| FLAG_CARRY)).2 &&& FLAG_CARRY ≠ 0
      ↔ bcd_dec 0x27 + (1 - ((FLAG_BCD ||| FLAG_CARRY) &&& FLAG_CARRY)) ≤ bcd_dec 0x42) :=
  alu_sub_bcd 0x42 0x27 (FLAG_BCD ||| FLAG_CARRY) (by decide) (by decide) (by decide)

/-! ## Scenario S3 -/

/-- C6, as stated, fails: in scenario S3 (`a = 0x50`, `b = 0xF0`, incoming flags
CARRY) `alu_sub` does return `0x60` with CARRY clear, but OVRF is not set. -/
theorem s3_ovrf_set_fails :
    ¬ ((alu_sub 0x50 0xF0 FLAG_CARRY).1 = 0x60 ∧
        (alu_sub 0x50 0xF0 FLAG_CARRY).2 &&& FLAG_CARRY = 0 ∧
        (alu_sub 0x50 0xF0 FLAG_CARRY).2 &&& FLAG_OVRF ≠ 0) := by
  decide

/-- C6, amended: in scenario S3 (`a = 0x50`, `b = 0xF0`, incoming flags CARRY)
`alu_sub` returns `0x60` and leaves CARRY clear and OVRF clear; the outgoing
flags are 0. -/
theorem alu_sub_s3 :
    (alu_sub 0x50 0xF0 FLAG_CARRY).1 = 0x60 ∧
    (alu_sub 0x50 0xF0 FLAG_CARRY).2 &&& FLAG_CARRY = 0 ∧
    (alu_sub 0x50 0xF0 FLAG_CARRY).2 &&& FLAG_OVRF = 0 ∧
    (alu_sub 0x50 0xF0 FLAG_CARRY).2 = 0 := by
  decide

/-! ## Addition followed by subtraction -/

/-- C7, as stated, fails: with `a = 1`, `b = 1` and flags 0 (CARRY and BCD
clear) `alu_add` returns 2 and leaves CARRY clear, and `alu_sub` of 2 and 1
from those flags returns 0, not 1. -/
theorem add_sub_not_inverse :
    (0 &&& FLAG_CARRY = 0 ∧ 0 &&& FLAG_BCD = 0) ∧
    alu_add 1 1 0 = (2, 0) ∧
    (alu_sub (alu_add 1 1 0).1 1 (alu_add 1 1 0).2).1 = 0 ∧
    (alu_sub (alu_add 1 1 0).1 1 (alu_add 1 1 0).2).1 ≠ 1 := by
  decide

theorem or_carry (f : Nat) : (f ||| FLAG_CARRY) &&& FLAG_CARRY = 1 := by
  have h := carry_le_one f
  rw [Nat.and_distrib_right]
  have h2 : f &&& FLAG_CARRY = 0 ∨ f &&& FLAG_CARRY = 1 := by omega
  rcases h2 with h2 | h2 <;> rw [h2] <;> decide

theorem or_carry_bcd (f : Nat) : (f ||| FLAG_CARRY) &&& FLAG_BCD = f &&& FLAG_BCD := by
  rw [Nat.and_distrib_right]
  have : FLAG_CARRY &&& FLAG_BCD = 0 := by decide
  rw [this, Nat.or_zero]

/-- C7, amended: for bytes `a`, `b` and flags `f` with CARRY and BCD clear, let
`(r, f1)` be the result and flags of `alu_add a b f`.  Then `alu_sub` of `r` and
`b` from `f1` returns `a` when the addition carried (`a + b >= 256`) and
`(a - 1) mod 256` when it did not; and `alu_sub` of `r` and `b` from `f1` with
CARRY set (no borrow coming in) returns `a`. -/
theorem add_then_sub (a b f : Nat) (ha : a < 256) (hb : b < 256)
    (hc : f &&& FLAG_CARRY = 0) (hbcd : f &&& FLAG_BCD = 0) :
    (alu_sub (alu_add a b f).1 b (alu_add a b f).2).1
      = (if 256 ≤ a + b then a else (a + 255) % 256) ∧
    (alu_sub (alu_add a b f).1 b ((alu_add a b f).2 ||| FLAG_CARRY)).1 = a := by
  rw [alu_add_eq, adjust_binary _ _ _ _ _ hbcd, hc]
  have hr : (a + b + 0) % 65536 = a + b := Nat.mod_eq_of_lt (by omega)
  simp only [hr, and_ff]
  have hf1 := finish_bcd a b (a + b) f
  have hc1 := finish_carry a b (a + b) f
  rw [carry_cond _ _ _ (by omega) (by omega) (by omega)] at hc1
  have hc2 := carry_le_one (finish a b (a + b) f)
  generalize finish a b (a + b) f = f1 at hf1 hc1 hc2
  rw [hbcd] at hf1
  have hrb : (a + b) % 256 < 256 := Nat.mod_lt _ (by decide)
  rw [sub_binary_shape _ b f1 hb hf1,
    sub_binary_shape _ b (f1 ||| FLAG_CARRY) hb (by rw [or_carry_bcd]; exact hf1),
    or_carry]
  simp only [and_ff]
  constructor
  · split_ifs with h
    · have : f1 &&& FLAG_CARRY = 1 := by
        have := hc1.mpr h
        omega
      rw [this]
      omega
    · have : f1 &&& FLAG_CARRY = 0 := by
        by_contra h0
        exact h (hc1.mp h0)
      rw [this]
      omega
  · omega

/-- Witness of the amended C7: `0xF0 + 0x20` carries, and subtracting `0x20`
again gives back `0xF0`. -/
theorem add_then_sub_witness :
    (alu_sub (alu_add 0xF0 0x20 0).1 0x20 (alu_add 0xF0 0x20 0).2).1
      = (if 256 ≤ 0xF0 + 0x20 then 0xF0 else (0xF0 + 255) % 256) ∧
    (alu_sub (alu_add 0xF0 0x20 0).1 0x20 ((alu_add 0xF0 0x20 0).2 ||| FLAG_CARRY)).1 = 0xF0 :=
  add_then_sub 0xF0 0x20 0 (by decide) (by decide) (by decide) (by decide)

/-! ## Shifts and rotates -/

theorem shift_shape (c : Prop) [Decidable c] (r f : Nat) :
    (if c then alu_flags r f (FLAG_SIGN ||| FLAG_ZERO) ||| FLAG_CARRY
      else alu_flags r f (FLAG_SIGN ||| FLAG_ZERO) &&& (0xff ^^^ FLAG_CARRY))
      = upd (decide c) FLAG_CARRY
          (upd (decide (r &&& 0x80 ≠ 0)) FLAG_SIGN (upd (decide (r &&& 0xff = 0)) FLAG_ZERO f)) := by
  rw [alu_flags_zs, upd_decide c]

theorem shift_carry (c : Prop) [Decidable c] (r f : Nat) :
    upd (decide c) FLAG_CARRY
        (upd (decide (r &&& 0x80 ≠ 0)) FLAG_SIGN (upd (decide (r &&& 0xff = 0)) FLAG_ZERO f))
      &&& FLAG_CARRY ≠ 0 ↔ c := by
  rw [upd_same _ _ _ (by decide) (by decide)]
  simp

set_option maxRecDepth 100000 in
theorem or_80 : ∀ x < 128, x ||| 0x80 = x + 128 := by decide!

/-- C8: for every byte `a` and every incoming flags value, `alu_asl` followed by
`alu_ror` on its result, from the flags `alu_asl` left (so with its CARRY as the
carry-in), returns `a` and leaves CARRY clear.  The low seven bits come back
from the shifted byte (`result >> 1 = a mod 128`) and bit 7 from the CARRY that
`alu_asl` set (CARRY iff `a >= 128`). -/
theorem asl_then_ror (a b b2 flags : Nat) (ha : a < 256) :
    (alu_ror (alu_asl a b flags).1 b2 (alu_asl a b flags).2).1 = a ∧
    (alu_ror (alu_asl a b flags).1 b2 (alu_asl a b flags).2).2 &&& FLAG_CARRY = 0 ∧
    (alu_asl a b flags).1 >>> 1 = a % 128 ∧
    ((alu_asl a b flags).2 &&& FLAG_CARRY ≠ 0 ↔ 128 ≤ a) := by
  have h80 := and_80 a ha
  have e2 : a <<< 1 = a * 2 := by rw [Nat.shiftLeft_eq, Nat.pow_one]
  have hsh : ((a <<< 1) % 256) >>> 1 = a % 128 := by
    rw [e2, Nat.shiftRight_eq_div_pow, Nat.pow_one]
    omega
  have hodd : ¬ ((a <<< 1) % 256 &&& 0x01 ≠ 0) := by
    rw [Nat.and_one_is_mod, e2]
    omega
  have hcar : (alu_asl a b flags).2 &&& FLAG_CARRY ≠ 0 ↔ 128 ≤ a := by
    simp only [alu_asl, shift_shape, shift_carry]
    exact h80
  refine ⟨?_, ?_, hsh, hcar⟩
  · simp only [alu_ror]
    by_cases h : 128 ≤ a
    · rw [if_pos (hcar.mpr h)]
      simp only [alu_asl, hsh]
      rw [or_80 _ (by omega)]
      omega
    · rw [if_neg (fun hh => h (hcar.mp hh))]
      simp only [alu_asl, hsh]
      omega
  · simp only [alu_ror, shift_shape]
    simp only [alu_asl]
    by_contra h2
    exact hodd ((shift_carry _ _ _).mp h2)

/-- Witness of C8: `0xC3` shifts left to `0x86` with CARRY set and rotates back
to `0xC3`. -/
theorem asl_then_ror_witness :
    (alu_ror (alu_asl 0xC3 0 0).1 0 (alu_asl 0xC3 0 0).2).1 = 0xC3 ∧
    (alu_ror (alu_asl 0xC3 0 0).1 0 (alu_asl 0xC3 0 0).2).2 &&& FLAG_CARRY = 0 ∧
    (alu_asl 0xC3 0 0).1 >>> 1 = 0xC3 % 128 ∧
    ((alu_asl 0xC3 0 0).2 &&& FLAG_CARRY ≠ 0 ↔ 128 ≤ 0xC3) :=
  asl_then_ror 0xC3 0 0 0 (by decide)

/-! ## Compare -/

theorem alu_cmp_eq (a b f : Nat) (hb : b < 256) :
    alu_cmp a b f =
      (((a + (255 - b) + 1) % 65536) % 256,
        upd (decide (((a + (255 - b) + 1) % 65536) &&& 0xff &&& 0x80 ≠ 0)) FLAG_SIGN
          (upd (decide (((a + (255 - b) + 1) % 65536) &&& 0xff &&& 0xff = 0)) FLAG_ZERO
            (upd (decide (((a + (255 - b) + 1) % 65536) < a
                ∨ ((a + (255 - b) + 1) % 65536) < 255 - b
                ∨ (((a + (255 - b) + 1) % 65536) &&& 0xff00) ≠ 0)) FLAG_CARRY f))) := by
  simp only [alu_cmp, alu_flags_zs, upd_decide, xor_ff b hb]

/-- C9: for bytes `a`, `b` and every incoming flags value, `alu_cmp` sets CARRY
iff `a >= b`, ZERO iff `a = b` and SIGN to bit 7 of `(a - b) mod 256`; every
flag bit other than CARRY, ZERO and SIGN, OVRF among them, is left as it was.
`exec_cmp`, `exec_cpx` and `exec_cpy` leave `a`, `x`, `y`, `sp` and `pc`
unchanged.  Scenario S4: comparing `0x42` with `0x42` sets ZERO and CARRY and
clears SIGN. -/
theorem alu_cmp_flags (a b flags : Nat) (ha : a < 256) (hb : b < 256) :
    ((alu_cmp a b flags).2 &&& FLAG_CARRY ≠ 0 ↔ b ≤ a) ∧
    ((alu_cmp a b flags).2 &&& FLAG_ZERO ≠ 0 ↔ a = b) ∧
    ((alu_cmp a b flags).2 &&& FLAG_SIGN ≠ 0
      ↔ (((a : Int) - (b : Int)) % 256).toNat.testBit 7 = true) ∧
    (alu_cmp a b flags).2 &&& (0xff ^^^ (FLAG_CARRY ||| FLAG_ZERO ||| FLAG_SIGN))
      = flags &&& (0xff ^^^ (FLAG_CARRY ||| FLAG_ZERO ||| FLAG_SIGN)) ∧
    (alu_cmp a b flags).2 &&& FLAG_OVRF = flags &&& FLAG_OVRF ∧
    (∀ (s : Machine) (t : argtype) (args : Nat × Nat),
      ((exec_cmp s t args).cpu.a = s.cpu.a ∧ (exec_cmp s t args).cpu.x = s.cpu.x ∧
        (exec_cmp s t args).cpu.y = s.cpu.y ∧ (exec_cmp s t args).cpu.sp = s.cpu.sp ∧
        (exec_cmp s t args).cpu.pc = s.cpu.pc) ∧
      ((exec_cpx s t args).cpu.a = s.cpu.a ∧ (exec_cpx s t args).cpu.x = s.cpu.x ∧
        (exec_cpx s t args).cpu.y = s.cpu.y ∧ (exec_cpx s t args).cpu.sp = s.cpu.sp ∧
        (exec_cpx s t args).cpu.pc = s.cpu.pc) ∧
      ((exec_cpy s t args).cpu.a = s.cpu.a ∧ (exec_cpy s t args).cpu.x = s.cpu.x ∧
        (exec_cpy s t args).cpu.y = s.cpu.y ∧ (exec_cpy s t args).cpu.sp = s.cpu.sp ∧
        (exec_cpy s t args).cpu.pc = s.cpu.pc)) ∧
    ((alu_cmp 0x42 0x42 flags).2 &&& FLAG_ZERO ≠ 0 ∧
      (alu_cmp 0x42 0x42 flags).2 &&& FLAG_CARRY ≠ 0 ∧
      (alu_cmp 0x42 0x42 flags).2 &&& FLAG_SIGN = 0) := by
  have key : ∀ a b : Nat, a < 256 → b < 256 →
      ((alu_cmp a b flags).2 &&& FLAG_CARRY ≠ 0 ↔ b ≤ a) ∧
      ((alu_cmp a b flags).2 &&& FLAG_ZERO ≠ 0 ↔ a = b) ∧
      ((alu_cmp a b flags).2 &&& FLAG_SIGN ≠ 0 ↔ 128 ≤ (a + (255 - b) + 1) % 256) := by
    intro a b ha hb
    rw [alu_cmp_eq a b flags hb]
    have hr : (a + (255 - b) + 1) % 65536 = a + (255 - b) + 1 := Nat.mod_eq_of_lt (by omega)
    simp only [hr, and_ff]
    refine ⟨?_, ?_, ?_⟩
    · rw [upd_and _ _ _ _ (by decide) (by decide), upd_and _ _ _ _ (by decide) (by decide),
        upd_same _ _ _ (by decide) (by decide), decide_eq_true_iff,
        carry_cond _ _ _ (by omega) (by omega) (by omega)]
      omega
    · rw [upd_and _ _ _ _ (by decide) (by decide), upd_same _ _ _ (by decide) (by decide),
        decide_eq_true_iff]
      omega
    · rw [upd_same _ _ _ (by decide) (by decide), decide_eq_true_iff,
        and_80 _ (Nat.mod_lt _ (by decide))]
  obtain ⟨k1, k2, k3⟩ := key a b ha hb
  obtain ⟨s1, s2, s3⟩ := key 0x42 0x42 (by decide) (by decide)
  refine ⟨k1, k2, ?_, ?_, ?_, ?_, s2.mpr rfl, s1.mpr (Nat.le_refl _), ?_⟩
  · rw [k3]
    have e : (((a : Int) - (b : Int)) % 256).toNat = (a + (255 - b) + 1) % 256 := by omega
    rw [e, testBit7 _ (Nat.mod_lt _ (by decide))]
  · rw [alu_cmp_eq a b flags hb, upd_and _ _ _ _ (by decide) (by decide),
      upd_and _ _ _ _ (by decide) (by decide), upd_and _ _ _ _ (by decide) (by decide)]
  · rw [alu_cmp_eq a b flags hb, upd_and _ _ _ _ (by decide) (by decide),
      upd_and _ _ _ _ (by decide) (by decide), upd_and _ _ _ _ (by decide) (by decide)]
  · intro s t args
    unfold exec_cmp exec_cpx exec_cpy
    refine ⟨?_, ?_, ?_⟩ <;> split_ifs <;> exact ⟨rfl, rfl, rfl, rfl, rfl⟩
  · by_contra h
    have := s3.mp h
    omega

/-- Witness of C9: scenario S4, comparing `0x42` with `0x42` from flags ONE. -/
theorem alu_cmp_flags_witness :
    ((alu_cmp 0x42 0x42 FLAG_ONE).2 &&& FLAG_CARRY ≠ 0 ↔ 0x42 ≤ 0x42) ∧
    ((alu_cmp 0x42 0x42 FLAG_ONE).2 &&& FLAG_ZERO ≠ 0 ↔ 0x42 = 0x42) ∧
    ((alu_cmp 0x42 0x42 FLAG_ONE).2 &&& FLAG_ZERO ≠ 0 ∧
      (alu_cmp 0x42 0x42 FLAG_ONE).2 &&& FLAG_CARRY ≠ 0 ∧
      (alu_cmp 0x42 0x42 FLAG_ONE).2 &&& FLAG_SIGN = 0) :=
  ⟨(alu_cmp_flags 0x42 0x42 FLAG_ONE (by decide) (by decide)).1,
    (alu_cmp_flags 0x42 0x42 FLAG_ONE (by decide) (by decide)).2.1,
    (alu_cmp_flags 0x42 0x42 FLAG_ONE (by decide) (by decide)).2.2.2.2.2.2⟩

/-! ## Frame: the flag bits an operation does not name -/

theorem alu_flags_z (r f : Nat) :
    alu_flags r f FLAG_ZERO = upd (decide (r &&& 0xff = 0)) FLAG_ZERO f := by
  have h1 : FLAG_ZERO &&& FLAG_ZERO ≠ 0 := by decide
  have h2 : ¬ (FLAG_ZERO &&& FLAG_SIGN ≠ 0) := by decide
  simp only [alu_flags, if_pos h1, if_neg h2, upd_decide]

theorem alu_flags_s (r f : Nat) :
    alu_flags r f FLAG_SIGN = upd (decide (r &&& 0x80 ≠ 0)) FLAG_SIGN f := by
  have h1 : ¬ (FLAG_SIGN &&& FLAG_ZERO ≠ 0) := by decide
  have h2 : FLAG_SIGN &&& FLAG_SIGN ≠ 0 := by decide
  simp only [alu_flags, if_neg h1, if_pos h2, upd_decide]

theorem alu_flags_zs2 (r f : Nat) :
    alu_flags r f (FLAG_ZERO ||| FLAG_SIGN) =
      upd (decide (r &&& 0x80 ≠ 0)) FLAG_SIGN (upd (decide (r &&& 0xff = 0)) FLAG_ZERO f) :=
  alu_flags_zs r f

theorem alu_flags_none (r f : Nat) : alu_flags r f 0 = f := by
  simp [alu_flags]

theorem alu_flags_mask (r f mask : Nat) :
    alu_flags r f mask = alu_flags r f (mask &&& (FLAG_ZERO ||| FLAG_SIGN)) := by
  have h1 : mask &&& (FLAG_ZERO ||| FLAG_SIGN) &&& FLAG_ZERO = mask &&& FLAG_ZERO := by
    rw [Nat.and_assoc]; rfl
  have h2 : mask &&& (FLAG_ZERO ||| FLAG_SIGN) &&& FLAG_SIGN = mask &&& FLAG_SIGN := by
    rw [Nat.and_assoc]; rfl
  simp only [alu_flags, h1, h2]

set_option maxRecDepth 100000 in
theorem byte_and_zs : ∀ y < 256, y &&& 0x82 = 0 ∨ y &&& 0x82 = 0x02 ∨ y &&& 0x82 = 0x80
    ∨ y &&& 0x82 = 0x82 := by decide!

theorem mask_cases (mask : Nat) :
    mask &&& (FLAG_ZERO ||| FLAG_SIGN) = 0 ∨ mask &&& (FLAG_ZERO ||| FLAG_SIGN) = FLAG_ZERO
      ∨ mask &&& (FLAG_ZERO ||| FLAG_SIGN) = FLAG_SIGN
      ∨ mask &&& (FLAG_ZERO ||| FLAG_SIGN) = FLAG_ZERO ||| FLAG_SIGN := by
  have h : mask &&& (FLAG_ZERO ||| FLAG_SIGN) = (mask &&& 0xff) &&& 0x82 := by
    rw [Nat.and_assoc]; rfl
  rw [h, and_ff]
  exact byte_and_zs _ (Nat.mod_lt _ (by decide))

theorem alu_flags_frame (r f mask : Nat) :
    alu_flags r f mask &&& (0xff ^^^ (mask &&& (FLAG_ZERO ||| FLAG_SIGN)))
      = f &&& (0xff ^^^ (mask &&& (FLAG_ZERO ||| FLAG_SIGN))) := by
  rw [alu_flags_mask]
  rcases mask_cases mask with h | h | h | h <;> rw [h]
  · rw [alu_flags_none]
  · rw [alu_flags_z, upd_and _ _ _ _ (by decide) (by decide)]
  · rw [alu_flags_s, upd_and _ _ _ _ (by decide) (by decide)]
  · rw [alu_flags_zs2, upd_and _ _ _ _ (by decide) (by decide),
      upd_and _ _ _ _ (by decide) (by decide)]

theorem alu_sub_flags (a b f : Nat) :
    (alu_sub a b f).2 =
      finish a (if f &&& FLAG_BCD ≠ 0 then (0x99 + 0x100 - b) % 0x100 else (0xff ^^^ b) &&& 0xff)
        (adjust a (if f &&& FLAG_BCD ≠ 0 then (0x99 + 0x100 - b) % 0x100
            else (0xff ^^^ b) &&& 0xff) (f &&& FLAG_CARRY)
          ((a + (if f &&& FLAG_BCD ≠ 0 then (0x99 + 0x100 - b) % 0x100
            else (0xff ^^^ b) &&& 0xff) + (f &&& FLAG_CARRY)) % 65536) f) f := by
  rw [alu_sub_eq a b f _ rfl]

/-- C10: every ALU operation changes only the flag bits it names, for every
input.  Among the eight bits of the flags, `alu_add` and `alu_sub` leave every
bit outside CARRY, ZERO, OVRF, SIGN as it was; `alu_asl`, `alu_lsr`, `alu_rol`,
`alu_ror` and `alu_cmp` every bit outside CARRY, ZERO, SIGN; `alu_inc`,
`alu_dec`, `alu_and`, `alu_or`, `alu_eor` and `alu_load` every bit outside
ZERO, SIGN; `alu_bit` every bit outside ZERO, OVRF, SIGN.  In particular each
of the fourteen leaves IRQD, BCD, BRK and bit 5 as they were, and `alu_flags`
leaves every bit that is not both in its mask and in ZERO, SIGN. -/
theorem alu_frame (a b flags result mask : Nat) :
    ((alu_add a b flags).2 &&& (0xff ^^^ (FLAG_CARRY ||| FLAG_ZERO ||| FLAG_OVRF ||| FLAG_SIGN))
      = flags &&& (0xff ^^^ (FLAG_CARRY ||| FLAG_ZERO ||| FLAG_OVRF ||| FLAG_SIGN))) ∧
    ((alu_sub a b flags).2 &&& (0xff ^^^ (FLAG_CARRY ||| FLAG_ZERO ||| FLAG_OVRF ||| FLAG_SIGN))
      = flags &&& (0xff ^^^ (FLAG_CARRY ||| FLAG_ZERO ||| FLAG_OVRF ||| FLAG_SIGN))) ∧
    ((alu_asl a b flags).2 &&& (0xff ^^^ (FLAG_CARRY ||| FLAG_ZERO ||| FLAG_SIGN))
      = flags &&& (0xff ^^^ (FLAG_CARRY ||| FLAG_ZERO ||| FLAG_SIGN))) ∧
    ((alu_lsr a b flags).2 &&& (0xff ^^^ (FLAG_CARRY ||| FLAG_ZERO ||| FLAG_SIGN))
      = flags &&& (0xff ^^^ (FLAG_CARRY ||| FLAG_ZERO ||| FLAG_SIGN))) ∧
    ((alu_rol a b flags).2 &&& (0xff ^^^ (FLAG_CARRY ||| FLAG_ZERO ||| FLAG_SIGN))
      = flags &&& (0xff ^^^ (FLAG_CARRY ||| FLAG_ZERO ||| FLAG_SIGN))) ∧
    ((alu_ror a b flags).2 &&& (0xff ^^^ (FLAG_CARRY ||| FLAG_ZERO ||| FLAG_SIGN))
      = flags &&& (0xff ^^^ (FLAG_CARRY ||| FLAG_ZERO ||| FLAG_SIGN))) ∧
    ((alu_cmp a b flags).2 &&& (0xff ^^^ (FLAG_CARRY ||| FLAG_ZERO ||| FLAG_SIGN))
      = flags &&& (0xff ^^^ (FLAG_CARRY ||| FLAG_ZERO ||| FLAG_SIGN))) ∧
    ((alu_inc a b flags).2 &&& (0xff ^^^ (FLAG_ZERO ||| FLAG_SIGN))
      = flags &&& (0xff ^^^ (FLAG_ZERO ||| FLAG_SIGN))) ∧
    ((alu_dec a b flags).2 &&& (0xff ^^^ (FLAG_ZERO ||| FLAG_SIGN))
      = flags &&& (0xff ^^^ (FLAG_ZERO ||| FLAG_SIGN))) ∧
    ((alu_and a b flags).2 &&& (0xff ^^^ (FLAG_ZERO ||| FLAG_SIGN))
      = flags &&& (0xff ^^^ (FLAG_ZERO ||| FLAG_SIGN))) ∧
    ((alu_or a b flags).2 &&& (0xff ^^^ (FLAG_ZERO ||| FLAG_SIGN))
      = flags &&& (0xff ^^^ (FLAG_ZERO ||| FLAG_SIGN))) ∧
    ((alu_eor a b flags).2 &&& (0xff ^^^ (FLAG_ZERO ||| FLAG_SIGN))
      = flags &&& (0xff ^^^ (FLAG_ZERO ||| FLAG_SIGN))) ∧
    ((alu_load a b flags).2 &&& (0xff ^^^ (FLAG_ZERO ||| FLAG_SIGN))
      = flags &&& (0xff ^^^ (FLAG_ZERO ||| FLAG_SIGN))) ∧
    ((alu_bit a b flags).2 &&& (0xff ^^^ (FLAG_ZERO ||| FLAG_OVRF ||| FLAG_SIGN))
      = flags &&& (0xff ^^^ (FLAG_ZERO ||| FLAG_OVRF ||| FLAG_SIGN))) ∧
    ((alu_add a b flags).2 &&& (FLAG_IRQD ||| FLAG_BCD ||| FLAG_BRK ||| FLAG_ONE)
      = flags &&& (FLAG_IRQD ||| FLAG_BCD ||| FLAG_BRK ||| FLAG_ONE)) ∧
    ((alu_sub a b flags).2 &&& (FLAG_IRQD ||| FLAG_BCD ||| FLAG_BRK ||| FLAG_ONE)
      = flags &&& (FLAG_IRQD ||| FLAG_BCD ||| FLAG_BRK ||| FLAG_ONE)) ∧
    ((alu_asl a b flags).2 &&& (FLAG_IRQD ||| FLAG_BCD ||| FLAG_BRK ||| FLAG_ONE)
      = flags &&& (FLAG_IRQD ||| FLAG_BCD ||| FLAG_BRK ||| FLAG_ONE)) ∧
    ((alu_lsr a b flags).2 &&& (FLAG_IRQD ||| FLAG_BCD ||| FLAG_BRK ||| FLAG_ONE)
      = flags &&& (FLAG_IRQD ||| FLAG_BCD ||| FLAG_BRK ||| FLAG_ONE)) ∧
    ((alu_rol a b flags).2 &&& (FLAG_IRQD ||| FLAG_BCD ||| FLAG_BRK ||| FLAG_ONE)
      = flags &&& (FLAG_IRQD ||| FLAG_BCD ||| FLAG_BRK ||| FLAG_ONE)) ∧
    ((alu_ror a b flags).2 &&& (FLAG_IRQD ||| FLAG_BCD ||| FLAG_BRK ||| FLAG_ONE)
      = flags &&& (FLAG_IRQD ||| FLAG_BCD ||| FLAG_BRK ||| FLAG_ONE)) ∧
    ((alu_cmp a b flags).2 &&& (FLAG_IRQD ||| FLAG_BCD ||| FLAG_BRK ||| FLAG_ONE)
      = flags &&& (FLAG_IRQD ||| FLAG_BCD ||| FLAG_BRK ||| FLAG_ONE)) ∧
    ((alu_inc a b flags).2 &&& (FLAG_IRQD ||| FLAG_BCD ||| FLAG_BRK ||| FLAG_ONE)
      = flags &&& (FLAG_IRQD ||| FLAG_BCD ||| FLAG_BRK ||| FLAG_ONE)) ∧
    ((alu_dec a b flags).2 &&& (FLAG_IRQD ||| FLAG_BCD ||| FLAG_BRK ||| FLAG_ONE)
      = flags &&& (FLAG_IRQD ||| FLAG_BCD ||| FLAG_BRK ||| FLAG_ONE)) ∧
    ((alu_and a b flags).2 &&& (FLAG_IRQD ||| FLAG_BCD ||| FLAG_BRK ||| FLAG_ONE)
      = flags &&& (FLAG_IRQD ||| FLAG_BCD ||| FLAG_BRK ||| FLAG_ONE)) ∧
    ((alu_or a b flags).2 &&& (FLAG_IRQD ||| FLAG_BCD ||| FLAG_BRK ||| FLAG_ONE)
      = flags &&& (FLAG_IRQD ||| FLAG_BCD ||| FLAG_BRK ||| FLAG_ONE)) ∧
    ((alu_eor a b flags).2 &&& (FLAG_IRQD ||| FLAG_BCD ||| FLAG_BRK ||| FLAG_ONE)
      = flags &&& (FLAG_IRQD ||| FLAG_BCD ||| FLAG_BRK ||| FLAG_ONE)) ∧
    ((alu_load a b flags).2 &&& (FLAG_IRQD ||| FLAG_BCD ||| FLAG_BRK ||| FLAG_ONE)
      = flags &&& (FLAG_IRQD ||| FLAG_BCD ||| FLAG_BRK ||| FLAG_ONE)) ∧
    ((alu_bit a b flags).2 &&& (FLAG_IRQD ||| FLAG_BCD ||| FLAG_BRK ||| FLAG_ONE)
      = flags &&& (FLAG_IRQD ||| FLAG_BCD ||| FLAG_BRK ||| FLAG_ONE)) ∧
    (alu_flags result flags mask &&& (0xff ^^^ (mask &&& (FLAG_ZERO ||| FLAG_SIGN)))
      = flags &&& (0xff ^^^ (mask &&& (FLAG_ZERO ||| FLAG_SIGN)))) := by
  refine ⟨?_, ?_, ?_, ?_, ?_, ?_, ?_, ?_, ?_, ?_, ?_, ?_, ?_, ?_, ?_, ?_, ?_, ?_, ?_, ?_, ?_, ?_, ?_, ?_, ?_, ?_, ?_, ?_, alu_flags_frame result flags mask⟩
  all_goals
    simp only [alu_add_eq, alu_sub_flags, finish, alu_asl, alu_lsr, alu_rol, alu_ror, alu_cmp,
      alu_inc, alu_dec, alu_and, alu_or, alu_eor, alu_load, alu_bit, alu_flags_zs,
      alu_flags_zs2, alu_flags_z, ← upd_decide]
    repeat rw [upd_and _ _ _ _ (by decide) (by decide)]

/-! ## Bit test -/

set_option maxRecDepth 100000 in
theorem and_40 : ∀ x < 256, (x &&& 0x40 ≠ 0 ↔ x.testBit 6 = true) := by decide!

theorem alu_bit_shape (a b f : Nat) :
    (alu_bit a b f).2 =
      upd (decide (b &&& 0x80 ≠ 0)) FLAG_SIGN
        (upd (decide (b &&& 0x40 ≠ 0)) FLAG_OVRF
          (upd (decide (a &&& b &&& 0xff = 0)) FLAG_ZERO f)) := by
  simp only [alu_bit, alu_flags_z, upd_decide]

/-- C11: for bytes `a`, `b` and every incoming flags value, `alu_bit` sets ZERO
iff `a & b = 0`, OVRF to bit 6 of `b` and SIGN to bit 7 of `b` (not of
`a & b`: for `a = 0x0F`, `b = 0xC0` the result byte is 0 and SIGN and OVRF are
set).  `exec_bit` drops the result byte: `a`, `x`, `y`, `sp`, `pc` and the
memory are as before. -/
theorem alu_bit_flags (a b flags : Nat) (ha : a < 256) (hb : b < 256) :
    ((alu_bit a b flags).2 &&& FLAG_ZERO ≠ 0 ↔ a &&& b = 0) ∧
    ((alu_bit a b flags).2 &&& FLAG_OVRF ≠ 0 ↔ b.testBit 6 = true) ∧
    ((alu_bit a b flags).2 &&& FLAG_SIGN ≠ 0 ↔ b.testBit 7 = true) ∧
    alu_bit 0x0F 0xC0 0 = (0, FLAG_ZERO ||| FLAG_OVRF ||| FLAG_SIGN) ∧
    (∀ (s : Machine) (t : argtype) (args : Nat × Nat),
      (exec_bit s t args).cpu.a = s.cpu.a ∧ (exec_bit s t args).cpu.x = s.cpu.x ∧
      (exec_bit s t args).cpu.y = s.cpu.y ∧ (exec_bit s t args).cpu.sp = s.cpu.sp ∧
      (exec_bit s t args).cpu.pc = s.cpu.pc ∧ (exec_bit s t args).mem = s.mem) := by
  have hab : a &&& b &&& 0xff = a &&& b := by
    rw [and_ff]
    exact Nat.mod_eq_of_lt (Nat.lt_of_le_of_lt Nat.and_le_left ha)
  rw [alu_bit_shape, hab]
  refine ⟨?_, ?_, ?_, by decide, ?_⟩
  · rw [upd_and _ _ _ _ (by decide) (by decide), upd_and _ _ _ _ (by decide) (by decide),
      upd_same _ _ _ (by decide) (by decide), decide_eq_true_iff]
  · rw [upd_and _ _ _ _ (by decide) (by decide), upd_same _ _ _ (by decide) (by decide),
      decide_eq_true_iff, and_40 b hb]
  · rw [upd_same _ _ _ (by decide) (by decide), decide_eq_true_iff, and_80 b hb,
      testBit7 b hb]
  · intro s t args
    unfold exec_bit
    split_ifs <;> exact ⟨rfl, rfl, rfl, rfl, rfl, rfl⟩

/-- Witness of C11: `a = 0x0F`, `b = 0xC0`, where `a & b = 0` and bits 6 and 7
of `b` are set. -/
theorem alu_bit_flags_witness :
    ((alu_bit 0x0F 0xC0 0).2 &&& FLAG_ZERO ≠ 0 ↔ 0x0F &&& 0xC0 = 0) ∧
    ((alu_bit 0x0F 0xC0 0).2 &&& FLAG_OVRF ≠ 0 ↔ (0xC0 : Nat).testBit 6 = true) ∧
    ((alu_bit 0x0F 0xC0 0).2 &&& FLAG_SIGN ≠ 0 ↔ (0xC0 : Nat).testBit 7 = true) ∧
    alu_bit 0x0F 0xC0 0 = (0, FLAG_ZERO ||| FLAG_OVRF ||| FLAG_SIGN) :=
  ⟨(alu_bit_flags 0x0F 0xC0 0 (by decide) (by decide)).1,
    (alu_bit_flags 0x0F 0xC0 0 (by decide) (by decide)).2.1,
    (alu_bit_flags 0x0F 0xC0 0 (by decide) (by decide)).2.2.1,
    (alu_bit_flags 0x0F 0xC0 0 (by decide) (by decide)).2.2.2.1⟩

/-! ## What the shifts and rotates return -/

theorem shift_zero (c : Bool) (r f : Nat) :
    upd c FLAG_CARRY
        (upd (decide (r &&& 0x80 ≠ 0)) FLAG_SIGN (upd (decide (r &&& 0xff = 0)) FLAG_ZERO f))
      &&& FLAG_ZERO ≠ 0 ↔ r &&& 0xff = 0 := by
  rw [upd_and _ _ _ _ (by decide) (by decide), upd_and _ _ _ _ (by decide) (by decide),
    upd_same _ _ _ (by decide) (by decide), decide_eq_true_iff]

theorem shift_sign (c : Bool) (r f : Nat) :
    upd c FLAG_CARRY
        (upd (decide (r &&& 0x80 ≠ 0)) FLAG_SIGN (upd (decide (r &&& 0xff = 0)) FLAG_ZERO f))
      &&& FLAG_SIGN ≠ 0 ↔ r &&& 0x80 ≠ 0 := by
  rw [upd_and _ _ _ _ (by decide) (by decide),
    upd_same _ _ _ (by decide) (by decide), decide_eq_true_iff]

set_option maxRecDepth 100000 in
theorem or_01 : ∀ x < 256, x % 2 = 0 → x ||| 1 = x + 1 := by decide!

theorem byte_zs (r : Nat) (hr : r < 256) :
    (r &&& 0xff = 0 ↔ r = 0) ∧ (r &&& 0x80 ≠ 0 ↔ r.testBit 7 = true) := by
  rw [and_ff, Nat.mod_eq_of_lt hr, and_80 r hr, testBit7 r hr]
  exact ⟨Iff.rfl, Iff.rfl⟩

set_option maxRecDepth 100000 in
theorem testBit0 : ∀ x < 256, (x &&& 0x01 ≠ 0 ↔ x.testBit 0 = true) := by decide!

theorem shift_flags (c q : Prop) [Decidable c] (r f : Nat) (hq : c ↔ q) (hr : r < 256) :
    ((if c then alu_flags r f (FLAG_SIGN ||| FLAG_ZERO) ||| FLAG_CARRY
        else alu_flags r f (FLAG_SIGN ||| FLAG_ZERO) &&& (0xff ^^^ FLAG_CARRY))
      &&& FLAG_CARRY ≠ 0 ↔ q) ∧
    ((if c then alu_flags r f (FLAG_SIGN ||| FLAG_ZERO) ||| FLAG_CARRY
        else alu_flags r f (FLAG_SIGN ||| FLAG_ZERO) &&& (0xff ^^^ FLAG_CARRY))
      &&& FLAG_ZERO ≠ 0 ↔ r = 0) ∧
    ((if c then alu_flags r f (FLAG_SIGN ||| FLAG_ZERO) ||| FLAG_CARRY
        else alu_flags r f (FLAG_SIGN ||| FLAG_ZERO) &&& (0xff ^^^ FLAG_CARRY))
      &&& FLAG_SIGN ≠ 0 ↔ r.testBit 7 = true) := by
  rw [shift_shape, shift_carry, shift_zero, shift_sign, (byte_zs r hr).1, (byte_zs r hr).2]
  exact ⟨hq, Iff.rfl, Iff.rfl⟩

/-- C12: for every byte `a` and incoming carry `c = flags & FLAG_CARRY` (0 or 1):
`alu_rol` returns `(2*a + c) mod 256` with outgoing CARRY = bit 7 of `a`;
`alu_ror` returns `floor(a / 2) + 128*c` with outgoing CARRY = bit 0 of `a`;
`alu_asl` returns `(2*a) mod 256` with CARRY = bit 7 of `a`; `alu_lsr` returns
`floor(a / 2)` with CARRY = bit 0 of `a`.  In each case ZERO is set iff the
returned byte is 0 and SIGN iff bit 7 of the returned byte is 1. -/
theorem shift_results (a b flags : Nat) (ha : a < 256) :
    ((alu_rol a b flags).1 = (2 * a + (flags &&& FLAG_CARRY)) % 256 ∧
      ((alu_rol a b flags).2 &&& FLAG_CARRY ≠ 0 ↔ a.testBit 7 = true) ∧
      ((alu_rol a b flags).2 &&& FLAG_ZERO ≠ 0 ↔ (alu_rol a b flags).1 = 0) ∧
      ((alu_rol a b flags).2 &&& FLAG_SIGN ≠ 0 ↔ (alu_rol a b flags).1.testBit 7 = true)) ∧
    ((alu_ror a b flags).1 = a / 2 + 128 * (flags &&& FLAG_CARRY) ∧
      ((alu_ror a b flags).2 &&& FLAG_CARRY ≠ 0 ↔ a.testBit 0 = true) ∧
      ((alu_ror a b flags).2 &&& FLAG_ZERO ≠ 0 ↔ (alu_ror a b flags).1 = 0) ∧
      ((alu_ror a b flags).2 &&& FLAG_SIGN ≠ 0 ↔ (alu_ror a b flags).1.testBit 7 = true)) ∧
    ((alu_asl a b flags).1 = (2 * a) % 256 ∧
      ((alu_asl a b flags).2 &&& FLAG_CARRY ≠ 0 ↔ a.testBit 7 = true) ∧
      ((alu_asl a b flags).2 &&& FLAG_ZERO ≠ 0 ↔ (alu_asl a b flags).1 = 0) ∧
      ((alu_asl a b flags).2 &&& FLAG_SIGN ≠ 0 ↔ (alu_asl a b flags).1.testBit 7 = true)) ∧
    ((alu_lsr a b flags).1 = a / 2 ∧
      ((alu_lsr a b flags).2 &&& FLAG_CARRY ≠ 0 ↔ a.testBit 0 = true) ∧
      ((alu_lsr a b flags).2 &&& FLAG_ZERO ≠ 0 ↔ (alu_lsr a b flags).1 = 0) ∧
      ((alu_lsr a b flags).2 &&& FLAG_SIGN ≠ 0 ↔ (alu_lsr a b flags).1.testBit 7 = true)) := by
  have hc := carry_le_one flags
  have e2 : a <<< 1 = 2 * a := by rw [Nat.shiftLeft_eq, Nat.pow_one, Nat.mul_comm]
  have e1 : a >>> 1 = a / 2 := by rw [Nat.shiftRight_eq_div_pow, Nat.pow_one]
  have h7 : a &&& 0x80 ≠ 0 ↔ a.testBit 7 = true := by rw [and_80 a ha, testBit7 a ha]
  have h0 := testBit0 a ha
  have hrol : (if flags &&& FLAG_CARRY ≠ 0 then (a <<< 1) % 256 ||| 1 else (a <<< 1) % 256)
      = (2 * a + (flags &&& FLAG_CARRY)) % 256 := by
    rw [e2]
    split_ifs with h
    · rw [or_01 _ (Nat.mod_lt _ (by decide)) (by omega)]
      omega
    · have h' : flags &&& FLAG_CARRY = 0 := not_not.mp h
      rw [h', Nat.add_zero]
  have hror : (if flags &&& FLAG_CARRY ≠ 0 then a >>> 1 ||| 0x80 else a >>> 1)
      = a / 2 + 128 * (flags &&& FLAG_CARRY) := by
    rw [e1]
    split_ifs with h
    · rw [or_80 _ (by omega)]
      omega
    · have h' : flags &&& FLAG_CARRY = 0 := not_not.mp h
      rw [h']
      omega
  refine ⟨?_, ?_, ?_, ?_⟩
  · simp only [alu_rol, hrol]
    exact ⟨trivial, shift_flags (a &&& 0x80 ≠ 0) _ _ flags h7 (Nat.mod_lt _ (by decide))⟩
  · simp only [alu_ror, hror]
    exact ⟨trivial, shift_flags (a &&& 0x01 ≠ 0) _ _ flags h0 (by omega)⟩
  · simp only [alu_asl, e2]
    exact ⟨trivial, shift_flags (a &&& 0x80 ≠ 0) _ _ flags h7 (Nat.mod_lt _ (by decide))⟩
  · simp only [alu_lsr, e1]
    exact ⟨trivial, shift_flags (a &&& 0x01 ≠ 0) _ _ flags h0 (by omega)⟩

/-- Witness of C12: `a = 0x81` with CARRY set; `alu_rol` gives `0x03` and
`alu_ror` gives `0xC0`, both with CARRY set. -/
theorem shift_results_witness :
    (alu_rol 0x81 0 FLAG_CARRY).1 = (2 * 0x81 + (FLAG_CARRY &&& FLAG_CARRY)) % 256 ∧
    (alu_rol 0x81 0 FLAG_CARRY).1 = 0x03 ∧
    (alu_ror 0x81 0 FLAG_CARRY).1 = 0x81 / 2 + 128 * (FLAG_CARRY &&& FLAG_CARRY) ∧
    (alu_ror 0x81 0 FLAG_CARRY).1 = 0xC0 :=
  ⟨(shift_results 0x81 0 FLAG_CARRY (by decide)).1.1, by decide,
    (shift_results 0x81 0 FLAG_CARRY (by decide)).2.1.1, by decide⟩

/-! ## The stack -/

set_option maxRecDepth 100000 in
theorem or_100 : ∀ x < 256, 0x0100 ||| x = 256 + x := by decide!

theorem exec_push_mem (s : Machine) (d : Nat) (hsp : s.cpu.sp < 256) :
    (exec_push s d).mem = fun p => if p = 256 + s.cpu.sp then d % 256 else s.mem p := by
  have h : (0x0100 ||| s.cpu.sp) % 65536 % 65536 = 256 + s.cpu.sp := by
    rw [or_100 _ hsp]; omega
  funext p
  simp only [exec_push, bus_write, h]

theorem exec_push_cpu (s : Machine) (d : Nat) :
    (exec_push s d).cpu = { s.cpu with sp := (s.cpu.sp + 255) % 256 } := rfl

theorem exec_push_cycles (s : Machine) (d : Nat) : (exec_push s d).cycles = s.cycles := rfl

theorem exec_pop_data (s : Machine) :
    (exec_pop s).2 = s.mem (256 + (s.cpu.sp + 1) % 256) % 256 := by
  have h : (0x0100 ||| (s.cpu.sp + 1) % 256) % 65536 % 65536 = 256 + (s.cpu.sp + 1) % 256 := by
    rw [or_100 _ (Nat.mod_lt _ (by decide))]; omega
  simp only [exec_pop, bus_read, h]

theorem exec_pop_machine (s : Machine) :
    (exec_pop s).1 = { s with cpu := { s.cpu with sp := (s.cpu.sp + 1) % 256 } } := rfl

/-- C13: over the memory behind the bus, where a read returns the last byte
written: for every byte `d` and every stack pointer `s` (for `s = 0x00` the push
leaves `sp = 0xFF`), `exec_push d` followed by `exec_pop` returns `d` and leaves
`sp = s`; the push writes one cell, at `0x0100 | s`, which lies in page 1, and
leaves every other cell as it was. -/
theorem push_then_pop (s : Machine) (d : Nat) (hd : d < 256) (hsp : s.cpu.sp < 256) :
    (exec_pop (exec_push s d)).2 = d ∧
    (exec_pop (exec_push s d)).1.cpu.sp = s.cpu.sp ∧
    (exec_push s d).cpu.sp = (s.cpu.sp + 255) % 256 ∧
    (s.cpu.sp = 0x00 → (exec_push s d).cpu.sp = 0xFF) ∧
    (exec_push s d).mem (0x0100 ||| s.cpu.sp) = d ∧
    (∀ p, p ≠ 0x0100 ||| s.cpu.sp → (exec_push s d).mem p = s.mem p) ∧
    (0x0100 ≤ 0x0100 ||| s.cpu.sp ∧ 0x0100 ||| s.cpu.sp ≤ 0x01FF) := by
  have hor := or_100 _ hsp
  refine ⟨?_, ?_, rfl, ?_, ?_, ?_, ?_⟩
  · rw [exec_pop_data, exec_push_mem _ _ hsp, exec_push_cpu]
    have h : ((s.cpu.sp + 255) % 256 + 1) % 256 = s.cpu.sp := by omega
    simp only [h, if_true]
    omega
  · rw [exec_pop_machine, exec_push_cpu]
    show ((s.cpu.sp + 255) % 256 + 1) % 256 = s.cpu.sp
    omega
  · intro h
    rw [exec_push_cpu]
    show (s.cpu.sp + 255) % 256 = 0xFF
    omega
  · rw [exec_push_mem _ _ hsp, hor]
    simp only [if_true]
    exact Nat.mod_eq_of_lt hd
  · intro p hp
    rw [exec_push_mem _ _ hsp]
    rw [hor] at hp
    simp only [if_neg hp]
  · rw [hor]
    omega

/-- Witness of C13 at the wrapping stack pointer `sp = 0x00`: the byte `0xAB` is
written at `0x0100`, `sp` becomes `0xFF`, and the pop gives `0xAB` and `sp = 0`. -/
theorem push_then_pop_witness :
    (exec_pop (exec_push ⟨⟨0x8000, 1, 2, 3, 0x00, 0x20⟩, fun _ => 0, 0⟩ 0xAB)).2 = 0xAB ∧
    (exec_pop (exec_push ⟨⟨0x8000, 1, 2, 3, 0x00, 0x20⟩, fun _ => 0, 0⟩ 0xAB)).1.cpu.sp = 0x00 ∧
    (exec_push ⟨⟨0x8000, 1, 2, 3, 0x00, 0x20⟩, fun _ => 0, 0⟩ 0xAB).cpu.sp = 0xFF ∧
    (exec_push ⟨⟨0x8000, 1, 2, 3, 0x00, 0x20⟩, fun _ => 0, 0⟩ 0xAB).mem 0x0100 = 0xAB :=
  ⟨(push_then_pop ⟨⟨0x8000, 1, 2, 3, 0x00, 0x20⟩, fun _ => 0, 0⟩ 0xAB (by decide) (by decide)).1,
    (push_then_pop ⟨⟨0x8000, 1, 2, 3, 0x00, 0x20⟩, fun _ => 0, 0⟩ 0xAB (by decide)
      (by decide)).2.1,
    (push_then_pop ⟨⟨0x8000, 1, 2, 3, 0x00, 0x20⟩, fun _ => 0, 0⟩ 0xAB (by decide)
      (by decide)).2.2.2.1 rfl,
    (push_then_pop ⟨⟨0x8000, 1, 2, 3, 0x00, 0x20⟩, fun _ => 0, 0⟩ 0xAB (by decide)
      (by decide)).2.2.2.2.1⟩

/-! ## Flags pulled from the stack -/

theorem exec_plp_flags (s : Machine) (t : argtype) (args : Nat × Nat) :
    (exec_plp s t args).cpu.flags = (exec_pop s).2 &&& 0xCF := rfl

theorem exec_rti_flags (s : Machine) (t : argtype) (args : Nat × Nat) :
    (exec_rti s t args).cpu.flags = (exec_pop s).2 &&& 0xCF := rfl

theorem and_cf (x m : Nat) (h : 0xCF &&& m = m) : x &&& 0xCF &&& m = x &&& m := by
  rw [Nat.and_assoc, h]

theorem and_cf_zero (x m : Nat) (h : 0xCF &&& m = 0) : x &&& 0xCF &&& m = 0 := by
  rw [Nat.and_assoc, h, Nat.and_zero]

/-- C14: for every CPU state and memory, after `exec_plp` and after `exec_rti`
the flags register is the byte popped from the stack (the first byte popped,
for `exec_rti`) ANDed with `0xCF`: BRK (bit 4) and ONE (bit 5) are clear, and
CARRY, ZERO, IRQD, BCD, OVRF and SIGN are those of the popped byte. -/
theorem pulled_flags (s : Machine) (t : argtype) (args : Nat × Nat) :
    (exec_plp s t args).cpu.flags = (exec_pop s).2 &&& 0xCF ∧
    (exec_rti s t args).cpu.flags = (exec_pop s).2 &&& 0xCF ∧
    (exec_plp s t args).cpu.flags &&& FLAG_BRK = 0 ∧
    (exec_plp s t args).cpu.flags &&& FLAG_ONE = 0 ∧
    (exec_plp s t args).cpu.flags &&& FLAG_CARRY = (exec_pop s).2 &&& FLAG_CARRY ∧
    (exec_plp s t args).cpu.flags &&& FLAG_ZERO = (exec_pop s).2 &&& FLAG_ZERO ∧
    (exec_plp s t args).cpu.flags &&& FLAG_IRQD = (exec_pop s).2 &&& FLAG_IRQD ∧
    (exec_plp s t args).cpu.flags &&& FLAG_BCD = (exec_pop s).2 &&& FLAG_BCD ∧
    (exec_plp s t args).cpu.flags &&& FLAG_OVRF = (exec_pop s).2 &&& FLAG_OVRF ∧
    (exec_plp s t args).cpu.flags &&& FLAG_SIGN = (exec_pop s).2 &&& FLAG_SIGN ∧
    (exec_rti s t args).cpu.flags &&& FLAG_BRK = 0 ∧
    (exec_rti s t args).cpu.flags &&& FLAG_ONE = 0 ∧
    (exec_rti s t args).cpu.flags &&& FLAG_CARRY = (exec_pop s).2 &&& FLAG_CARRY ∧
    (exec_rti s t args).cpu.flags &&& FLAG_ZERO = (exec_pop s).2 &&& FLAG_ZERO ∧
    (exec_rti s t args).cpu.flags &&& FLAG_IRQD = (exec_pop s).2 &&& FLAG_IRQD ∧
    (exec_rti s t args).cpu.flags &&& FLAG_BCD = (exec_pop s).2 &&& FLAG_BCD ∧
    (exec_rti s t args).cpu.flags &&& FLAG_OVRF = (exec_pop s).2 &&& FLAG_OVRF ∧
    (exec_rti s t args).cpu.flags &&& FLAG_SIGN = (exec_pop s).2 &&& FLAG_SIGN := by
  rw [exec_plp_flags, exec_rti_flags]
  refine ⟨rfl, rfl, ?_, ?_, ?_, ?_, ?_, ?_, ?_, ?_, ?_, ?_, ?_, ?_, ?_, ?_, ?_, ?_⟩
  all_goals first
    | exact and_cf_zero _ _ (by decide)
    | exact and_cf _ _ (by decide)

/-! ## The cycles of the return instructions -/

/-- C17 fails on the code: `exec_rts` and `exec_rti` leave the caller's cycle
counter as it was, for every CPU state and memory, where the claim asks for
2 and 3 more.  On a machine whose counter is 10 both leave 10. -/
theorem return_cycles_lost (s : Machine) (t : argtype) (args : Nat × Nat) :
    (exec_rts s t args).cycles = s.cycles ∧ (exec_rti s t args).cycles = s.cycles ∧
    (exec_rts ⟨⟨0x1234, 0, 0, 0, 0xFC, 0x20⟩, fun _ => 0, 10⟩ .arg_none (0, 0)).cycles = 10 ∧
    (exec_rti ⟨⟨0x1234, 0, 0, 0, 0xFC, 0x20⟩, fun _ => 0, 10⟩ .arg_none (0, 0)).cycles = 10 :=
  ⟨rfl, rfl, rfl, rfl⟩

/-! ## Branches -/

theorem addr_lt (lo hi : Nat) (hlo : lo < 256) (hhi : hi < 256) :
    ((hi <<< 8) ||| lo) % 65536 = (hi <<< 8) ||| lo := by
  apply Nat.mod_eq_of_lt
  rw [Nat.or_comm]
  exact word_lt lo hi hlo hhi

/-- C15: for each of the eight branch handlers, given the two bytes of an
address operand `T = (args[1] << 8) | args[0]` that does not trip the tight-loop
check (the build has `NDEBUG`, or `T` is not `pc - 2`): the branch is taken iff
its predicate holds (BCC: CARRY clear, BCS: CARRY set, BEQ: ZERO set, BNE: ZERO
clear, BMI: SIGN set, BPL: SIGN clear, BVC: OVRF clear, BVS: OVRF set); when
taken the machine left is the old one with `pc = T` and one more cycle (in the
arithmetic of the 32-bit counter, so exactly one more when it does not wrap);
when not taken the machine is unchanged.  Whatever the operand, a machine that a
branch handler leaves has the `a`, `x`, `y`, `sp`, `flags` and memory it was
given. -/
theorem branch_taken_iff (ndebug : Bool) (s : Machine) (t : argtype) (args : Nat × Nat)
    (h1 : args.1 < 256) (h2 : args.2 < 256)
    (hloop : ndebug = true ∨ ((((args.2 <<< 8) ||| args.1 : Nat) : Int) ≠ (s.cpu.pc : Int) - 2)) :
    (exec_bcc ndebug s t args =
      if s.cpu.flags &&& FLAG_CARRY = 0 then
        some { s with cpu := { s.cpu with pc := ((args.2 <<< 8) ||| args.1) },
                      cycles := (s.cycles + 1) % 4294967296 }
      else some s) ∧
    (exec_bcs ndebug s t args =
      if s.cpu.flags &&& FLAG_CARRY ≠ 0 then
        some { s with cpu := { s.cpu with pc := ((args.2 <<< 8) ||| args.1) },
                      cycles := (s.cycles + 1) % 4294967296 }
      else some s) ∧
    (exec_beq ndebug s t args =
      if s.cpu.flags &&& FLAG_ZERO ≠ 0 then
        some { s with cpu := { s.cpu with pc := ((args.2 <<< 8) ||| args.1) },
                      cycles := (s.cycles + 1) % 4294967296 }
      else some s) ∧
    (exec_bne ndebug s t args =
      if s.cpu.flags &&& FLAG_ZERO = 0 then
        some { s with cpu := { s.cpu with pc := ((args.2 <<< 8) ||| args.1) },
                      cycles := (s.cycles + 1) % 4294967296 }
      else some s) ∧
    (exec_bmi ndebug s t args =
      if s.cpu.flags &&& FLAG_SIGN ≠ 0 then
        some { s with cpu := { s.cpu with pc := ((args.2 <<< 8) ||| args.1) },
                      cycles := (s.cycles + 1) % 4294967296 }
      else some s) ∧
    (exec_bpl ndebug s t args =
      if s.cpu.flags &&& FLAG_SIGN = 0 then
        some { s with cpu := { s.cpu with pc := ((args.2 <<< 8) ||| args.1) },
                      cycles := (s.cycles + 1) % 4294967296 }
      else some s) ∧
    (exec_bvc ndebug s t args =
      if s.cpu.flags &&& FLAG_OVRF = 0 then
        some { s with cpu := { s.cpu with pc := ((args.2 <<< 8) ||| args.1) },
                      cycles := (s.cycles + 1) % 4294967296 }
      else some s) ∧
    (exec_bvs ndebug s t args =
      if s.cpu.flags &&& FLAG_OVRF ≠ 0 then
        some { s with cpu := { s.cpu with pc := ((args.2 <<< 8) ||| args.1) },
                      cycles := (s.cycles + 1) % 4294967296 }
      else some s) ∧
    (s.cycles + 1 < 4294967296 → (s.cycles + 1) % 4294967296 = s.cycles + 1) ∧
    (∀ s2, exec_bcc ndebug s t args = some s2 →
      s2.cpu.a = s.cpu.a ∧ s2.cpu.x = s.cpu.x ∧ s2.cpu.y = s.cpu.y ∧ s2.cpu.sp = s.cpu.sp ∧
      s2.cpu.flags = s.cpu.flags ∧ s2.mem = s.mem) ∧
    (∀ s2, exec_bcs ndebug s t args = some s2 →
      s2.cpu.a = s.cpu.a ∧ s2.cpu.x = s.cpu.x ∧ s2.cpu.y = s.cpu.y ∧ s2.cpu.sp = s.cpu.sp ∧
      s2.cpu.flags = s.cpu.flags ∧ s2.mem = s.mem) ∧
    (∀ s2, exec_beq ndebug s t args = some s2 →
      s2.cpu.a = s.cpu.a ∧ s2.cpu.x = s.cpu.x ∧ s2.cpu.y = s.cpu.y ∧ s2.cpu.sp = s.cpu.sp ∧
      s2.cpu.flags = s.cpu.flags ∧ s2.mem = s.mem) ∧
    (∀ s2, exec_bne ndebug s t args = some s2 →
      s2.cpu.a = s.cpu.a ∧ s2.cpu.x = s.cpu.x ∧ s2.cpu.y = s.cpu.y ∧ s2.cpu.sp = s.cpu.sp ∧
      s2.cpu.flags = s.cpu.flags ∧ s2.mem = s.mem) ∧
    (∀ s2, exec_bmi ndebug s t args = some s2 →
      s2.cpu.a = s.cpu.a ∧ s2.cpu.x = s.cpu.x ∧ s2.cpu.y = s.cpu.y ∧ s2.cpu.sp = s.cpu.sp ∧
      s2.cpu.flags = s.cpu.flags ∧ s2.mem = s.mem) ∧
    (∀ s2, exec_bpl ndebug s t args = some s2 →
      s2.cpu.a = s.cpu.a ∧ s2.cpu.x = s.cpu.x ∧ s2.cpu.y = s.cpu.y ∧ s2.cpu.sp = s.cpu.sp ∧
      s2.cpu.flags = s.cpu.flags ∧ s2.mem = s.mem) ∧
    (∀ s2, exec_bvc ndebug s t args = some s2 →
      s2.cpu.a = s.cpu.a ∧ s2.cpu.x = s.cpu.x ∧ s2.cpu.y = s.cpu.y ∧ s2.cpu.sp = s.cpu.sp ∧
      s2.cpu.flags = s.cpu.flags ∧ s2.mem = s.mem) ∧
    (∀ s2, exec_bvs ndebug s t args = some s2 →
      s2.cpu.a = s.cpu.a ∧ s2.cpu.x = s.cpu.x ∧ s2.cpu.y = s.cpu.y ∧ s2.cpu.sp = s.cpu.sp ∧
      s2.cpu.flags = s.cpu.flags ∧ s2.mem = s.mem) := by
  have hT := addr_lt args.1 args.2 h1 h2
  have hno : ¬ (ndebug = false ∧ ((((args.2 <<< 8) ||| args.1 : Nat) : Int) = (s.cpu.pc : Int) - 2)) := by
    rintro ⟨hn, he⟩
    rcases hloop with h | h
    · rw [hn] at h; exact Bool.noConfusion h
    · exact h he
  refine ⟨?_, ?_, ?_, ?_, ?_, ?_, ?_, ?_, fun h => Nat.mod_eq_of_lt h,
    ?_, ?_, ?_, ?_, ?_, ?_, ?_, ?_⟩
  all_goals first
    | (intro s2 h
       simp only [exec_bcc, exec_bcs, exec_beq, exec_bne, exec_bmi, exec_bpl, exec_bvc,
         exec_bvs, FATAL] at h
       split_ifs at h <;> cases h <;> exact ⟨rfl, rfl, rfl, rfl, rfl, rfl⟩)
    | simp only [exec_bcc, exec_bcs, exec_beq, exec_bne, exec_bmi, exec_bpl, exec_bvc,
        exec_bvs, hT, if_neg hno, not_not, ne_eq]

/-- Witness of C15: `BCC` with CARRY clear, `pc = 0x8002` and target `0x9000`
in a debug build. -/
theorem branch_taken_iff_witness :
    exec_bcc false ⟨⟨0x8002, 0, 0, 0, 0xFF, 0x20⟩, fun _ => 0, 5⟩ .arg_addr (0x00, 0x90)
      = some ⟨⟨0x9000, 0, 0, 0, 0xFF, 0x20⟩, fun _ => 0, 6⟩ :=
  (branch_taken_iff false ⟨⟨0x8002, 0, 0, 0, 0xFF, 0x20⟩, fun _ => 0, 5⟩ .arg_addr (0x00, 0x90)
    (by decide) (by decide) (Or.inr (by decide))).1

/-! ## Sequences of pushes -/

theorem hi_byte (x : Nat) (hx : x < 65536) : (x >>> 8) &&& 0xff = x / 256 := by
  rw [Nat.shiftRight_eq_div_pow, and_ff]
  omega

theorem word_eq (lo hi : Nat) (hlo : lo < 256) : lo ||| (hi <<< 8) = lo + 256 * hi := by
  have h := Nat.mul_add_lt_is_or (i := 8) (b := lo) hlo hi
  rw [Nat.shiftLeft_eq, Nat.or_comm, Nat.mul_comm hi, ← h]
  omega

theorem push2_mem (s : Machine) (d0 d1 : Nat) (hsp : s.cpu.sp < 256) :
    (exec_push (exec_push s d0) d1).mem = fun p =>
      if p = 256 + (s.cpu.sp + 255) % 256 then d1 % 256
      else if p = 256 + s.cpu.sp then d0 % 256 else s.mem p := by
  rw [exec_push_mem _ _ (by rw [exec_push_cpu]; exact Nat.mod_lt _ (by decide)),
    exec_push_mem _ _ hsp, exec_push_cpu]

theorem push3_mem (s : Machine) (d0 d1 d2 : Nat) (hsp : s.cpu.sp < 256) :
    (exec_push (exec_push (exec_push s d0) d1) d2).mem = fun p =>
      if p = 256 + (s.cpu.sp + 254) % 256 then d2 % 256
      else if p = 256 + (s.cpu.sp + 255) % 256 then d1 % 256
      else if p = 256 + s.cpu.sp then d0 % 256 else s.mem p := by
  rw [exec_push_mem _ _ (by rw [exec_push_cpu]; exact Nat.mod_lt _ (by decide)),
    push2_mem _ _ _ hsp, exec_push_cpu, exec_push_cpu]
  have h : ((s.cpu.sp + 255) % 256 + 255) % 256 = (s.cpu.sp + 254) % 256 := by omega
  simp only [h]

/-! ## Call and return -/

theorem exec_jsr_mem (s : Machine) (t : argtype) (args : Nat × Nat) :
    (exec_jsr s t args).mem =
      (exec_push (exec_push s ((((s.cpu.pc + 65535) % 65536) >>> 8) &&& 0xff))
        (((s.cpu.pc + 65535) % 65536) &&& 0xff)).mem := rfl

theorem exec_jsr_pc (s : Machine) (t : argtype) (args : Nat × Nat) :
    (exec_jsr s t args).cpu.pc = ((args.2 <<< 8) ||| args.1) % 65536 := rfl

theorem exec_jsr_sp (s : Machine) (t : argtype) (args : Nat × Nat) :
    (exec_jsr s t args).cpu.sp = ((s.cpu.sp + 255) % 256 + 255) % 256 := rfl

theorem exec_rts_pc (s : Machine) (t : argtype) (args : Nat × Nat) :
    (exec_rts s t args).cpu.pc =
      (((exec_pop s).2 ||| ((exec_pop (exec_pop s).1).2 <<< 8)) % 65536 + 1) % 65536 := rfl

theorem exec_rts_sp (s : Machine) (t : argtype) (args : Nat × Nat) :
    (exec_rts s t args).cpu.sp = ((s.cpu.sp + 1) % 256 + 1) % 256 := rfl

/-- C16: JSR then RTS is a control-flow identity.  For every program counter `P`
(already past the operand), target `T = (args[1] << 8) | args[0]` and stack
pointer `s`, over the memory behind the bus: `exec_jsr` writes the high byte of
`(P - 1) mod 65536` at `0x0100 | s` and its low byte at
`0x0100 | ((s - 1) mod 256)`, leaves every other cell as it was, and sets
`pc = T` and `sp = (s - 2) mod 256`; `exec_rts` run on the machine it leaves sets
`pc = P` and `sp = s`.  Scenario S5: with `P = 0x8003`, `sp = 0xFF` and target
`0x1234` the cells `0x01FF`, `0x01FE` receive `0x80`, `0x02`, and the return
ends with `pc = 0x8003`, `sp = 0xFF`. -/
theorem jsr_then_rts (s : Machine) (t t2 : argtype) (args args2 : Nat × Nat)
    (hpc : s.cpu.pc < 65536) (hsp : s.cpu.sp < 256) (h1 : args.1 < 256) (h2 : args.2 < 256) :
    (exec_jsr s t args).mem (0x0100 ||| s.cpu.sp) = ((s.cpu.pc + 65535) % 65536) / 256 ∧
    (exec_jsr s t args).mem (0x0100 ||| ((s.cpu.sp + 255) % 256))
      = ((s.cpu.pc + 65535) % 65536) % 256 ∧
    (∀ p, p ≠ 0x0100 ||| s.cpu.sp → p ≠ 0x0100 ||| ((s.cpu.sp + 255) % 256) →
      (exec_jsr s t args).mem p = s.mem p) ∧
    (exec_jsr s t args).cpu.pc = (args.2 <<< 8) ||| args.1 ∧
    (exec_jsr s t args).cpu.sp = (s.cpu.sp + 254) % 256 ∧
    (exec_rts (exec_jsr s t args) t2 args2).cpu.pc = s.cpu.pc ∧
    (exec_rts (exec_jsr s t args) t2 args2).cpu.sp = s.cpu.sp := by
  have hT := addr_lt args.1 args.2 h1 h2
  have hA0 := or_100 _ hsp
  have hA1 := or_100 ((s.cpu.sp + 255) % 256) (Nat.mod_lt _ (by decide))
  have hhi := hi_byte ((s.cpu.pc + 65535) % 65536) (Nat.mod_lt _ (by decide))
  have hlo := and_ff ((s.cpu.pc + 65535) % 65536)
  have hmem := exec_jsr_mem s t args
  rw [push2_mem _ _ _ hsp, hhi, hlo] at hmem
  have hsp2 := exec_jsr_sp s t args
  have hr0 : (exec_jsr s t args).mem (256 + s.cpu.sp) = ((s.cpu.pc + 65535) % 65536) / 256 := by
    rw [hmem]
    beta_reduce
    split_ifs <;> omega
  have hr1 : (exec_jsr s t args).mem (256 + (s.cpu.sp + 255) % 256)
      = ((s.cpu.pc + 65535) % 65536) % 256 := by
    rw [hmem]
    beta_reduce
    split_ifs <;> omega
  refine ⟨?_, ?_, ?_, ?_, ?_, ?_, ?_⟩
  · rw [hA0, hr0]
  · rw [hA1, hr1]
  · intro p hp0 hp1
    rw [hA0] at hp0
    rw [hA1] at hp1
    rw [hmem]
    beta_reduce
    rw [if_neg hp1, if_neg hp0]
  · rw [exec_jsr_pc]
    exact hT
  · rw [hsp2]
    omega
  · rw [exec_rts_pc, exec_pop_data, exec_pop_data, exec_pop_machine]
    have e1 : (((s.cpu.sp + 255) % 256 + 255) % 256 + 1) % 256 = (s.cpu.sp + 255) % 256 := by
      omega
    have e2 : ((s.cpu.sp + 255) % 256 + 1) % 256 = s.cpu.sp := by omega
    simp only [hsp2, e1, e2, hr0, hr1]
    rw [word_eq _ _ (Nat.mod_lt _ (by decide))]
    omega
  · rw [exec_rts_sp, hsp2]
    omega

/-- Witness of C16: scenario S5, `JSR $1234` whose operand ends at `0x8003`, with
`sp = 0xFF`, followed by `RTS`. -/
theorem jsr_then_rts_witness :
    (exec_jsr ⟨⟨0x8003, 0, 0, 0, 0xFF, 0x20⟩, fun _ => 0, 0⟩ .arg_addr (0x34, 0x12)).mem 0x01FF
      = 0x80 ∧
    (exec_jsr ⟨⟨0x8003, 0, 0, 0, 0xFF, 0x20⟩, fun _ => 0, 0⟩ .arg_addr (0x34, 0x12)).mem 0x01FE
      = 0x02 ∧
    (exec_jsr ⟨⟨0x8003, 0, 0, 0, 0xFF, 0x20⟩, fun _ => 0, 0⟩ .arg_addr (0x34, 0x12)).cpu.pc
      = 0x1234 ∧
    (exec_rts (exec_jsr ⟨⟨0x8003, 0, 0, 0, 0xFF, 0x20⟩, fun _ => 0, 0⟩ .arg_addr (0x34, 0x12))
      .arg_none (0, 0)).cpu.pc = 0x8003 ∧
    (exec_rts (exec_jsr ⟨⟨0x8003, 0, 0, 0, 0xFF, 0x20⟩, fun _ => 0, 0⟩ .arg_addr (0x34, 0x12))
      .arg_none (0, 0)).cpu.sp = 0xFF :=
  ⟨(jsr_then_rts ⟨⟨0x8003, 0, 0, 0, 0xFF, 0x20⟩, fun _ => 0, 0⟩ .arg_addr .arg_none (0x34, 0x12)
      (0, 0) (by decide) (by decide) (by decide) (by decide)).1,
    (jsr_then_rts ⟨⟨0x8003, 0, 0, 0, 0xFF, 0x20⟩, fun _ => 0, 0⟩ .arg_addr .arg_none (0x34, 0x12)
      (0, 0) (by decide) (by decide) (by decide) (by decide)).2.1,
    (jsr_then_rts ⟨⟨0x8003, 0, 0, 0, 0xFF, 0x20⟩, fun _ => 0, 0⟩ .arg_addr .arg_none (0x34, 0x12)
      (0, 0) (by decide) (by decide) (by decide) (by decide)).2.2.2.1,
    (jsr_then_rts ⟨⟨0x8003, 0, 0, 0, 0xFF, 0x20⟩, fun _ => 0, 0⟩ .arg_addr .arg_none (0x34, 0x12)
      (0, 0) (by decide) (by decide) (by decide) (by decide)).2.2.2.2.2.1,
    (jsr_then_rts ⟨⟨0x8003, 0, 0, 0, 0xFF, 0x20⟩, fun _ => 0, 0⟩ .arg_addr .arg_none (0x34, 0x12)
      (0, 0) (by decide) (by decide) (by decide) (by decide)).2.2.2.2.2.2⟩

/-! ## Interrupt entry -/

theorem exec_irq_mem (s : Machine) :
    (exec_irq s).mem =
      (exec_push (exec_push (exec_push s ((s.cpu.pc >>> 8) &&& 0xff)) (s.cpu.pc &&& 0xff))
        ((s.cpu.flags ||| FLAG_ONE) &&& (0xff ^^^ FLAG_BRK))).mem := by
  simp only [exec_irq, exec_nmi, exec_push]

theorem exec_nmi_mem (s : Machine) :
    (exec_nmi s).mem =
      (exec_push (exec_push (exec_push s ((s.cpu.pc >>> 8) &&& 0xff)) (s.cpu.pc &&& 0xff))
        ((s.cpu.flags ||| FLAG_ONE) &&& (0xff ^^^ FLAG_BRK))).mem := by
  simp only [exec_irq, exec_nmi, exec_push]

theorem exec_irq_pc (s : Machine) :
    (exec_irq s).cpu.pc =
      (bus_read (exec_irq s).mem IRQ_VECTOR
        ||| (bus_read (exec_irq s).mem (IRQ_VECTOR + 1) <<< 8)) % 65536 := by
  simp only [exec_irq, exec_push]

theorem exec_nmi_pc (s : Machine) :
    (exec_nmi s).cpu.pc =
      (bus_read (exec_nmi s).mem NMI_VECTOR
        ||| (bus_read (exec_nmi s).mem (NMI_VECTOR + 1) <<< 8)) % 65536 := by
  simp only [exec_nmi, exec_push]

theorem entry_sp (s : Machine) :
    (exec_irq s).cpu.sp = (((s.cpu.sp + 255) % 256 + 255) % 256 + 255) % 256 ∧
    (exec_nmi s).cpu.sp = (((s.cpu.sp + 255) % 256 + 255) % 256 + 255) % 256 := ⟨rfl, rfl⟩

/-- A read above page 1 is not disturbed by three pushes. -/
theorem push3_read (s : Machine) (d0 d1 d2 v : Nat) (hsp : s.cpu.sp < 256)
    (hv : 512 ≤ v) (hv2 : v < 65536) :
    bus_read (exec_push (exec_push (exec_push s d0) d1) d2).mem v = bus_read s.mem v := by
  rw [push3_mem _ _ _ _ hsp]
  simp only [bus_read, Nat.mod_eq_of_lt hv2]
  rw [if_neg (by omega), if_neg (by omega), if_neg (by omega)]

theorem vector_word (mem : Memory) (v : Nat) :
    (bus_read mem v ||| (bus_read mem (v + 1) <<< 8)) % 65536
      = bus_read mem v ||| (bus_read mem (v + 1) <<< 8) :=
  Nat.mod_eq_of_lt (word_lt _ _ (bus_read_lt _ _) (bus_read_lt _ _))

theorem pushed_irq_flags (f : Nat) :
    ((f ||| FLAG_ONE) &&& (0xff ^^^ FLAG_BRK)) % 256 = (f ||| 0x20) &&& 0xEF ∧
    ((f ||| 0x20) &&& 0xEF) &&& FLAG_ONE ≠ 0 ∧ ((f ||| 0x20) &&& 0xEF) &&& FLAG_BRK = 0 := by
  have e : (f ||| FLAG_ONE) &&& (0xff ^^^ FLAG_BRK) = (f ||| 0x20) &&& 0xEF := rfl
  have hle : (f ||| 0x20) &&& 0xEF ≤ 0xEF := Nat.and_le_right
  refine ⟨?_, ?_, ?_⟩
  · rw [e]; omega
  · rw [Nat.and_assoc]
    have h1 : (0xEF : Nat) &&& FLAG_ONE = FLAG_ONE := by decide
    rw [h1]
    exact (upd_same true FLAG_ONE f (by decide) (by decide)).mpr rfl
  · rw [Nat.and_assoc]
    have h1 : (0xEF : Nat) &&& FLAG_BRK = 0 := by decide
    rw [h1, Nat.and_zero]

/-- C18: for every CPU state (`pc`, `sp = s`, `flags = f`) and memory, `exec_irq`
writes `pc`'s high byte at `0x0100 | s`, its low byte at
`0x0100 | ((s - 1) mod 256)` and the byte `(f | 0x20) & ~0x10` (ONE set, BRK
clear) at `0x0100 | ((s - 2) mod 256)`, and no other cell; afterwards
`sp = (s - 3) mod 256`, `flags = f | IRQD`, `pc = mem[0xFFFE] | (mem[0xFFFF] << 8)`,
`a`, `x`, `y` are unchanged and the cycle counter has grown by 7 (in the
arithmetic of the 32-bit counter, so exactly 7 when it does not wrap). -/
theorem exec_irq_post (s : Machine) (hpc : s.cpu.pc < 65536) (hsp : s.cpu.sp < 256) :
    (exec_irq s).mem (0x0100 ||| s.cpu.sp) = s.cpu.pc / 256 ∧
    (exec_irq s).mem (0x0100 ||| ((s.cpu.sp + 255) % 256)) = s.cpu.pc % 256 ∧
    (exec_irq s).mem (0x0100 ||| ((s.cpu.sp + 254) % 256)) = (s.cpu.flags ||| 0x20) &&& 0xEF ∧
    (((s.cpu.flags ||| 0x20) &&& 0xEF) &&& FLAG_ONE ≠ 0 ∧
      ((s.cpu.flags ||| 0x20) &&& 0xEF) &&& FLAG_BRK = 0) ∧
    (∀ p, p ≠ 0x0100 ||| s.cpu.sp → p ≠ 0x0100 ||| ((s.cpu.sp + 255) % 256) →
      p ≠ 0x0100 ||| ((s.cpu.sp + 254) % 256) → (exec_irq s).mem p = s.mem p) ∧
    (exec_irq s).cpu.sp = (s.cpu.sp + 253) % 256 ∧
    (exec_irq s).cpu.flags = s.cpu.flags ||| FLAG_IRQD ∧
    (exec_irq s).cpu.pc = bus_read s.mem 0xFFFE ||| (bus_read s.mem 0xFFFF <<< 8) ∧
    ((exec_irq s).cpu.a = s.cpu.a ∧ (exec_irq s).cpu.x = s.cpu.x ∧
      (exec_irq s).cpu.y = s.cpu.y) ∧
    (exec_irq s).cycles = (s.cycles + 7) % 4294967296 ∧
    (s.cycles + 7 < 4294967296 → (exec_irq s).cycles = s.cycles + 7) := by
  have hA0 := or_100 _ hsp
  have hA1 := or_100 ((s.cpu.sp + 255) % 256) (Nat.mod_lt _ (by decide))
  have hA2 := or_100 ((s.cpu.sp + 254) % 256) (Nat.mod_lt _ (by decide))
  obtain ⟨hfl, hone, hbrk⟩ := pushed_irq_flags s.cpu.flags
  have hmem := exec_irq_mem s
  have hpcr := exec_irq_pc s
  rw [hmem, push3_read s _ _ _ IRQ_VECTOR hsp (by unfold IRQ_VECTOR; omega)
      (by unfold IRQ_VECTOR; omega),
    push3_read s _ _ _ (IRQ_VECTOR + 1) hsp (by unfold IRQ_VECTOR; omega)
      (by unfold IRQ_VECTOR; omega), vector_word] at hpcr
  rw [push3_mem _ _ _ _ hsp, hi_byte _ hpc, and_ff, hfl] at hmem
  have e1 : IRQ_VECTOR = 0xFFFE := rfl
  have e2 : IRQ_VECTOR + 1 = 0xFFFF := rfl
  rw [e2, e1] at hpcr
  have hfin : (exec_irq s).cpu.flags = s.cpu.flags ||| FLAG_IRQD := by
    simp only [exec_irq, exec_push]
  have hregs : (exec_irq s).cpu.a = s.cpu.a ∧ (exec_irq s).cpu.x = s.cpu.x ∧
      (exec_irq s).cpu.y = s.cpu.y := by
    simp only [exec_irq, exec_push, and_self]
  have hcyc : (exec_irq s).cycles = (s.cycles + 7) % 4294967296 := by
    simp only [exec_irq, exec_push]
  refine ⟨?_, ?_, ?_, ⟨hone, hbrk⟩, ?_, ?_, hfin, hpcr, hregs, hcyc,
    fun h => by rw [hcyc]; exact Nat.mod_eq_of_lt h⟩
  · rw [hmem, hA0]
    beta_reduce
    split_ifs <;> omega
  · rw [hmem, hA1]
    beta_reduce
    split_ifs <;> omega
  · rw [hmem, hA2]
    beta_reduce
    rw [if_pos rfl]
  · intro p hp0 hp1 hp2
    rw [hA0] at hp0
    rw [hA1] at hp1
    rw [hA2] at hp2
    rw [hmem]
    beta_reduce
    rw [if_neg hp2, if_neg hp1, if_neg hp0]
  · rw [(entry_sp s).1]
    omega

/-- Witness of C18: scenario S6, `pc = 0x1234`, `flags = 0x20`, `sp = 0xFF`, with
`0x34, 0x12` at `0xFFFE/F`. -/
theorem exec_irq_post_witness :
    (exec_irq ⟨⟨0x1234, 1, 2, 3, 0xFF, 0x20⟩,
      fun p => if p = 0xFFFE then 0x34 else if p = 0xFFFF then 0x12 else 0, 0⟩).mem 0x01FF
      = 0x12 ∧
    (exec_irq ⟨⟨0x1234, 1, 2, 3, 0xFF, 0x20⟩,
      fun p => if p = 0xFFFE then 0x34 else if p = 0xFFFF then 0x12 else 0, 0⟩).mem 0x01FE
      = 0x34 ∧
    (exec_irq ⟨⟨0x1234, 1, 2, 3, 0xFF, 0x20⟩,
      fun p => if p = 0xFFFE then 0x34 else if p = 0xFFFF then 0x12 else 0, 0⟩).mem 0x01FD
      = 0x20 ∧
    (exec_irq ⟨⟨0x1234, 1, 2, 3, 0xFF, 0x20⟩,
      fun p => if p = 0xFFFE then 0x34 else if p = 0xFFFF then 0x12 else 0, 0⟩).cpu.sp
      = 0xFC ∧
    (exec_irq ⟨⟨0x1234, 1, 2, 3, 0xFF, 0x20⟩,
      fun p => if p = 0xFFFE then 0x34 else if p = 0xFFFF then 0x12 else 0, 0⟩).cpu.pc
      = 0x1234 :=
  ⟨(exec_irq_post ⟨⟨0x1234, 1, 2, 3, 0xFF, 0x20⟩,
      fun p => if p = 0xFFFE then 0x34 else if p = 0xFFFF then 0x12 else 0, 0⟩
      (by decide) (by decide)).1,
    (exec_irq_post ⟨⟨0x1234, 1, 2, 3, 0xFF, 0x20⟩,
      fun p => if p = 0xFFFE then 0x34 else if p = 0xFFFF then 0x12 else 0, 0⟩
      (by decide) (by decide)).2.1,
    (exec_irq_post ⟨⟨0x1234, 1, 2, 3, 0xFF, 0x20⟩,
      fun p => if p = 0xFFFE then 0x34 else if p = 0xFFFF then 0x12 else 0, 0⟩
      (by decide) (by decide)).2.2.1,
    (exec_irq_post ⟨⟨0x1234, 1, 2, 3, 0xFF, 0x20⟩,
      fun p => if p = 0xFFFE then 0x34 else if p = 0xFFFF then 0x12 else 0, 0⟩
      (by decide) (by decide)).2.2.2.2.2.1,
    (exec_irq_post ⟨⟨0x1234, 1, 2, 3, 0xFF, 0x20⟩,
      fun p => if p = 0xFFFE then 0x34 else if p = 0xFFFF then 0x12 else 0, 0⟩
      (by decide) (by decide)).2.2.2.2.2.2.2.1⟩

/-- C19: for every CPU state and memory, `exec_nmi` leaves the same memory,
`sp`, `flags`, `a`, `x`, `y` and cycle counter (7 more, in the arithmetic of the
32-bit counter) as `exec_irq` on the same input; the only difference is the
vector: `exec_nmi` loads `pc` from `mem[0xFFFA] | (mem[0xFFFB] << 8)` where
`exec_irq` loads it from `mem[0xFFFE] | (mem[0xFFFF] << 8)`. -/
theorem nmi_as_irq (s : Machine) (hsp : s.cpu.sp < 256) :
    (exec_nmi s).mem = (exec_irq s).mem ∧
    (exec_nmi s).cpu.sp = (exec_irq s).cpu.sp ∧
    (exec_nmi s).cpu.flags = (exec_irq s).cpu.flags ∧
    (exec_nmi s).cpu.a = (exec_irq s).cpu.a ∧
    (exec_nmi s).cpu.x = (exec_irq s).cpu.x ∧
    (exec_nmi s).cpu.y = (exec_irq s).cpu.y ∧
    (exec_nmi s).cycles = (exec_irq s).cycles ∧
    (exec_nmi s).cycles = (s.cycles + 7) % 4294967296 ∧
    (s.cycles + 7 < 4294967296 → (exec_nmi s).cycles = s.cycles + 7) ∧
    (exec_nmi s).cpu.pc = bus_read s.mem 0xFFFA ||| (bus_read s.mem 0xFFFB <<< 8) ∧
    (exec_irq s).cpu.pc = bus_read s.mem 0xFFFE ||| (bus_read s.mem 0xFFFF <<< 8) := by
  have hn := exec_nmi_pc s
  rw [exec_nmi_mem, push3_read s _ _ _ NMI_VECTOR hsp (by unfold NMI_VECTOR; omega)
      (by unfold NMI_VECTOR; omega),
    push3_read s _ _ _ (NMI_VECTOR + 1) hsp (by unfold NMI_VECTOR; omega)
      (by unfold NMI_VECTOR; omega), vector_word] at hn
  have hi := exec_irq_pc s
  rw [exec_irq_mem, push3_read s _ _ _ IRQ_VECTOR hsp (by unfold IRQ_VECTOR; omega)
      (by unfold IRQ_VECTOR; omega),
    push3_read s _ _ _ (IRQ_VECTOR + 1) hsp (by unfold IRQ_VECTOR; omega)
      (by unfold IRQ_VECTOR; omega), vector_word] at hi
  have e1 : IRQ_VECTOR = 0xFFFE := rfl
  have e2 : IRQ_VECTOR + 1 = 0xFFFF := rfl
  have e3 : NMI_VECTOR = 0xFFFA := rfl
  have e4 : NMI_VECTOR + 1 = 0xFFFB := rfl
  rw [e2, e1] at hi
  rw [e4, e3] at hn
  have hcyc : (exec_nmi s).cycles = (s.cycles + 7) % 4294967296 := by
    simp only [exec_nmi, exec_push]
  refine ⟨?_, ?_, ?_, ?_, ?_, ?_, ?_, hcyc, fun h => by rw [hcyc]; exact Nat.mod_eq_of_lt h,
    hn, hi⟩
  all_goals simp only [exec_nmi, exec_irq, exec_push]

/-- Witness of C19: the state of scenario S6 with `0x00, 0x90` at `0xFFFA/B`;
`exec_nmi` ends at `pc = 0x9000`. -/
theorem nmi_as_irq_witness :
    (exec_nmi ⟨⟨0x1234, 1, 2, 3, 0xFF, 0x20⟩,
      fun p => if p = 0xFFFB then 0x90 else if p = 0xFFFF then 0x12 else 0, 0⟩).cpu.pc
      = 0x9000 :=
  (nmi_as_irq ⟨⟨0x1234, 1, 2, 3, 0xFF, 0x20⟩,
      fun p => if p = 0xFFFB then 0x90 else if p = 0xFFFF then 0x12 else 0, 0⟩
      (by decide)).2.2.2.2.2.2.2.2.2.1

/-! ## Software break -/

theorem exec_brk_mem (s : Machine) (t : argtype) (args : Nat × Nat) :
    (exec_brk s t args).mem =
      (exec_push (exec_push (exec_push s ((((s.cpu.pc + 1) % 65536) >>> 8) &&& 0xff))
        (((s.cpu.pc + 1) % 65536) &&& 0xff)) (s.cpu.flags ||| (FLAG_ONE ||| FLAG_BRK))).mem := by
  simp only [exec_brk, exec_push]

theorem exec_brk_pc (s : Machine) (t : argtype) (args : Nat × Nat) :
    (exec_brk s t args).cpu.pc =
      (bus_read (exec_brk s t args).mem IRQ_VECTOR
        ||| (bus_read (exec_brk s t args).mem (IRQ_VECTOR + 1) <<< 8)) % 65536 := by
  simp only [exec_brk, exec_push]

set_option maxRecDepth 100000 in
theorem or_30 : ∀ f < 256, (f ||| 0x30 < 256) ∧ ((f ||| 0x30) &&& 0x20 ≠ 0)
    ∧ ((f ||| 0x30) &&& 0x10 ≠ 0) := by decide!

/-- C20: for every CPU state with `pc = P` (already past the BRK opcode),
`sp = s`, `flags = f`, `exec_brk` writes the high byte of `(P + 1) mod 65536` at
`0x0100 | s`, its low byte at `0x0100 | ((s - 1) mod 256)` and the byte
`f | 0x30` (ONE and BRK set) at `0x0100 | ((s - 2) mod 256)`, and no other cell;
afterwards `sp = (s - 3) mod 256`, `flags = f | IRQD` (the BRK bit of the live
flags is as it was), `pc = mem[0xFFFE] | (mem[0xFFFF] << 8)`, and the cycle
counter has grown by 4 (in the arithmetic of the 32-bit counter, so exactly 4
when it does not wrap). -/
theorem exec_brk_post (s : Machine) (t : argtype) (args : Nat × Nat)
    (hsp : s.cpu.sp < 256) (hf : s.cpu.flags < 256) :
    (exec_brk s t args).mem (0x0100 ||| s.cpu.sp) = ((s.cpu.pc + 1) % 65536) / 256 ∧
    (exec_brk s t args).mem (0x0100 ||| ((s.cpu.sp + 255) % 256))
      = ((s.cpu.pc + 1) % 65536) % 256 ∧
    (exec_brk s t args).mem (0x0100 ||| ((s.cpu.sp + 254) % 256)) = s.cpu.flags ||| 0x30 ∧
    ((s.cpu.flags ||| 0x30) &&& FLAG_ONE ≠ 0 ∧ (s.cpu.flags ||| 0x30) &&& FLAG_BRK ≠ 0) ∧
    (∀ p, p ≠ 0x0100 ||| s.cpu.sp → p ≠ 0x0100 ||| ((s.cpu.sp + 255) % 256) →
      p ≠ 0x0100 ||| ((s.cpu.sp + 254) % 256) → (exec_brk s t args).mem p = s.mem p) ∧
    (exec_brk s t args).cpu.sp = (s.cpu.sp + 253) % 256 ∧
    (exec_brk s t args).cpu.flags = s.cpu.flags ||| FLAG_IRQD ∧
    (exec_brk s t args).cpu.flags &&& FLAG_BRK = s.cpu.flags &&& FLAG_BRK ∧
    (exec_brk s t args).cpu.pc = bus_read s.mem 0xFFFE ||| (bus_read s.mem 0xFFFF <<< 8) ∧
    (exec_brk s t args).cycles = (s.cycles + 4) % 4294967296 ∧
    (s.cycles + 4 < 4294967296 → (exec_brk s t args).cycles = s.cycles + 4) := by
  have hA0 := or_100 _ hsp
  have hA1 := or_100 ((s.cpu.sp + 255) % 256) (Nat.mod_lt _ (by decide))
  have hA2 := or_100 ((s.cpu.sp + 254) % 256) (Nat.mod_lt _ (by decide))
  obtain ⟨hlt, hone, hbrk⟩ := or_30 s.cpu.flags hf
  have hfl : (s.cpu.flags ||| (FLAG_ONE ||| FLAG_BRK)) % 256 = s.cpu.flags ||| 0x30 :=
    Nat.mod_eq_of_lt hlt
  have hmem := exec_brk_mem s t args
  have hpcr := exec_brk_pc s t args
  rw [hmem, push3_read s _ _ _ IRQ_VECTOR hsp (by unfold IRQ_VECTOR; omega)
      (by unfold IRQ_VECTOR; omega),
    push3_read s _ _ _ (IRQ_VECTOR + 1) hsp (by unfold IRQ_VECTOR; omega)
      (by unfold IRQ_VECTOR; omega), vector_word] at hpcr
  rw [push3_mem _ _ _ _ hsp, hi_byte _ (Nat.mod_lt _ (by decide)), and_ff, hfl] at hmem
  have e1 : IRQ_VECTOR = 0xFFFE := rfl
  have e2 : IRQ_VECTOR + 1 = 0xFFFF := rfl
  rw [e2, e1] at hpcr
  have hfin : (exec_brk s t args).cpu.flags = s.cpu.flags ||| FLAG_IRQD := by
    simp only [exec_brk, exec_push]
  have hspf : (exec_brk s t args).cpu.sp
      = (((s.cpu.sp + 255) % 256 + 255) % 256 + 255) % 256 := by
    simp only [exec_brk, exec_push]
  have hcyc : (exec_brk s t args).cycles = (s.cycles + 4) % 4294967296 := by
    simp only [exec_brk, exec_push]
  refine ⟨?_, ?_, ?_, ⟨hone, hbrk⟩, ?_, ?_, hfin, ?_, hpcr, hcyc,
    fun h => by rw [hcyc]; exact Nat.mod_eq_of_lt h⟩
  · rw [hmem, hA0]
    beta_reduce
    split_ifs <;> omega
  · rw [hmem, hA1]
    beta_reduce
    split_ifs <;> omega
  · rw [hmem, hA2]
    beta_reduce
    rw [if_pos rfl]
  · intro p hp0 hp1 hp2
    rw [hA0] at hp0
    rw [hA1] at hp1
    rw [hA2] at hp2
    rw [hmem]
    beta_reduce
    rw [if_neg hp2, if_neg hp1, if_neg hp0]
  · rw [hspf]
    omega
  · rw [hfin, Nat.and_distrib_right]
    have : FLAG_IRQD &&& FLAG_BRK = 0 := by decide
    rw [this, Nat.or_zero]

/-- Witness of C20: `BRK` with `pc = 0x8001` past the opcode, `sp = 0xFF` and
`flags = 0x00`: the stack receives `0x80`, `0x02`, `0x30` and the live flags
become IRQD alone. -/
theorem exec_brk_post_witness :
    (exec_brk ⟨⟨0x8001, 1, 2, 3, 0xFF, 0x00⟩,
      fun p => if p = 0xFFFE then 0x34 else if p = 0xFFFF then 0x12 else 0, 0⟩
      .arg_none (0, 0)).mem 0x01FF = 0x80 ∧
    (exec_brk ⟨⟨0x8001, 1, 2, 3, 0xFF, 0x00⟩,
      fun p => if p = 0xFFFE then 0x34 else if p = 0xFFFF then 0x12 else 0, 0⟩
      .arg_none (0, 0)).mem 0x01FE = 0x02 ∧
    (exec_brk ⟨⟨0x8001, 1, 2, 3, 0xFF, 0x00⟩,
      fun p => if p = 0xFFFE then 0x34 else if p = 0xFFFF then 0x12 else 0, 0⟩
      .arg_none (0, 0)).mem 0x01FD = 0x30 ∧
    (exec_brk ⟨⟨0x8001, 1, 2, 3, 0xFF, 0x00⟩,
      fun p => if p = 0xFFFE then 0x34 else if p = 0xFFFF then 0x12 else 0, 0⟩
      .arg_none (0, 0)).cpu.sp = 0xFC ∧
    (exec_brk ⟨⟨0x8001, 1, 2, 3, 0xFF, 0x00⟩,
      fun p => if p = 0xFFFE then 0x34 else if p = 0xFFFF then 0x12 else 0, 0⟩
      .arg_none (0, 0)).cpu.flags = FLAG_IRQD ∧
    (exec_brk ⟨⟨0x8001, 1, 2, 3, 0xFF, 0x00⟩,
      fun p => if p = 0xFFFE then 0x34 else if p = 0xFFFF then 0x12 else 0, 0⟩
      .arg_none (0, 0)).cpu.pc = 0x1234 :=
  ⟨(exec_brk_post ⟨⟨0x8001, 1, 2, 3, 0xFF, 0x00⟩,
      fun p => if p = 0xFFFE then 0x34 else if p = 0xFFFF then 0x12 else 0, 0⟩
      .arg_none (0, 0) (by decide) (by decide)).1,
    (exec_brk_post ⟨⟨0x8001, 1, 2, 3, 0xFF, 0x00⟩,
      fun p => if p = 0xFFFE then 0x34 else if p = 0xFFFF then 0x12 else 0, 0⟩
      .arg_none (0, 0) (by decide) (by decide)).2.1,
    (exec_brk_post ⟨⟨0x8001, 1, 2, 3, 0xFF, 0x00⟩,
      fun p => if p = 0xFFFE then 0x34 else if p = 0xFFFF then 0x12 else 0, 0⟩
      .arg_none (0, 0) (by decide) (by decide)).2.2.1,
    (exec_brk_post ⟨⟨0x8001, 1, 2, 3, 0xFF, 0x00⟩,
      fun p => if p = 0xFFFE then 0x34 else if p = 0xFFFF then 0x12 else 0, 0⟩
      .arg_none (0, 0) (by decide) (by decide)).2.2.2.2.2.1,
    (exec_brk_post ⟨⟨0x8001, 1, 2, 3, 0xFF, 0x00⟩,
      fun p => if p = 0xFFFE then 0x34 else if p = 0xFFFF then 0x12 else 0, 0⟩
      .arg_none (0, 0) (by decide) (by decide)).2.2.2.2.2.2.1,
    (exec_brk_post ⟨⟨0x8001, 1, 2, 3, 0xFF, 0x00⟩,
      fun p => if p = 0xFFFE then 0x34 else if p = 0xFFFF then 0x12 else 0, 0⟩
      .arg_none (0, 0) (by decide) (by decide)).2.2.2.2.2.2.2.2.1⟩

/-! ## Operand fetch -/

theorem nextpc_machine (s : Machine) :
    (addrmode_nextpc s).1 = { s with cpu := { s.cpu with pc := (s.cpu.pc + 1) % 65536 } } := rfl

theorem nextpc_data (s : Machine) : (addrmode_nextpc s).2 = bus_read s.mem s.cpu.pc := rfl

theorem bus_read_mod (mem : Memory) (a : Nat) : bus_read mem (a % 65536) = bus_read mem a := by
  simp only [bus_read, Nat.mod_mod]

/-- C21: for each of the 13 addressing modes, `addrmode_getArgs` advances `pc`
by the mode's byte count modulo 65536, adds the mode's cycles to the counter
(in the arithmetic of the 32-bit counter, so exactly that many when it does not
wrap), returns the mode's operand form, and leaves `a`, `x`, `y`, `sp`, `flags`
and the memory as they were. -/
theorem getArgs_effect (s : Machine) (args : Nat × Nat) (mode : addrmode)
    (hpc : s.cpu.pc < 65536) (hcyc : s.cycles < 4294967296) :
    (addrmode_getArgs s args mode).2.2.cpu.pc = (s.cpu.pc + mode_bytes mode) % 65536 ∧
    (mode_bytes mode = 0 → (addrmode_getArgs s args mode).2.2.cpu.pc = s.cpu.pc) ∧
    (addrmode_getArgs s args mode).2.2.cycles = (s.cycles + mode_cycles mode) % 4294967296 ∧
    (s.cycles + mode_cycles mode < 4294967296 →
      (addrmode_getArgs s args mode).2.2.cycles = s.cycles + mode_cycles mode) ∧
    (addrmode_getArgs s args mode).1 = mode_form mode ∧
    (addrmode_getArgs s args mode).2.2.cpu.a = s.cpu.a ∧
    (addrmode_getArgs s args mode).2.2.cpu.x = s.cpu.x ∧
    (addrmode_getArgs s args mode).2.2.cpu.y = s.cpu.y ∧
    (addrmode_getArgs s args mode).2.2.cpu.sp = s.cpu.sp ∧
    (addrmode_getArgs s args mode).2.2.cpu.flags = s.cpu.flags ∧
    (addrmode_getArgs s args mode).2.2.mem = s.mem := by
  cases mode <;> refine ⟨?_, ?_, ?_, ?_, ?_, ?_, ?_, ?_, ?_, ?_, ?_⟩ <;>
    (try simp only [addrmode_getArgs, modeAcc, modeAbsolute, modeAbsoluteX, modeAbsoluteY,
      modeImmediate, modeImplicant, modeIndirect, modeIndirectX, modeIndirectY, modeRelative,
      modeZeropage, modeZeropageX, modeZeropageY, addrmode_nextpc, mode_bytes, mode_cycles,
      mode_form]) <;>
    (try intros) <;> (try trivial) <;> (try omega)

/-- Witness of C21: absolute mode at `pc = 0xFFFF`, where the two fetches wrap
`pc` to `0x0001`; three cycles are added to a counter of 2. -/
theorem getArgs_effect_witness :
    (addrmode_getArgs ⟨⟨0xFFFF, 1, 2, 3, 0xFF, 0x20⟩, fun _ => 0, 2⟩ (0, 0) .mode_abs).2.2.cpu.pc
      = 0x0001 ∧
    (addrmode_getArgs ⟨⟨0xFFFF, 1, 2, 3, 0xFF, 0x20⟩, fun _ => 0, 2⟩ (0, 0) .mode_abs).2.2.cycles
      = 5 ∧
    (addrmode_getArgs ⟨⟨0xFFFF, 1, 2, 3, 0xFF, 0x20⟩, fun _ => 0, 2⟩ (0, 0) .mode_abs).1
      = .arg_addr :=
  ⟨(getArgs_effect ⟨⟨0xFFFF, 1, 2, 3, 0xFF, 0x20⟩, fun _ => 0, 2⟩ (0, 0) .mode_abs
      (by decide) (by decide)).1,
    (getArgs_effect ⟨⟨0xFFFF, 1, 2, 3, 0xFF, 0x20⟩, fun _ => 0, 2⟩ (0, 0) .mode_abs
      (by decide) (by decide)).2.2.2.1 (by decide),
    (getArgs_effect ⟨⟨0xFFFF, 1, 2, 3, 0xFF, 0x20⟩, fun _ => 0, 2⟩ (0, 0) .mode_abs
      (by decide) (by decide)).2.2.2.2.1⟩

/-! ## Effective addresses -/

theorem split_word (addr : Nat) (h : addr < 65536) :
    effective (addr &&& 0xff, (addr >>> 8) &&& 0xff) = addr := by
  unfold effective
  rw [hi_byte addr h, and_ff, Nat.or_comm, word_eq _ _ (Nat.mod_lt _ (by decide))]
  omega

/-- C22: indexed effective addresses wrap within their width.  With `lo`, `hi`
the bytes fetched at `pc` and `pc + 1`: absolute,X and absolute,Y yield
`((hi << 8 | lo) + index) mod 65536`; zero page,X and zero page,Y yield
`(lo + index) mod 256` with high byte 0, an address below `0x0100`. -/
theorem indexed_address (s : Machine) (args : Nat × Nat) :
    effective (modeAbsoluteX s args).2.1
      = (((bus_read s.mem (s.cpu.pc + 1) <<< 8) ||| bus_read s.mem s.cpu.pc) + s.cpu.x)
          % 65536 ∧
    effective (modeAbsoluteY s args).2.1
      = (((bus_read s.mem (s.cpu.pc + 1) <<< 8) ||| bus_read s.mem s.cpu.pc) + s.cpu.y)
          % 65536 ∧
    ((modeZeropageX s args).2.1.1 = (bus_read s.mem s.cpu.pc + s.cpu.x) % 256 ∧
      (modeZeropageX s args).2.1.2 = 0 ∧
      effective (modeZeropageX s args).2.1 = (bus_read s.mem s.cpu.pc + s.cpu.x) % 256 ∧
      effective (modeZeropageX s args).2.1 < 0x0100) ∧
    ((modeZeropageY s args).2.1.1 = (bus_read s.mem s.cpu.pc + s.cpu.y) % 256 ∧
      (modeZeropageY s args).2.1.2 = 0 ∧
      effective (modeZeropageY s args).2.1 = (bus_read s.mem s.cpu.pc + s.cpu.y) % 256 ∧
      effective (modeZeropageY s args).2.1 < 0x0100) := by
  have hw : ∀ lo hi : Nat, lo < 256 → hi < 256 → (lo ||| (hi <<< 8)) % 65536 = (hi <<< 8) ||| lo := by
    intro lo hi hlo hhi
    rw [Nat.mod_eq_of_lt (word_lt lo hi hlo hhi), Nat.or_comm]
  have hz : ∀ v : Nat, effective (v, 0) = v := by
    intro v
    simp [effective]
  refine ⟨?_, ?_, ⟨rfl, rfl, ?_, ?_⟩, ⟨rfl, rfl, ?_, ?_⟩⟩
  · simp only [modeAbsoluteX, addrmode_nextpc, bus_read_mod]
    rw [split_word _ (Nat.mod_lt _ (by decide)), hw _ _ (bus_read_lt _ _) (bus_read_lt _ _)]
  · simp only [modeAbsoluteY, addrmode_nextpc, bus_read_mod]
    rw [split_word _ (Nat.mod_lt _ (by decide)), hw _ _ (bus_read_lt _ _) (bus_read_lt _ _)]
  · simp only [modeZeropageX, addrmode_nextpc, hz]
  · simp only [modeZeropageX, addrmode_nextpc, hz]
    exact Nat.mod_lt _ (by decide)
  · simp only [modeZeropageY, addrmode_nextpc, hz]
  · simp only [modeZeropageY, addrmode_nextpc, hz]
    exact Nat.mod_lt _ (by decide)

/-- C23: in indexed-indirect (X) mode, with `z` the byte fetched at `pc` and
`p = (z + x) mod 256`, the operand bytes are `mem[p]` and `mem[p + 1]`, so the
effective address is `mem[p] | (mem[p + 1] << 8)`; `p + 1` is not wrapped to the
zero page: when `p = 0xFF` the high byte is read at `0x0100`. -/
theorem indirect_x_address (s : Machine) (args : Nat × Nat) :
    (modeIndirectX s args).2.1.1
      = bus_read s.mem ((bus_read s.mem s.cpu.pc + s.cpu.x) % 256) ∧
    (modeIndirectX s args).2.1.2
      = bus_read s.mem ((bus_read s.mem s.cpu.pc + s.cpu.x) % 256 + 1) ∧
    effective (modeIndirectX s args).2.1
      = (bus_read s.mem ((bus_read s.mem s.cpu.pc + s.cpu.x) % 256 + 1) <<< 8)
          ||| bus_read s.mem ((bus_read s.mem s.cpu.pc + s.cpu.x) % 256) ∧
    ((bus_read s.mem s.cpu.pc + s.cpu.x) % 256 = 0xFF →
      (modeIndirectX s args).2.1.2 = bus_read s.mem 0x0100) := by
  have hp : ((bus_read s.mem s.cpu.pc + s.cpu.x) % 65536) &&& 0xff
      = (bus_read s.mem s.cpu.pc + s.cpu.x) % 256 := by
    rw [and_ff]
    omega
  have h1 : (modeIndirectX s args).2.1.1
      = bus_read s.mem ((bus_read s.mem s.cpu.pc + s.cpu.x) % 256) := by
    simp only [modeIndirectX, addrmode_nextpc, hp]
  have h2 : (modeIndirectX s args).2.1.2
      = bus_read s.mem ((bus_read s.mem s.cpu.pc + s.cpu.x) % 256 + 1) := by
    simp only [modeIndirectX, addrmode_nextpc, hp, bus_read_mod]
  refine ⟨h1, h2, ?_, ?_⟩
  · unfold effective
    rw [h1, h2]
  · intro h
    rw [h2, h]

/-- Witness of C23: `z = 0xF0`, `x = 0x0F`, so `p = 0xFF`; the cells `0x00FF`,
`0x0100`, `0x0000` hold `0x34`, `0x12`, `0x99`, and the operand bytes are
`0x34`, `0x12`. -/
theorem indirect_x_address_witness :
    (modeIndirectX ⟨⟨0x8000, 0, 0x0F, 0, 0xFF, 0x20⟩,
      fun p => if p = 0x8000 then 0xF0 else if p = 0x00FF then 0x34 else
        if p = 0x0100 then 0x12 else if p = 0x0000 then 0x99 else 0, 0⟩ (0, 0)).2.1 = (0x34, 0x12) ∧
    (modeIndirectX ⟨⟨0x8000, 0, 0x0F, 0, 0xFF, 0x20⟩,
      fun p => if p = 0x8000 then 0xF0 else if p = 0x00FF then 0x34 else
        if p = 0x0100 then 0x12 else if p = 0x0000 then 0x99 else 0, 0⟩ (0, 0)).2.1.2 = bus_read (fun p => if p = 0x8000 then 0xF0 else
        if p = 0x00FF then 0x34 else if p = 0x0100 then 0x12 else
        if p = 0x0000 then 0x99 else 0) 0x0100 :=
  ⟨by decide,
    (indirect_x_address ⟨⟨0x8000, 0, 0x0F, 0, 0xFF, 0x20⟩,
      fun p => if p = 0x8000 then 0xF0 else if p = 0x00FF then 0x34 else
        if p = 0x0100 then 0x12 else if p = 0x0000 then 0x99 else 0, 0⟩ (0, 0)).2.2.2 (by decide)⟩

theorem sign_extend_range (o : Nat) (ho : o < 256) :
    -128 ≤ sign_extend o ∧ sign_extend o ≤ 127 := by
  unfold sign_extend
  split_ifs <;> omega

/-- C24: in relative mode, with `o` the offset byte fetched at `pc` and `pc'`
the program counter after that fetch, the effective address is
`(pc' + sign_extend(o)) mod 65536`; `sign_extend(o)` lies in -128..127, so the
target is within -128..+127 of `pc'` modulo 65536. -/
theorem relative_address (s : Machine) (args : Nat × Nat) :
    (modeRelative s args).2.2.cpu.pc = (s.cpu.pc + 1) % 65536 ∧
    (effective (modeRelative s args).2.1 : Int)
      = (((modeRelative s args).2.2.cpu.pc : Int)
          + sign_extend (bus_read s.mem s.cpu.pc)) % 65536 ∧
    (-128 ≤ sign_extend (bus_read s.mem s.cpu.pc) ∧
      sign_extend (bus_read s.mem s.cpu.pc) ≤ 127) ∧
    sign_extend 0x7F = 127 ∧ sign_extend 0x80 = -128 ∧ sign_extend 0xFF = -1 := by
  refine ⟨rfl, ?_, sign_extend_range _ (bus_read_lt _ _), by decide, by decide, by decide⟩
  have hb := bus_read_lt s.mem s.cpu.pc
  simp only [modeRelative, addrmode_nextpc, sign_extend]
  rw [split_word _ (by split_ifs <;> omega)]
  split_ifs <;> omega

/-! ## Stores -/

theorem bus_write_at (mem : Memory) (A v : Nat) (hA : A < 65536) (hv : v < 256) :
    bus_write mem A v A = v ∧ ∀ p, p ≠ A → bus_write mem A v p = mem p := by
  simp only [bus_write, Nat.mod_eq_of_lt hA, Nat.mod_eq_of_lt hv, if_true, true_and]
  intro p hp
  rw [if_neg hp]

/-- C25: `exec_sta`, `exec_stx` and `exec_sty` fail fatally iff the operand form
is not 'address', and then leave no machine, so nothing is written.  Given an
address form with address `A = (args[1] << 8) | args[0]`, the machine they
leave is the old one with `a`, `x` or `y` written at `A` and two more cycles (in
the arithmetic of the 32-bit counter, so exactly two when it does not wrap): the
cell `A` holds the register, every other cell is as before, and no register and
no flag has changed. -/
theorem store_handlers (s : Machine) (t : argtype) (args : Nat × Nat)
    (h1 : args.1 < 256) (h2 : args.2 < 256)
    (ha : s.cpu.a < 256) (hx : s.cpu.x < 256) (hy : s.cpu.y < 256) :
    (((exec_sta s t args = none ↔ t ≠ .arg_addr) ∧
      (t = .arg_addr →
        exec_sta s t args = some { s with mem := bus_write s.mem (effective args) s.cpu.a,
                                          cycles := (s.cycles + 2) % 4294967296 })) ∧
      (bus_write s.mem (effective args) s.cpu.a (effective args) = s.cpu.a ∧
        ∀ p, p ≠ effective args →
          bus_write s.mem (effective args) s.cpu.a p = s.mem p)) ∧
    (((exec_stx s t args = none ↔ t ≠ .arg_addr) ∧
      (t = .arg_addr →
        exec_stx s t args = some { s with mem := bus_write s.mem (effective args) s.cpu.x,
                                          cycles := (s.cycles + 2) % 4294967296 })) ∧
      (bus_write s.mem (effective args) s.cpu.x (effective args) = s.cpu.x ∧
        ∀ p, p ≠ effective args →
          bus_write s.mem (effective args) s.cpu.x p = s.mem p)) ∧
    (((exec_sty s t args = none ↔ t ≠ .arg_addr) ∧
      (t = .arg_addr →
        exec_sty s t args = some { s with mem := bus_write s.mem (effective args) s.cpu.y,
                                          cycles := (s.cycles + 2) % 4294967296 })) ∧
      (bus_write s.mem (effective args) s.cpu.y (effective args) = s.cpu.y ∧
        ∀ p, p ≠ effective args →
          bus_write s.mem (effective args) s.cpu.y p = s.mem p)) ∧
    (s.cycles + 2 < 4294967296 → (s.cycles + 2) % 4294967296 = s.cycles + 2) := by
  have hT : effective args < 65536 := by
    have := addr_lt args.1 args.2 h1 h2
    unfold effective
    omega
  have hm : ((args.2 <<< 8) ||| args.1) % 65536 = effective args := Nat.mod_eq_of_lt hT
  refine ⟨⟨⟨?_, ?_⟩, bus_write_at _ _ _ hT ha⟩, ⟨⟨?_, ?_⟩, bus_write_at _ _ _ hT hx⟩,
    ⟨⟨?_, ?_⟩, bus_write_at _ _ _ hT hy⟩, fun h => Nat.mod_eq_of_lt h⟩
  all_goals first
    | (intro ht
       simp only [exec_sta, exec_stx, exec_sty, ht, hm, ne_eq, not_true_eq_false, if_false])
    | (simp only [exec_sta, exec_stx, exec_sty, FATAL]
       split_ifs with ht <;> simp [ht])

/-- Witness of C25: `STA` of `a = 0x42` to `0x0200`, and `STA` given a byte
operand, which is fatal. -/
theorem store_handlers_witness :
    exec_sta ⟨⟨0x8000, 0x42, 0, 0, 0xFF, 0x20⟩, fun _ => 0, 3⟩ .arg_addr (0x00, 0x02)
      = some ⟨⟨0x8000, 0x42, 0, 0, 0xFF, 0x20⟩, bus_write (fun _ => 0) 0x0200 0x42, 5⟩ ∧
    (exec_sta ⟨⟨0x8000, 0x42, 0, 0, 0xFF, 0x20⟩, fun _ => 0, 3⟩ .arg_byte (0x00, 0x02) = none
      ↔ argtype.arg_byte ≠ argtype.arg_addr) :=
  ⟨(store_handlers ⟨⟨0x8000, 0x42, 0, 0, 0xFF, 0x20⟩, fun _ => 0, 3⟩ .arg_addr (0x00, 0x02)
      (by decide) (by decide) (by decide) (by decide) (by decide)).1.1.2 rfl,
    (store_handlers ⟨⟨0x8000, 0x42, 0, 0, 0xFF, 0x20⟩, fun _ => 0, 3⟩ .arg_byte (0x00, 0x02)
      (by decide) (by decide) (by decide) (by decide) (by decide)).1.1.1⟩

/-! ## Read-modify-write -/

theorem rmw_byte (v f : Nat) (hv : v < 256) :
    (alu_asl v 0 f).1 < 256 ∧ (alu_lsr v 0 f).1 < 256 ∧ (alu_rol v 0 f).1 < 256 ∧
    (alu_ror v 0 f).1 < 256 ∧ (alu_inc v 0 f).1 < 256 ∧ (alu_dec v 0 f).1 < 256 := by
  have h1 : v >>> 1 < 256 := by
    rw [Nat.shiftRight_eq_div_pow, Nat.pow_one]
    omega
  have hm : (v <<< 1) % 256 < 256 := Nat.mod_lt _ (by decide)
  refine ⟨hm, h1, ?_, ?_, Nat.mod_lt _ (by decide), Nat.mod_lt _ (by decide)⟩
  · simp only [alu_rol]
    split_ifs
    · exact Nat.or_lt_two_pow (n := 8) hm (by decide)
    · exact hm
  · simp only [alu_ror]
    split_ifs
    · exact Nat.or_lt_two_pow (n := 8) h1 (by decide)
    · exact h1

/-- What a read-modify-write handler leaves for an address operand, for any ALU
function `op` whose result on a byte is a byte. -/
theorem rmw_addr (op : Nat → Nat → Nat → Nat × Nat) (s : Machine) (A : Nat)
    (hA : A < 65536) (hop : (op (bus_read s.mem A) 0 s.cpu.flags).1 < 256) :
    bus_write s.mem A (op (bus_read s.mem A) 0 s.cpu.flags).1 A
      = (op (bus_read s.mem A) 0 s.cpu.flags).1 ∧
    (∀ p, p ≠ A → bus_write s.mem A (op (bus_read s.mem A) 0 s.cpu.flags).1 p = s.mem p) ∧
    ((s.cycles + 2) % 4294967296 + 1) % 4294967296 = (s.cycles + 3) % 4294967296 := by
  obtain ⟨h1, h2⟩ := bus_write_at s.mem A _ hA hop
  exact ⟨h1, h2, by omega⟩

theorem rmw_asl (s : Machine) (args : Nat × Nat) (hT : effective args < 65536) :
    (((exec_asl s .arg_addr args).mem (effective args)
          = (alu_asl (bus_read s.mem (effective args)) 0 s.cpu.flags).1 ∧
        (∀ p, p ≠ effective args → (exec_asl s .arg_addr args).mem p = s.mem p) ∧
        (exec_asl s .arg_addr args).cpu.a = s.cpu.a ∧ (exec_asl s .arg_addr args).cpu.x = s.cpu.x ∧
        (exec_asl s .arg_addr args).cpu.y = s.cpu.y ∧ (exec_asl s .arg_addr args).cpu.sp = s.cpu.sp ∧
        (exec_asl s .arg_addr args).cpu.pc = s.cpu.pc ∧
        (exec_asl s .arg_addr args).cpu.flags
          = (alu_asl (bus_read s.mem (effective args)) 0 s.cpu.flags).2 ∧
        (exec_asl s .arg_addr args).cycles = (s.cycles + 3) % 4294967296) ∧
      ((exec_asl s .arg_byte args).cpu.a = (alu_asl args.1 0 s.cpu.flags).1 ∧
        (exec_asl s .arg_byte args).cpu.flags = (alu_asl args.1 0 s.cpu.flags).2 ∧
        (exec_asl s .arg_byte args).cpu.x = s.cpu.x ∧ (exec_asl s .arg_byte args).cpu.y = s.cpu.y ∧
        (exec_asl s .arg_byte args).cpu.sp = s.cpu.sp ∧ (exec_asl s .arg_byte args).cpu.pc = s.cpu.pc ∧
        (exec_asl s .arg_byte args).mem = s.mem ∧
        (exec_asl s .arg_byte args).cycles = (s.cycles + 1) % 4294967296)) := by
  have hm : ((args.2 <<< 8) ||| args.1) % 65536 = effective args := Nat.mod_eq_of_lt hT
  have k := rmw_addr alu_asl s _ hT
    (rmw_byte (bus_read s.mem (effective args)) s.cpu.flags (bus_read_lt _ _)).1
  simp only [exec_asl, if_true, hm, reduceCtorEq, if_false, and_true, true_and]
  exact k

theorem rmw_lsr (s : Machine) (args : Nat × Nat) (hT : effective args < 65536) :
    (((exec_lsr s .arg_addr args).mem (effective args)
          = (alu_lsr (bus_read s.mem (effective args)) 0 s.cpu.flags).1 ∧
        (∀ p, p ≠ effective args → (exec_lsr s .arg_addr args).mem p = s.mem p) ∧
        (exec_lsr s .arg_addr args).cpu.a = s.cpu.a ∧ (exec_lsr s .arg_addr args).cpu.x = s.cpu.x ∧
        (exec_lsr s .arg_addr args).cpu.y = s.cpu.y ∧ (exec_lsr s .arg_addr args).cpu.sp = s.cpu.sp ∧
        (exec_lsr s .arg_addr args).cpu.pc = s.cpu.pc ∧
        (exec_lsr s .arg_addr args).cpu.flags
          = (alu_lsr (bus_read s.mem (effective args)) 0 s.cpu.flags).2 ∧
        (exec_lsr s .arg_addr args).cycles = (s.cycles + 3) % 4294967296) ∧
      ((exec_lsr s .arg_byte args).cpu.a = (alu_lsr args.1 0 s.cpu.flags).1 ∧
        (exec_lsr s .arg_byte args).cpu.flags = (alu_lsr args.1 0 s.cpu.flags).2 ∧
        (exec_lsr s .arg_byte args).cpu.x = s.cpu.x ∧ (exec_lsr s .arg_byte args).cpu.y = s.cpu.y ∧
        (exec_lsr s .arg_byte args).cpu.sp = s.cpu.sp ∧ (exec_lsr s .arg_byte args).cpu.pc = s.cpu.pc ∧
        (exec_lsr s .arg_byte args).mem = s.mem ∧
        (exec_lsr s .arg_byte args).cycles = (s.cycles + 1) % 4294967296)) := by
  have hm : ((args.2 <<< 8) ||| args.1) % 65536 = effective args := Nat.mod_eq_of_lt hT
  have k := rmw_addr alu_lsr s _ hT
    (rmw_byte (bus_read s.mem (effective args)) s.cpu.flags (bus_read_lt _ _)).2.1
  simp only [exec_lsr, if_true, hm, reduceCtorEq, if_false, and_true, true_and]
  exact k

theorem rmw_rol (s : Machine) (args : Nat × Nat) (hT : effective args < 65536) :
    (((exec_rol s .arg_addr args).mem (effective args)
          = (alu_rol (bus_read s.mem (effective args)) 0 s.cpu.flags).1 ∧
        (∀ p, p ≠ effective args → (exec_rol s .arg_addr args).mem p = s.mem p) ∧
        (exec_rol s .arg_addr args).cpu.a = s.cpu.a ∧ (exec_rol s .arg_addr args).cpu.x = s.cpu.x ∧
        (exec_rol s .arg_addr args).cpu.y = s.cpu.y ∧ (exec_rol s .arg_addr args).cpu.sp = s.cpu.sp ∧
        (exec_rol s .arg_addr args).cpu.pc = s.cpu.pc ∧
        (exec_rol s .arg_addr args).cpu.flags
          = (alu_rol (bus_read s.mem (effective args)) 0 s.cpu.flags).2 ∧
        (exec_rol s .arg_addr args).cycles = (s.cycles + 3) % 4294967296) ∧
      ((exec_rol s .arg_byte args).cpu.a = (alu_rol args.1 0 s.cpu.flags).1 ∧
        (exec_rol s .arg_byte args).cpu.flags = (alu_rol args.1 0 s.cpu.flags).2 ∧
        (exec_rol s .arg_byte args).cpu.x = s.cpu.x ∧ (exec_rol s .arg_byte args).cpu.y = s.cpu.y ∧
        (exec_rol s .arg_byte args).cpu.sp = s.cpu.sp ∧ (exec_rol s .arg_byte args).cpu.pc = s.cpu.pc ∧
        (exec_rol s .arg_byte args).mem = s.mem ∧
        (exec_rol s .arg_byte args).cycles = (s.cycles + 1) % 4294967296)) := by
  have hm : ((args.2 <<< 8) ||| args.1) % 65536 = effective args := Nat.mod_eq_of_lt hT
  have k := rmw_addr alu_rol s _ hT
    (rmw_byte (bus_read s.mem (effective args)) s.cpu.flags (bus_read_lt _ _)).2.2.1
  simp only [exec_rol, if_true, hm, reduceCtorEq, if_false, and_true, true_and]
  exact k

theorem rmw_ror (s : Machine) (args : Nat × Nat) (hT : effective args < 65536) :
    (((exec_ror s .arg_addr args).mem (effective args)
          = (alu_ror (bus_read s.mem (effective args)) 0 s.cpu.flags).1 ∧
        (∀ p, p ≠ effective args → (exec_ror s .arg_addr args).mem p = s.mem p) ∧
        (exec_ror s .arg_addr args).cpu.a = s.cpu.a ∧ (exec_ror s .arg_addr args).cpu.x = s.cpu.x ∧
        (exec_ror s .arg_addr args).cpu.y = s.cpu.y ∧ (exec_ror s .arg_addr args).cpu.sp = s.cpu.sp ∧
        (exec_ror s .arg_addr args).cpu.pc = s.cpu.pc ∧
        (exec_ror s .arg_addr args).cpu.flags
          = (alu_ror (bus_read s.mem (effective args)) 0 s.cpu.flags).2 ∧
        (exec_ror s .arg_addr args).cycles = (s.cycles + 3) % 4294967296) ∧
      ((exec_ror s .arg_byte args).cpu.a = (alu_ror args.1 0 s.cpu.flags).1 ∧
        (exec_ror s .arg_byte args).cpu.flags = (alu_ror args.1 0 s.cpu.flags).2 ∧
        (exec_ror s .arg_byte args).cpu.x = s.cpu.x ∧ (exec_ror s .arg_byte args).cpu.y = s.cpu.y ∧
        (exec_ror s .arg_byte args).cpu.sp = s.cpu.sp ∧ (exec_ror s .arg_byte args).cpu.pc = s.cpu.pc ∧
        (exec_ror s .arg_byte args).mem = s.mem ∧
        (exec_ror s .arg_byte args).cycles = (s.cycles + 1) % 4294967296)) := by
  have hm : ((args.2 <<< 8) ||| args.1) % 65536 = effective args := Nat.mod_eq_of_lt hT
  have k := rmw_addr alu_ror s _ hT
    (rmw_byte (bus_read s.mem (effective args)) s.cpu.flags (bus_read_lt _ _)).2.2.2.1
  simp only [exec_ror, if_true, hm, reduceCtorEq, if_false, and_true, true_and]
  exact k

theorem rmw_inc (s : Machine) (args : Nat × Nat) (hT : effective args < 65536) :
    (((exec_inc s .arg_addr args).mem (effective args)
          = (alu_inc (bus_read s.mem (effective args)) 0 s.cpu.flags).1 ∧
        (∀ p, p ≠ effective args → (exec_inc s .arg_addr args).mem p = s.mem p) ∧
        (exec_inc s .arg_addr args).cpu.a = s.cpu.a ∧ (exec_inc s .arg_addr args).cpu.x = s.cpu.x ∧
        (exec_inc s .arg_addr args).cpu.y = s.cpu.y ∧ (exec_inc s .arg_addr args).cpu.sp = s.cpu.sp ∧
        (exec_inc s .arg_addr args).cpu.pc = s.cpu.pc ∧
        (exec_inc s .arg_addr args).cpu.flags
          = (alu_inc (bus_read s.mem (effective args)) 0 s.cpu.flags).2 ∧
        (exec_inc s .arg_addr args).cycles = (s.cycles + 3) % 4294967296) ∧
      ((exec_inc s .arg_byte args).cpu.a = (alu_inc args.1 0 s.cpu.flags).1 ∧
        (exec_inc s .arg_byte args).cpu.flags = (alu_inc args.1 0 s.cpu.flags).2 ∧
        (exec_inc s .arg_byte args).cpu.x = s.cpu.x ∧ (exec_inc s .arg_byte args).cpu.y = s.cpu.y ∧
        (exec_inc s .arg_byte args).cpu.sp = s.cpu.sp ∧ (exec_inc s .arg_byte args).cpu.pc = s.cpu.pc ∧
        (exec_inc s .arg_byte args).mem = s.mem ∧
        (exec_inc s .arg_byte args).cycles = (s.cycles + 1) % 4294967296)) := by
  have hm : ((args.2 <<< 8) ||| args.1) % 65536 = effective args := Nat.mod_eq_of_lt hT
  have k := rmw_addr alu_inc s _ hT
    (rmw_byte (bus_read s.mem (effective args)) s.cpu.flags (bus_read_lt _ _)).2.2.2.2.1
  simp only [exec_inc, if_true, hm, reduceCtorEq, if_false, and_true, true_and]
  exact k

theorem rmw_dec (s : Machine) (args : Nat × Nat) (hT : effective args < 65536) :
    (((exec_dec s .arg_addr args).mem (effective args)
          = (alu_dec (bus_read s.mem (effective args)) 0 s.cpu.flags).1 ∧
        (∀ p, p ≠ effective args → (exec_dec s .arg_addr args).mem p = s.mem p) ∧
        (exec_dec s .arg_addr args).cpu.a = s.cpu.a ∧ (exec_dec s .arg_addr args).cpu.x = s.cpu.x ∧
        (exec_dec s .arg_addr args).cpu.y = s.cpu.y ∧ (exec_dec s .arg_addr args).cpu.sp = s.cpu.sp ∧
        (exec_dec s .arg_addr args).cpu.pc = s.cpu.pc ∧
        (exec_dec s .arg_addr args).cpu.flags
          = (alu_dec (bus_read s.mem (effective args)) 0 s.cpu.flags).2 ∧
        (exec_dec s .arg_addr args).cycles = (s.cycles + 3) % 4294967296) ∧
      ((exec_dec s .arg_byte args).cpu.a = (alu_dec args.1 0 s.cpu.flags).1 ∧
        (exec_dec s .arg_byte args).cpu.flags = (alu_dec args.1 0 s.cpu.flags).2 ∧
        (exec_dec s .arg_byte args).cpu.x = s.cpu.x ∧ (exec_dec s .arg_byte args).cpu.y = s.cpu.y ∧
        (exec_dec s .arg_byte args).cpu.sp = s.cpu.sp ∧ (exec_dec s .arg_byte args).cpu.pc = s.cpu.pc ∧
        (exec_dec s .arg_byte args).mem = s.mem ∧
        (exec_dec s .arg_byte args).cycles = (s.cycles + 1) % 4294967296)) := by
  have hm : ((args.2 <<< 8) ||| args.1) % 65536 = effective args := Nat.mod_eq_of_lt hT
  have k := rmw_addr alu_dec s _ hT
    (rmw_byte (bus_read s.mem (effective args)) s.cpu.flags (bus_read_lt _ _)).2.2.2.2.2
  simp only [exec_dec, if_true, hm, reduceCtorEq, if_false, and_true, true_and]
  exact k

/-- C26: for each read-modify-write handler (`exec_asl`, `exec_lsr`, `exec_rol`,
`exec_ror`, `exec_inc`, `exec_dec`) with ALU function `op`, run on the flags of
the machine.  Given an address operand `A`, the cell `A` becomes `op(mem[A])`,
every other cell and `a`, `x`, `y`, `sp`, `pc` are as before, the flags are those
`op` leaves, and the cycle counter grows by 3.  Given a byte operand `v`, the
accumulator becomes `op(v)`, the flags are those `op` leaves, `x`, `y`, `sp`,
`pc` and the memory are as before, and the counter grows by 1.  The counter is
counted in 32-bit arithmetic, so it grows by exactly 3 or 1 when it does not
wrap. -/
theorem rmw_handlers (s : Machine) (args : Nat × Nat)
    (h1 : args.1 < 256) (h2 : args.2 < 256) :
    (((exec_asl s .arg_addr args).mem (effective args)
          = (alu_asl (bus_read s.mem (effective args)) 0 s.cpu.flags).1 ∧
        (∀ p, p ≠ effective args → (exec_asl s .arg_addr args).mem p = s.mem p) ∧
        (exec_asl s .arg_addr args).cpu.a = s.cpu.a ∧ (exec_asl s .arg_addr args).cpu.x = s.cpu.x ∧
        (exec_asl s .arg_addr args).cpu.y = s.cpu.y ∧ (exec_asl s .arg_addr args).cpu.sp = s.cpu.sp ∧
        (exec_asl s .arg_addr args).cpu.pc = s.cpu.pc ∧
        (exec_asl s .arg_addr args).cpu.flags
          = (alu_asl (bus_read s.mem (effective args)) 0 s.cpu.flags).2 ∧
        (exec_asl s .arg_addr args).cycles = (s.cycles + 3) % 4294967296) ∧
      ((exec_asl s .arg_byte args).cpu.a = (alu_asl args.1 0 s.cpu.flags).1 ∧
        (exec_asl s .arg_byte args).cpu.flags = (alu_asl args.1 0 s.cpu.flags).2 ∧
        (exec_asl s .arg_byte args).cpu.x = s.cpu.x ∧ (exec_asl s .arg_byte args).cpu.y = s.cpu.y ∧
        (exec_asl s .arg_byte args).cpu.sp = s.cpu.sp ∧ (exec_asl s .arg_byte args).cpu.pc = s.cpu.pc ∧
        (exec_asl s .arg_byte args).mem = s.mem ∧
        (exec_asl s .arg_byte args).cycles = (s.cycles + 1) % 4294967296)) ∧
    (((exec_lsr s .arg_addr args).mem (effective args)
          = (alu_lsr (bus_read s.mem (effective args)) 0 s.cpu.flags).1 ∧
        (∀ p, p ≠ effective args → (exec_lsr s .arg_addr args).mem p = s.mem p) ∧
        (exec_lsr s .arg_addr args).cpu.a = s.cpu.a ∧ (exec_lsr s .arg_addr args).cpu.x = s.cpu.x ∧
        (exec_lsr s .arg_addr args).cpu.y = s.cpu.y ∧ (exec_lsr s .arg_addr args).cpu.sp = s.cpu.sp ∧
        (exec_lsr s .arg_addr args).cpu.pc = s.cpu.pc ∧
        (exec_lsr s .arg_addr args).cpu.flags
          = (alu_lsr (bus_read s.mem (effective args)) 0 s.cpu.flags).2 ∧
        (exec_lsr s .arg_addr args).cycles = (s.cycles + 3) % 4294967296) ∧
      ((exec_lsr s .arg_byte args).cpu.a = (alu_lsr args.1 0 s.cpu.flags).1 ∧
        (exec_lsr s .arg_byte args).cpu.flags = (alu_lsr args.1 0 s.cpu.flags).2 ∧
        (exec_lsr s .arg_byte args).cpu.x = s.cpu.x ∧ (exec_lsr s .arg_byte args).cpu.y = s.cpu.y ∧
        (exec_lsr s .arg_byte args).cpu.sp = s.cpu.sp ∧ (exec_lsr s .arg_byte args).cpu.pc = s.cpu.pc ∧
        (exec_lsr s .arg_byte args).mem = s.mem ∧
        (exec_lsr s .arg_byte args).cycles = (s.cycles + 1) % 4294967296)) ∧
    (((exec_rol s .arg_addr args).mem (effective args)
          = (alu_rol (bus_read s.mem (effective args)) 0 s.cpu.flags).1 ∧
        (∀ p, p ≠ effective args → (exec_rol s .arg_addr args).mem p = s.mem p) ∧
        (exec_rol s .arg_addr args).cpu.a = s.cpu.a ∧ (exec_rol s .arg_addr args).cpu.x = s.cpu.x ∧
        (exec_rol s .arg_addr args).cpu.y = s.cpu.y ∧ (exec_rol s .arg_addr args).cpu.sp = s.cpu.sp ∧
        (exec_rol s .arg_addr args).cpu.pc = s.cpu.pc ∧
        (exec_rol s .arg_addr args).cpu.flags
          = (alu_rol (bus_read s.mem (effective args)) 0 s.cpu.flags).2 ∧
        (exec_rol s .arg_addr args).cycles = (s.cycles + 3) % 4294967296) ∧
      ((exec_rol s .arg_byte args).cpu.a = (alu_rol args.1 0 s.cpu.flags).1 ∧
        (exec_rol s .arg_byte args).cpu.flags = (alu_rol args.1 0 s.cpu.flags).2 ∧
        (exec_rol s .arg_byte args).cpu.x = s.cpu.x ∧ (exec_rol s .arg_byte args).cpu.y = s.cpu.y ∧
        (exec_rol s .arg_byte args).cpu.sp = s.cpu.sp ∧ (exec_rol s .arg_byte args).cpu.pc = s.cpu.pc ∧
        (exec_rol s .arg_byte args).mem = s.mem ∧
        (exec_rol s .arg_byte args).cycles = (s.cycles + 1) % 4294967296)) ∧
    (((exec_ror s .arg_addr args).mem (effective args)
          = (alu_ror (bus_read s.mem (effective args)) 0 s.cpu.flags).1 ∧
        (∀ p, p ≠ effective args → (exec_ror s .arg_addr args).mem p = s.mem p) ∧
        (exec_ror s .arg_addr args).cpu.a = s.cpu.a ∧ (exec_ror s .arg_addr args).cpu.x = s.cpu.x ∧
        (exec_ror s .arg_addr args).cpu.y = s.cpu.y ∧ (exec_ror s .arg_addr args).cpu.sp = s.cpu.sp ∧
        (exec_ror s .arg_addr args).cpu.pc = s.cpu.pc ∧
        (exec_ror s .arg_addr args).cpu.flags
          = (alu_ror (bus_read s.mem (effective args)) 0 s.cpu.flags).2 ∧
        (exec_ror s .arg_addr args).cycles = (s.cycles + 3) % 4294967296) ∧
      ((exec_ror s .arg_byte args).cpu.a = (alu_ror args.1 0 s.cpu.flags).1 ∧
        (exec_ror s .arg_byte args).cpu.flags = (alu_ror args.1 0 s.cpu.flags).2 ∧
        (exec_ror s .arg_byte args).cpu.x = s.cpu.x ∧ (exec_ror s .arg_byte args).cpu.y = s.cpu.y ∧
        (exec_ror s .arg_byte args).cpu.sp = s.cpu.sp ∧ (exec_ror s .arg_byte args).cpu.pc = s.cpu.pc ∧
        (exec_ror s .arg_byte args).mem = s.mem ∧
        (exec_ror s .arg_byte args).cycles = (s.cycles + 1) % 4294967296)) ∧
    (((exec_inc s .arg_addr args).mem (effective args)
          = (alu_inc (bus_read s.mem (effective args)) 0 s.cpu.flags).1 ∧
        (∀ p, p ≠ effective args → (exec_inc s .arg_addr args).mem p = s.mem p) ∧
        (exec_inc s .arg_addr args).cpu.a = s.cpu.a ∧ (exec_inc s .arg_addr args).cpu.x = s.cpu.x ∧
        (exec_inc s .arg_addr args).cpu.y = s.cpu.y ∧ (exec_inc s .arg_addr args).cpu.sp = s.cpu.sp ∧
        (exec_inc s .arg_addr args).cpu.pc = s.cpu.pc ∧
        (exec_inc s .arg_addr args).cpu.flags
          = (alu_inc (bus_read s.mem (effective args)) 0 s.cpu.flags).2 ∧
        (exec_inc s .arg_addr args).cycles = (s.cycles + 3) % 4294967296) ∧
      ((exec_inc s .arg_byte args).cpu.a = (alu_inc args.1 0 s.cpu.flags).1 ∧
        (exec_inc s .arg_byte args).cpu.flags = (alu_inc args.1 0 s.cpu.flags).2 ∧
        (exec_inc s .arg_byte args).cpu.x = s.cpu.x ∧ (exec_inc s .arg_byte args).cpu.y = s.cpu.y ∧
        (exec_inc s .arg_byte args).cpu.sp = s.cpu.sp ∧ (exec_inc s .arg_byte args).cpu.pc = s.cpu.pc ∧
        (exec_inc s .arg_byte args).mem = s.mem ∧
        (exec_inc s .arg_byte args).cycles = (s.cycles + 1) % 4294967296)) ∧
    (((exec_dec s .arg_addr args).mem (effective args)
          = (alu_dec (bus_read s.mem (effective args)) 0 s.cpu.flags).1 ∧
        (∀ p, p ≠ effective args → (exec_dec s .arg_addr args).mem p = s.mem p) ∧
        (exec_dec s .arg_addr args).cpu.a = s.cpu.a ∧ (exec_dec s .arg_addr args).cpu.x = s.cpu.x ∧
        (exec_dec s .arg_addr args).cpu.y = s.cpu.y ∧ (exec_dec s .arg_addr args).cpu.sp = s.cpu.sp ∧
        (exec_dec s .arg_addr args).cpu.pc = s.cpu.pc ∧
        (exec_dec s .arg_addr args).cpu.flags
          = (alu_dec (bus_read s.mem (effective args)) 0 s.cpu.flags).2 ∧
        (exec_dec s .arg_addr args).cycles = (s.cycles + 3) % 4294967296) ∧
      ((exec_dec s .arg_byte args).cpu.a = (alu_dec args.1 0 s.cpu.flags).1 ∧
        (exec_dec s .arg_byte args).cpu.flags = (alu_dec args.1 0 s.cpu.flags).2 ∧
        (exec_dec s .arg_byte args).cpu.x = s.cpu.x ∧ (exec_dec s .arg_byte args).cpu.y = s.cpu.y ∧
        (exec_dec s .arg_byte args).cpu.sp = s.cpu.sp ∧ (exec_dec s .arg_byte args).cpu.pc = s.cpu.pc ∧
        (exec_dec s .arg_byte args).mem = s.mem ∧
        (exec_dec s .arg_byte args).cycles = (s.cycles + 1) % 4294967296)) ∧
    (s.cycles + 3 < 4294967296 → (s.cycles + 3) % 4294967296 = s.cycles + 3) ∧
    (s.cycles + 1 < 4294967296 → (s.cycles + 1) % 4294967296 = s.cycles + 1) := by
  have hT : effective args < 65536 := by
    have := addr_lt args.1 args.2 h1 h2
    unfold effective
    omega
  exact ⟨rmw_asl s args hT, rmw_lsr s args hT, rmw_rol s args hT, rmw_ror s args hT,
    rmw_inc s args hT, rmw_dec s args hT, fun h => Nat.mod_eq_of_lt h,
    fun h => Nat.mod_eq_of_lt h⟩

/-- Witness of C26: `ASL` of the cell `0x0200` holding `0x81`, which becomes
`0x02`, and `ASL` of the accumulator operand `0x81`. -/
theorem rmw_handlers_witness :
    (exec_asl ⟨⟨0x8000, 0x81, 0, 0, 0xFF, 0x20⟩, fun p => if p = 0x0200 then 0x81 else 0, 4⟩
      .arg_addr (0x00, 0x02)).mem 0x0200 = 0x02 ∧
    (exec_asl ⟨⟨0x8000, 0x81, 0, 0, 0xFF, 0x20⟩, fun p => if p = 0x0200 then 0x81 else 0, 4⟩
      .arg_addr (0x00, 0x02)).cycles = 7 ∧
    (exec_asl ⟨⟨0x8000, 0x81, 0, 0, 0xFF, 0x20⟩, fun p => if p = 0x0200 then 0x81 else 0, 4⟩
      .arg_byte (0x81, 0x00)).cpu.a = 0x02 :=
  ⟨(rmw_handlers ⟨⟨0x8000, 0x81, 0, 0, 0xFF, 0x20⟩, fun p => if p = 0x0200 then 0x81 else 0, 4⟩
      (0x00, 0x02) (by decide) (by decide)).1.1.1,
    (rmw_handlers ⟨⟨0x8000, 0x81, 0, 0, 0xFF, 0x20⟩, fun p => if p = 0x0200 then 0x81 else 0, 4⟩
      (0x00, 0x02) (by decide) (by decide)).1.1.2.2.2.2.2.2.2.2,
    (rmw_handlers ⟨⟨0x8000, 0x81, 0, 0, 0xFF, 0x20⟩, fun p => if p = 0x0200 then 0x81 else 0, 4⟩
      (0x81, 0x00) (by decide) (by decide)).1.2.1⟩

/-! ## Dispatch -/

/-- C27 fails on the code at the instruction index 56.  The table has 56
entries, at the indices 0 to 55, and `exec_execute` takes its fatal branch only
for an index greater than 56; for the index 56 it goes on to read `exec_instr`
past its last entry.  An index of 57 is fatal, and the index 55 runs the last
handler, `exec_tya`. -/
theorem dispatch_past_table (ndebug : Bool) (s : Machine) (t : argtype) (args : Nat × Nat) :
    (exec_instr ndebug).length = 56 ∧
    exec_execute ndebug s 56 t args = Dispatched.outside ∧
    exec_execute ndebug s 56 t args ≠ Dispatched.fatal ∧
    exec_execute ndebug s 57 t args = Dispatched.fatal ∧
    exec_execute ndebug s 55 t args = Dispatched.ran (some (exec_tya s t args)) := by
  have h56 : exec_execute ndebug s 56 t args = Dispatched.outside := by
    simp [exec_execute, exec_instr]
  refine ⟨by simp [exec_instr], h56, ?_, ?_, ?_⟩
  · rw [h56]
    intro h
    cases h
  · simp [exec_execute, exec_instr]
  · simp [exec_execute, exec_instr]

/-- Inside the table `exec_execute` runs the handler at the index, and above
56 it is fatal. -/
theorem dispatch_in_table (ndebug : Bool) (s : Machine) (t : argtype) (args : Nat × Nat)
    (i : Nat) :
    (56 < i → exec_execute ndebug s i t args = Dispatched.fatal) ∧
    (∀ handler, (exec_instr ndebug)[i]? = some handler →
      exec_execute ndebug s i t args = Dispatched.ran (handler s t args)) := by
  have hlen : (exec_instr ndebug).length = 56 := by simp [exec_instr]
  constructor
  · intro h
    simp only [exec_execute, hlen, gt_iff_lt, if_pos h]
  · intro handler hh
    have hi : i < 56 := by
      have := (List.getElem?_eq_some_iff.mp hh).1
      omega
    simp only [exec_execute, hlen, gt_iff_lt, if_neg (by omega : ¬ 56 < i), hh]

/-! ## Signed overflow -/

theorem bit7 (x : Nat) : x &&& 0x80 ≠ 0 ↔ x / 128 % 2 = 1 := by
  have h : x &&& 0x80 = (x &&& 0xff) &&& 0x80 := by
    rw [Nat.and_assoc]; rfl
  rw [h, and_ff, and_80 _ (Nat.mod_lt _ (by decide))]
  omega

theorem ovrf_bits (a b r : Nat) :
    ((a ^^^ r) &&& (b ^^^ r) &&& 0x80) ≠ 0
      ↔ (¬ (a / 128 % 2 = r / 128 % 2)) ∧ (¬ (b / 128 % 2 = r / 128 % 2)) := by
  have h1 : ((a ^^^ r) &&& (b ^^^ r) &&& 0x80) ≠ 0
      ↔ ((a ^^^ r) &&& (b ^^^ r)).testBit 7 = true := by
    rw [bit7, Nat.testBit_to_div_mod]
    simp
  rw [h1, Nat.testBit_and, Nat.testBit_xor, Nat.testBit_xor]
  simp only [Nat.testBit_to_div_mod]
  have ha : a / 2 ^ 7 % 2 = 0 ∨ a / 2 ^ 7 % 2 = 1 := by omega
  have hb : b / 2 ^ 7 % 2 = 0 ∨ b / 2 ^ 7 % 2 = 1 := by omega
  have hr : r / 2 ^ 7 % 2 = 0 ∨ r / 2 ^ 7 % 2 = 1 := by omega
  have e : (2 : Nat) ^ 7 = 128 := by decide
  rw [e] at ha hb hr ⊢
  rcases ha with ha | ha <;> rcases hb with hb | hb <;> rcases hr with hr | hr <;>
    simp [ha, hb, hr]

/-- C28: in binary mode (BCD clear) OVRF is two's-complement overflow.  For
bytes `a`, `b` and carry-in `c = flags & FLAG_CARRY`, `alu_add` sets OVRF iff
`signed(a) + signed(b) + c` lies outside -128..127, and `alu_sub` sets OVRF iff
`signed(a) - signed(b) - (1 - c)` lies outside -128..127. -/
theorem ovrf_signed (a b flags : Nat) (ha : a < 256) (hb : b < 256)
    (hbcd : flags &&& FLAG_BCD = 0) :
    ((alu_add a b flags).2 &&& FLAG_OVRF ≠ 0
      ↔ ¬ (-128 ≤ signed a + signed b + ((flags &&& FLAG_CARRY : Nat) : Int) ∧
          signed a + signed b + ((flags &&& FLAG_CARRY : Nat) : Int) ≤ 127)) ∧
    ((alu_sub a b flags).2 &&& FLAG_OVRF ≠ 0
      ↔ ¬ (-128 ≤ signed a - signed b - (1 - ((flags &&& FLAG_CARRY : Nat) : Int)) ∧
          signed a - signed b - (1 - ((flags &&& FLAG_CARRY : Nat) : Int)) ≤ 127)) := by
  have hc := carry_le_one flags
  rw [alu_add_eq, adjust_binary _ _ _ _ _ hbcd, sub_binary_shape a b flags hb hbcd]
  generalize flags &&& FLAG_CARRY = c at hc ⊢
  have hr : (a + b + c) % 65536 = a + b + c := Nat.mod_eq_of_lt (by omega)
  have hr2 : (a + (255 - b) + c) % 65536 = a + (255 - b) + c := Nat.mod_eq_of_lt (by omega)
  simp only [hr, hr2, finish_ovrf, ovrf_bits, signed]
  constructor
  · split_ifs <;> omega
  · split_ifs <;> omega

/-- Witness of C28: `0x50 + 0x50` overflows (80 + 80 = 160), `0x50 - 0xF0` with
CARRY set does not (80 - (-16) = 96). -/
theorem ovrf_signed_witness :
    ((alu_add 0x50 0x50 0).2 &&& FLAG_OVRF ≠ 0
      ↔ ¬ (-128 ≤ signed 0x50 + signed 0x50 + ((0 &&& FLAG_CARRY : Nat) : Int) ∧
          signed 0x50 + signed 0x50 + ((0 &&& FLAG_CARRY : Nat) : Int) ≤ 127)) ∧
    ((alu_sub 0x50 0xF0 FLAG_CARRY).2 &&& FLAG_OVRF ≠ 0
      ↔ ¬ (-128 ≤ signed 0x50 - signed 0xF0
            - (1 - ((FLAG_CARRY &&& FLAG_CARRY : Nat) : Int)) ∧
          signed 0x50 - signed 0xF0 - (1 - ((FLAG_CARRY &&& FLAG_CARRY : Nat) : Int)) ≤ 127)) :=
  ⟨(ovrf_signed 0x50 0x50 0 (by decide) (by decide) (by decide)).1,
    (ovrf_signed 0x50 0xF0 FLAG_CARRY (by decide) (by decide) (by decide)).2⟩

/-! ## Interrupt entry and return -/

theorem exec_rti_fields (m : Machine) (t : argtype) (args : Nat × Nat) :
    (exec_rti m t args).cpu.flags = m.mem (256 + (m.cpu.sp + 1) % 256) % 256 &&& 0xCF ∧
    (exec_rti m t args).cpu.pc
      = (m.mem (256 + ((m.cpu.sp + 1) % 256 + 1) % 256) % 256
          ||| ((m.mem (256 + (((m.cpu.sp + 1) % 256 + 1) % 256 + 1) % 256) % 256) <<< 8))
          % 65536 ∧
    (exec_rti m t args).cpu.sp = (((m.cpu.sp + 1) % 256 + 1) % 256 + 1) % 256 ∧
    (exec_rti m t args).cpu.a = m.cpu.a ∧ (exec_rti m t args).cpu.x = m.cpu.x ∧
    (exec_rti m t args).cpu.y = m.cpu.y := by
  have h0 := exec_pop_data m
  refine ⟨?_, ?_, rfl, rfl, rfl, rfl⟩
  · rw [exec_rti_flags, h0]
  · simp only [exec_rti, exec_pop_data, exec_pop_machine]

theorem popped_irq_flags (f : Nat) : ((f ||| 0x20) &&& 0xEF) % 256 &&& 0xCF = f &&& 0xCF := by
  have hle : (f ||| 0x20) &&& 0xEF ≤ 0xEF := Nat.and_le_right
  rw [Nat.mod_eq_of_lt (by omega), Nat.and_assoc, Nat.and_distrib_right]
  have e1 : (0xEF : Nat) &&& 0xCF = 0xCF := by decide
  have e2 : (0x20 : Nat) &&& 0xCF = 0 := by decide
  rw [e1, e2, Nat.or_zero]

/-- The stack that interrupt entry leaves, read back by `exec_rti`. -/
theorem entry_stack (s : Machine) (m : Machine) (hpc : s.cpu.pc < 65536)
    (hsp : s.cpu.sp < 256)
    (hmem : m.mem = (exec_push (exec_push (exec_push s ((s.cpu.pc >>> 8) &&& 0xff))
        (s.cpu.pc &&& 0xff)) ((s.cpu.flags ||| FLAG_ONE) &&& (0xff ^^^ FLAG_BRK))).mem)
    (hmsp : m.cpu.sp = (((s.cpu.sp + 255) % 256 + 255) % 256 + 255) % 256)
    (t : argtype) (args : Nat × Nat) :
    (exec_rti m t args).cpu.pc = s.cpu.pc ∧ (exec_rti m t args).cpu.sp = s.cpu.sp ∧
    (exec_rti m t args).cpu.flags = s.cpu.flags &&& 0xCF := by
  obtain ⟨hf, hp, hs, -, -, -⟩ := exec_rti_fields m t args
  obtain ⟨hfl, -, -⟩ := pushed_irq_flags s.cpu.flags
  rw [push3_mem _ _ _ _ hsp, hi_byte _ hpc, and_ff, hfl] at hmem
  have e1 : (m.cpu.sp + 1) % 256 = (s.cpu.sp + 254) % 256 := by omega
  have e2 : ((s.cpu.sp + 254) % 256 + 1) % 256 = (s.cpu.sp + 255) % 256 := by omega
  have e3 : ((s.cpu.sp + 255) % 256 + 1) % 256 = s.cpu.sp := by omega
  rw [e1, e2, e3] at hp hs
  rw [e1] at hf
  have r2 : m.mem (256 + (s.cpu.sp + 254) % 256) = (s.cpu.flags ||| 0x20) &&& 0xEF := by
    rw [hmem]
    beta_reduce
    rw [if_pos rfl]
  have r1 : m.mem (256 + (s.cpu.sp + 255) % 256) = s.cpu.pc % 256 := by
    rw [hmem]
    beta_reduce
    split_ifs <;> omega
  have r0 : m.mem (256 + s.cpu.sp) = s.cpu.pc / 256 := by
    rw [hmem]
    beta_reduce
    split_ifs <;> omega
  refine ⟨?_, hs, ?_⟩
  · rw [hp, r1, r0, word_eq _ _ (Nat.mod_lt _ (by decide))]
    omega
  · rw [hf, r2, popped_irq_flags]

/-- C29: interrupt entry followed by RTI restores the interrupted context.  For
every CPU state (`pc = P`, `sp = s`, `flags = f`) and memory, `exec_irq` (or
`exec_nmi`) followed by `exec_rti` yields `pc = P`, `sp = s`, `a`, `x`, `y`
unchanged and `flags = f & 0xCF`; so IRQD, which the entry set, is again the
interrupted code's own IRQD bit. -/
theorem entry_then_rti (s : Machine) (t : argtype) (args : Nat × Nat)
    (hpc : s.cpu.pc < 65536) (hsp : s.cpu.sp < 256) :
    ((exec_rti (exec_irq s) t args).cpu.pc = s.cpu.pc ∧
      (exec_rti (exec_irq s) t args).cpu.sp = s.cpu.sp ∧
      (exec_rti (exec_irq s) t args).cpu.a = s.cpu.a ∧
      (exec_rti (exec_irq s) t args).cpu.x = s.cpu.x ∧
      (exec_rti (exec_irq s) t args).cpu.y = s.cpu.y ∧
      (exec_rti (exec_irq s) t args).cpu.flags = s.cpu.flags &&& 0xCF ∧
      (exec_rti (exec_irq s) t args).cpu.flags &&& FLAG_IRQD = s.cpu.flags &&& FLAG_IRQD) ∧
    ((exec_rti (exec_nmi s) t args).cpu.pc = s.cpu.pc ∧
      (exec_rti (exec_nmi s) t args).cpu.sp = s.cpu.sp ∧
      (exec_rti (exec_nmi s) t args).cpu.a = s.cpu.a ∧
      (exec_rti (exec_nmi s) t args).cpu.x = s.cpu.x ∧
      (exec_rti (exec_nmi s) t args).cpu.y = s.cpu.y ∧
      (exec_rti (exec_nmi s) t args).cpu.flags = s.cpu.flags &&& 0xCF ∧
      (exec_rti (exec_nmi s) t args).cpu.flags &&& FLAG_IRQD = s.cpu.flags &&& FLAG_IRQD) := by
  obtain ⟨i1, i2, i3⟩ := entry_stack s (exec_irq s) hpc hsp (exec_irq_mem s) (entry_sp s).1 t args
  obtain ⟨n1, n2, n3⟩ := entry_stack s (exec_nmi s) hpc hsp (exec_nmi_mem s) (entry_sp s).2 t args
  obtain ⟨-, -, -, ia, ix, iy⟩ := exec_rti_fields (exec_irq s) t args
  obtain ⟨-, -, -, na, nx, ny⟩ := exec_rti_fields (exec_nmi s) t args
  have hia : (exec_irq s).cpu.a = s.cpu.a ∧ (exec_irq s).cpu.x = s.cpu.x ∧
      (exec_irq s).cpu.y = s.cpu.y := by
    simp only [exec_irq, exec_push, and_self]
  have hna : (exec_nmi s).cpu.a = s.cpu.a ∧ (exec_nmi s).cpu.x = s.cpu.x ∧
      (exec_nmi s).cpu.y = s.cpu.y := by
    simp only [exec_nmi, exec_push, and_self]
  have hq : s.cpu.flags &&& 0xCF &&& FLAG_IRQD = s.cpu.flags &&& FLAG_IRQD :=
    and_cf _ _ (by decide)
  refine ⟨⟨i1, i2, ?_, ?_, ?_, i3, ?_⟩, ⟨n1, n2, ?_, ?_, ?_, n3, ?_⟩⟩
  · rw [ia, hia.1]
  · rw [ix, hia.2.1]
  · rw [iy, hia.2.2]
  · rw [i3, hq]
  · rw [na, hna.1]
  · rw [nx, hna.2.1]
  · rw [ny, hna.2.2]
  · rw [n3, hq]

/-- Witness of C29: the state of scenario S6 with IRQD clear; after `exec_irq`
and `exec_rti` the program counter is `0x1234` again, `sp = 0xFF`, and the
flags are `0x00`. -/
theorem entry_then_rti_witness :
    (exec_rti (exec_irq ⟨⟨0x1234, 1, 2, 3, 0xFF, 0x20⟩,
      fun p => if p = 0xFFFE then 0x00 else if p = 0xFFFF then 0x90 else 0, 0⟩)
      .arg_none (0, 0)).cpu.pc = 0x1234 ∧
    (exec_rti (exec_irq ⟨⟨0x1234, 1, 2, 3, 0xFF, 0x20⟩,
      fun p => if p = 0xFFFE then 0x00 else if p = 0xFFFF then 0x90 else 0, 0⟩)
      .arg_none (0, 0)).cpu.sp = 0xFF ∧
    (exec_rti (exec_irq ⟨⟨0x1234, 1, 2, 3, 0xFF, 0x20⟩,
      fun p => if p = 0xFFFE then 0x00 else if p = 0xFFFF then 0x90 else 0, 0⟩)
      .arg_none (0, 0)).cpu.flags = 0x00 :=
  ⟨(entry_then_rti ⟨⟨0x1234, 1, 2, 3, 0xFF, 0x20⟩,
      fun p => if p = 0xFFFE then 0x00 else if p = 0xFFFF then 0x90 else 0, 0⟩
      .arg_none (0, 0) (by decide) (by decide)).1.1,
    (entry_then_rti ⟨⟨0x1234, 1, 2, 3, 0xFF, 0x20⟩,
      fun p => if p = 0xFFFE then 0x00 else if p = 0xFFFF then 0x90 else 0, 0⟩
      .arg_none (0, 0) (by decide) (by decide)).1.2.1,
    (entry_then_rti ⟨⟨0x1234, 1, 2, 3, 0xFF, 0x20⟩,
      fun p => if p = 0xFFFE then 0x00 else if p = 0xFFFF then 0x90 else 0, 0⟩
      .arg_none (0, 0) (by decide) (by decide)).1.2.2.2.2.2.1⟩

end SimAK65
